import Mathlib

/-!
Clapper Control Hub: state mirror, notification handlers, WebSocket dispatcher, JSON
encoder, HTTP handlers and activation.

Shallow embedding of `src/control-hub/clapper-control-hub.c`,
`src/control-hub/clapper-control-hub-ws.c` and `src/control-hub/clapper-control-hub-json.c`
with the event macros of `clapper-control-hub-json.h`.

* A `GPtrArray` is a `List`; the GLib array functions are modelled after their documented
  behaviour, precondition checks (`g_return_if_fail`) included.
* A finite `gdouble` is a rational number (every finite double is one).
* A handler returns the new hub together with the texts it handed to
  `clapper_control_hub_ws_send`, in call order.
* The WebSocket message callback returns the calls it issued on the player and its queue.
* A C string is the list of its characters; `printf` conversions are modelled after the C
  standard for the C locale.
-/

namespace ControlHub

/-! ## Basic types and constants -/

/-- A finite `gdouble`. -/
abbrev GDouble := ℚ

/-- Largest `guint`. -/
def G_MAXUINT : Nat := 4294967295

/-- Clapper's "no position" sentinel, `G_MAXUINT` in the player library. -/
def CLAPPER_QUEUE_INVALID_POSITION : Nat := G_MAXUINT

/-- First value of `ClapperPlayerState`, the enumeration of the player library. -/
def CLAPPER_PLAYER_STATE_STOPPED : Nat := 0

/-- Second `ClapperPlayerState` value. -/
def CLAPPER_PLAYER_STATE_PAUSED : Nat := 1

/-- Third `ClapperPlayerState` value. -/
def CLAPPER_PLAYER_STATE_BUFFERING : Nat := 2

/-- Fourth `ClapperPlayerState` value. -/
def CLAPPER_PLAYER_STATE_PLAYING : Nat := 3

/-- Bit of `ClapperReactableItemUpdatedFlags` for a redirect URI change (`1 << 4`). -/
def CLAPPER_REACTABLE_ITEM_UPDATED_REDIRECT_URI : Nat := 16

/-- Bit of `ClapperReactableItemUpdatedFlags` for a cache location change (`1 << 5`). -/
def CLAPPER_REACTABLE_ITEM_UPDATED_CACHE_LOCATION : Nat := 32

/-- Value of `SoupWebsocketDataType` for a text frame. -/
def SOUP_WEBSOCKET_DATA_TEXT : Nat := 1

/-- Value of `SoupWebsocketDataType` for a binary frame. -/
def SOUP_WEBSOCKET_DATA_BINARY : Nat := 2

/-- A `ClapperMarker` of an item's timeline, with the values its getters return. -/
structure Marker where
  marker_type : Nat
  title : String
  start : GDouble
  end_ : GDouble
  deriving DecidableEq

/-- A `ClapperMediaItem` object: `ptr` is the address of the object (its identity, what the
C code compares with `==`), the other fields are what its getters return; `timeline` lists
the markers of its `ClapperTimeline` and `tags` is what `gst_tag_list_to_string` gives for
its tag list (`none` for NULL). The title getters of items and markers are taken to give
a string; an object for which they give NULL has no counterpart here. -/
structure MediaItem where
  ptr : Nat
  id : Nat
  title : String
  duration : GDouble
  timeline : List Marker := []
  tags : Option String := none
  deriving DecidableEq

/-- Pointer comparison of two media items. -/
def MediaItem.same (a b : MediaItem) : Bool := a.ptr == b.ptr

/-- The `SoupWebsocketState` of a connection. -/
inductive SoupWebsocketState where
  | OPEN
  | CLOSING
  | CLOSED
  deriving DecidableEq, Repr

/-- A `SoupWebsocketConnection`: its address and the state libsoup reports for it. -/
structure WsConnection where
  ptr : Nat
  state : SoupWebsocketState
  deriving DecidableEq

/-- The `struct _ClapperControlHub`. `mdns` tells whether the announcer object exists;
`played_item = none` is the NULL pointer. -/
structure Hub where
  running : Bool
  ws_connections : List WsConnection
  mdns : Bool
  items : List MediaItem
  played_item : Option MediaItem
  played_index : Nat
  state : Nat
  position : GDouble
  speed : GDouble
  volume : GDouble
  mute : Bool
  progression : Nat
  active : Bool
  queue_controllable : Bool

/-- The hub right after `clapper_control_hub_init` (GObject zero-fills the instance first). -/
def clapper_control_hub_init : Hub :=
  { running := false
    ws_connections := []
    mdns := false
    items := []
    played_item := none
    played_index := CLAPPER_QUEUE_INVALID_POSITION
    state := 0
    position := 0
    speed := 1
    volume := 1
    mute := false
    progression := 0
    active := false
    queue_controllable := false }

/-- An event text, named after the `clapper_control_hub_json_fill_*_message` macro that
fills the buffer, with the arguments given to the macro. -/
inductive WsMessage where
  | state_changed (state : Nat)
  | position_changed (position : GDouble)
  | speed_changed (speed : GDouble)
  | volume_changed (volume : GDouble)
  | mute_changed (mute : Bool)
  | played_index_changed (index : Nat)
  | progression_changed (mode : Nat)
  | item_updated (item_id flags : Nat)
  | item_added (item_id index : Nat)
  | item_removed (item_id index : Nat)
  | item_repositioned (before after : Nat)
  | queue_cleared
  deriving DecidableEq

/-! ## GLib pointer arrays -/

/-- Conversion of a `guint` argument to a `gint` parameter (two's complement). -/
def gint_of_guint (u : Nat) : Int :=
  if u % 4294967296 < 2147483648 then (u % 4294967296 : Nat) else ((u % 4294967296 : Nat) : Int) - 4294967296

/-- GLib `g_ptr_array_insert (array, index_, data)`: rejects `index_ < -1` and
`index_ > len`, appends for `-1`, otherwise shifts the tail up and stores `data`. -/
def g_ptr_array_insert {α : Type} (array : List α) (index_ : Int) (data : α) : List α :=
  if index_ < -1 then array
  else if index_ > (array.length : Int) then array
  else if index_ < 0 then array ++ [data]
  else array.take index_.toNat ++ data :: array.drop index_.toNat

/-- GLib `g_ptr_array_remove_index (array, index_)`: rejects `index_ >= len`, otherwise
removes the element and moves the following ones down, keeping their order. -/
def g_ptr_array_remove_index {α : Type} (array : List α) (index_ : Nat) : List α :=
  if index_ < array.length then array.take index_ ++ array.drop (index_ + 1) else array

/-- GLib `g_ptr_array_steal_index (array, index_)`: like `g_ptr_array_remove_index`, and
returns the removed pointer (NULL, here `none`, when the index is rejected). -/
def g_ptr_array_steal_index {α : Type} (array : List α) (index_ : Nat) : Option α × List α :=
  if index_ < array.length then
    (array[index_]?, array.take index_ ++ array.drop (index_ + 1))
  else (none, array)

/-- GLib `g_ptr_array_remove_range (array, index_, length)`: rejects a range that does not
lie inside the array, otherwise removes the `length` elements starting at `index_`. -/
def g_ptr_array_remove_range {α : Type} (array : List α) (index_ length : Nat) : List α :=
  if index_ ≤ array.length ∧ index_ + length ≤ array.length then
    array.take index_ ++ array.drop (index_ + length)
  else array

/-- Loop of `g_ptr_array_find`: scans from index `i` on and returns the first index whose
pointer equals the needle. -/
def g_ptr_array_find_loop (needle : MediaItem) : List MediaItem → Nat → Option Nat
  | [], _ => none
  | x :: rest, i => if x.same needle then some i else g_ptr_array_find_loop needle rest (i + 1)

/-- GLib `g_ptr_array_find (haystack, needle, &index)`: `some i` when it returns TRUE and
stores `i`. The array holds object references only, so a NULL needle is never found. -/
def g_ptr_array_find (haystack : List MediaItem) (needle : Option MediaItem) : Option Nat :=
  match needle with
  | none => none
  | some item => g_ptr_array_find_loop item haystack 0

/-- C conversion `(gint) x` of a double: truncation toward zero. C defines it when the
truncated value fits a `gint`. -/
def gint_of_gdouble (x : GDouble) : Int := Int.tdiv x.num x.den

/-- The truncated value of `x` fits a `gint`, so `(gint) x` is defined. -/
def fits_gint (x : GDouble) : Prop :=
  -2147483648 ≤ Int.tdiv x.num x.den ∧ Int.tdiv x.num x.den ≤ 2147483647

instance (x : GDouble) : Decidable (fits_gint x) := by
  unfold fits_gint; infer_instance

/-! ## Notification handlers (`clapper-control-hub.c`) -/

/-- The block that closes every handler:
`if (self->running && self->ws_connections->len > 0) { fill (data, ...); clapper_control_hub_ws_send (self, data); }`.
The result lists the texts handed to `clapper_control_hub_ws_send`. -/
def send_if_served (self : Hub) (data : WsMessage) : List WsMessage :=
  if self.running && decide (self.ws_connections.length > 0) then [data] else []

/-- Helper `_clear_stored_queue`. -/
def _clear_stored_queue (self : Hub) : Hub :=
  let items :=
    if self.items.length > 0 then g_ptr_array_remove_range self.items 0 self.items.length
    else self.items
  { self with items := items, played_item := none, played_index := CLAPPER_QUEUE_INVALID_POSITION }

/-- Handler `clapper_control_hub_state_changed`. -/
def clapper_control_hub_state_changed (self : Hub) (state : Nat) : Hub × List WsMessage :=
  let self := { self with state := state }
  (self, send_if_served self (.state_changed self.state))

/-- Handler `clapper_control_hub_position_changed`. -/
def clapper_control_hub_position_changed (self : Hub) (position : GDouble) :
    Hub × List WsMessage :=
  if gint_of_gdouble self.position = gint_of_gdouble position then (self, [])
  else
    let self := { self with position := position }
    (self, send_if_served self (.position_changed self.position))

/-- Handler `clapper_control_hub_speed_changed`. -/
def clapper_control_hub_speed_changed (self : Hub) (speed : GDouble) : Hub × List WsMessage :=
  let self := { self with speed := speed }
  (self, send_if_served self (.speed_changed self.speed))

/-- Handler `clapper_control_hub_volume_changed`. -/
def clapper_control_hub_volume_changed (self : Hub) (volume : GDouble) : Hub × List WsMessage :=
  let self := { self with volume := volume }
  (self, send_if_served self (.volume_changed self.volume))

/-- Handler `clapper_control_hub_mute_changed`. -/
def clapper_control_hub_mute_changed (self : Hub) (mute : Bool) : Hub × List WsMessage :=
  let self := { self with mute := mute }
  (self, send_if_served self (.mute_changed self.mute))

/-- Handler `clapper_control_hub_played_item_changed`; `item = none` is a NULL item. -/
def clapper_control_hub_played_item_changed (self : Hub) (item : Option MediaItem) :
    Hub × List WsMessage :=
  let self := { self with played_item := item }
  let self :=
    match g_ptr_array_find self.items self.played_item with
    | some i => { self with played_index := i }
    | none => { self with played_index := CLAPPER_QUEUE_INVALID_POSITION }
  (self, send_if_served self (.played_index_changed self.played_index))

/-- Handler `clapper_control_hub_item_updated`; `flags` is a 32-bit value. -/
def clapper_control_hub_item_updated (self : Hub) (item : MediaItem) (flags : Nat) :
    Hub × List WsMessage :=
  let flags := flags &&& (G_MAXUINT ^^^
    (CLAPPER_REACTABLE_ITEM_UPDATED_REDIRECT_URI ||| CLAPPER_REACTABLE_ITEM_UPDATED_CACHE_LOCATION))
  if flags = 0 then (self, [])
  else (self, send_if_served self (.item_updated item.id flags))

/-- Handler `clapper_control_hub_queue_item_added`. -/
def clapper_control_hub_queue_item_added (self : Hub) (item : MediaItem) (index : Nat) :
    Hub × List WsMessage :=
  let self := { self with items := g_ptr_array_insert self.items (gint_of_guint index) item }
  (self, send_if_served self (.item_added item.id index))

/-- Handler `clapper_control_hub_queue_item_removed`. -/
def clapper_control_hub_queue_item_removed (self : Hub) (item : MediaItem) (index : Nat) :
    Hub × List WsMessage :=
  let self :=
    if self.played_item.any (fun played => item.same played) then
      { self with played_item := none, played_index := CLAPPER_QUEUE_INVALID_POSITION }
    else self
  let self := { self with items := g_ptr_array_remove_index self.items index }
  (self, send_if_served self (.item_removed item.id index))

/-- Handler `clapper_control_hub_queue_item_repositioned`. When GLib rejects `before` the steal
returns NULL; the mirror holds object references only, so that NULL is not stored here. -/
def clapper_control_hub_queue_item_repositioned (self : Hub) (before after : Nat) :
    Hub × List WsMessage :=
  let self :=
    match g_ptr_array_steal_index self.items before with
    | (some item, rest) => { self with items := g_ptr_array_insert rest (gint_of_guint after) item }
    | (none, rest) => { self with items := rest }
  (self, send_if_served self (.item_repositioned before after))

/-- Handler `clapper_control_hub_queue_cleared`. -/
def clapper_control_hub_queue_cleared (self : Hub) : Hub × List WsMessage :=
  let self := _clear_stored_queue self
  (self, send_if_served self .queue_cleared)

/-- Handler `clapper_control_hub_queue_progression_changed`. -/
def clapper_control_hub_queue_progression_changed (self : Hub) (mode : Nat) :
    Hub × List WsMessage :=
  let self := { self with progression := mode }
  (self, send_if_served self (.progression_changed self.progression))

/-- A call of the player notification interface (`ClapperReactableInterface`). -/
inductive Notification where
  | state_changed (state : Nat)
  | position_changed (position : GDouble)
  | speed_changed (speed : GDouble)
  | volume_changed (volume : GDouble)
  | mute_changed (mute : Bool)
  | played_item_changed (item : Option MediaItem)
  | item_updated (item : MediaItem) (flags : Nat)
  | queue_item_added (item : MediaItem) (index : Nat)
  | queue_item_removed (item : MediaItem) (index : Nat)
  | queue_item_repositioned (before after : Nat)
  | queue_cleared
  | queue_progression_changed (mode : Nat)

/-- The virtual table set up by `clapper_control_hub_reactable_iface_init`. -/
def react (self : Hub) : Notification → Hub × List WsMessage
  | .state_changed state => clapper_control_hub_state_changed self state
  | .position_changed position => clapper_control_hub_position_changed self position
  | .speed_changed speed => clapper_control_hub_speed_changed self speed
  | .volume_changed volume => clapper_control_hub_volume_changed self volume
  | .mute_changed mute => clapper_control_hub_mute_changed self mute
  | .played_item_changed item => clapper_control_hub_played_item_changed self item
  | .item_updated item flags => clapper_control_hub_item_updated self item flags
  | .queue_item_added item index => clapper_control_hub_queue_item_added self item index
  | .queue_item_removed item index => clapper_control_hub_queue_item_removed self item index
  | .queue_item_repositioned before after =>
      clapper_control_hub_queue_item_repositioned self before after
  | .queue_cleared => clapper_control_hub_queue_cleared self
  | .queue_progression_changed mode => clapper_control_hub_queue_progression_changed self mode

/-- The hub after a sequence of notifications, delivered in order. -/
def react_all (self : Hub) : List Notification → Hub
  | [] => self
  | n :: rest => react_all (react self n).1 rest

/-- Broadcast `clapper_control_hub_ws_send`: the writes `(connection, text)` it performs, in order. -/
def clapper_control_hub_ws_send (hub : Hub) (text : WsMessage) : List (Nat × WsMessage) :=
  hub.ws_connections.filterMap fun connection =>
    if connection.state ≠ SoupWebsocketState.OPEN then none else some (connection.ptr, text)

/-! ## WebSocket message callback (`clapper-control-hub-ws.c`) -/

/-- The enumeration `ClapperControlHubAction` of `clapper-control-hub-actions.h`. -/
inductive ClapperControlHubAction where
  | INVALID
  | TOGGLE_PLAY
  | PLAY
  | PAUSE
  | STOP
  | SEEK
  | SET_SPEED
  | SET_VOLUME
  | SET_MUTE
  | SET_PROGRESSION
  | ADD
  | INSERT
  | SELECT
  | REMOVE
  | CLEAR
  deriving DecidableEq, Repr

/-- The functions declared in `clapper-control-hub-actions.h`. Their definitions are not
among the sources, so the callback takes them as a parameter. A `parse_*` function gives
`some` of the values it stores when it returns TRUE and `none` when it returns FALSE. -/
structure Actions where
  get_action : String → ClapperControlHubAction
  parse_seek : String → Option GDouble
  parse_set_speed : String → Option GDouble
  parse_set_volume : String → Option GDouble
  parse_set_mute : String → Option Bool
  parse_set_progression : String → Option Nat
  parse_add : String → Option String
  parse_insert : String → Option (String × Nat)
  parse_select : String → Option Nat
  parse_remove : String → Option Nat

/-- A call issued on the player control interface. A queue call that takes a new item
carries the URI given to `clapper_media_item_new`. -/
inductive PlayerCall where
  | clapper_player_play
  | clapper_player_pause
  | clapper_player_stop
  | clapper_player_seek (position : GDouble)
  | clapper_player_set_speed (speed : GDouble)
  | clapper_player_set_volume (volume : GDouble)
  | clapper_player_set_mute (mute : Bool)
  | clapper_queue_set_progression_mode (mode : Nat)
  | clapper_reactable_queue_append_sync (uri : String)
  | clapper_reactable_queue_insert_sync (uri : String) (after_item : MediaItem)
  | clapper_queue_select_item (item : MediaItem)
  | clapper_reactable_queue_remove_sync (item : MediaItem)
  | clapper_reactable_queue_clear_sync
  deriving DecidableEq

/-- Loop of `_get_item_by_id`: the first mirrored item whose id is `id`, NULL (`none`) without a
match. The INSERT, SELECT and REMOVE cases of `_ws_message_cb` carry the same loop inline:
`for (i = 0; i < items->len; ++i) if (id == clapper_media_item_get_id (item)) { ...; break; }`. -/
def _get_item_by_id : List MediaItem → Nat → Option MediaItem
  | [], _ => none
  | item :: rest, id => if item.id = id then some item else _get_item_by_id rest id

/-- The `switch (action)` of `_ws_message_cb`, entered with a player at hand. -/
def _ws_message_cb_switch (A : Actions) (hub : Hub) (action : ClapperControlHubAction)
    (text : String) : List PlayerCall :=
  match action with
  | .TOGGLE_PLAY =>
      if hub.state = CLAPPER_PLAYER_STATE_STOPPED ∨ hub.state = CLAPPER_PLAYER_STATE_PAUSED then
        [.clapper_player_play]
      else if hub.state = CLAPPER_PLAYER_STATE_PLAYING then [.clapper_player_pause]
      else []
  | .PLAY => [.clapper_player_play]
  | .PAUSE => [.clapper_player_pause]
  | .STOP => [.clapper_player_stop]
  | .SEEK =>
      match A.parse_seek text with
      | some position => [.clapper_player_seek position]
      | none => []
  | .SET_SPEED =>
      match A.parse_set_speed text with
      | some speed => [.clapper_player_set_speed speed]
      | none => []
  | .SET_VOLUME =>
      match A.parse_set_volume text with
      | some volume => [.clapper_player_set_volume volume]
      | none => []
  | .SET_MUTE =>
      match A.parse_set_mute text with
      | some mute => [.clapper_player_set_mute mute]
      | none => []
  | .SET_PROGRESSION =>
      match A.parse_set_progression text with
      | some mode => [.clapper_queue_set_progression_mode mode]
      | none => []
  | .ADD =>
      if hub.queue_controllable then
        match A.parse_add text with
        | some uri => [.clapper_reactable_queue_append_sync uri]
        | none => []
      else []
  | .INSERT =>
      if hub.queue_controllable then
        match A.parse_insert text with
        | some (uri, after_id) =>
            match _get_item_by_id hub.items after_id with
            | some after_item => [.clapper_reactable_queue_insert_sync uri after_item]
            | none => []
        | none => []
      else []
  | .SELECT =>
      if hub.queue_controllable then
        match A.parse_select text with
        | some id =>
            match _get_item_by_id hub.items id with
            | some item => [.clapper_queue_select_item item]
            | none => []
        | none => []
      else []
  | .REMOVE =>
      if hub.queue_controllable then
        match A.parse_remove text with
        | some id =>
            match _get_item_by_id hub.items id with
            | some item => [.clapper_reactable_queue_remove_sync item]
            | none => []
        | none => []
      else []
  | .CLEAR => if hub.queue_controllable then [.clapper_reactable_queue_clear_sync] else []
  | .INVALID => []

/-- Callback `_ws_message_cb (connection, type, message, hub)`. `message` is the C string that
`g_bytes_get_data` points at (`none` when it gives NULL) and `player` tells whether
`clapper_reactable_get_player` gives a player. The callback writes no field of the hub: it
returns the hub as it leaves it and the calls it issued, in order. -/
def _ws_message_cb (A : Actions) (hub : Hub) (player : Bool) (type : Nat)
    (message : Option String) : Hub × List PlayerCall :=
  if type ≠ SOUP_WEBSOCKET_DATA_TEXT then (hub, [])
  else
    match message with
    | none => (hub, [])
    | some text =>
        if text = "" then (hub, [])
        else
          let action := A.get_action text
          if action = ClapperControlHubAction.INVALID then (hub, [])
          else if player = false then (hub, [])
          else (hub, _ws_message_cb_switch A hub action text)

/-! ## JSON encoder (`clapper-control-hub-json.c`, `clapper-control-hub-json.h`) -/

/-- A C string: its characters up to the terminating NUL. -/
abbrev CString := List Char

/-- Text that `%u` prints for a `guint`: the decimal digits, no sign, no padding. -/
def printf_u (value : Nat) : CString := Nat.toDigits 10 value

/-- Nearest integer to `n / d`, the even one on a tie: the rounding `printf` applies to the
exact value of a double. -/
def round_half_even (n d : Nat) : Nat :=
  if 2 * (n % d) > d ∨ (2 * (n % d) = d ∧ (n / d) % 2 = 1) then n / d + 1 else n / d

/-- Digits padded with zeros on the left up to `width`. -/
def pad_zeros (width : Nat) (digits : CString) : CString :=
  List.replicate (width - digits.length) '0' ++ digits

/-- Text that `%.<precision>lf` prints for a finite double in the C locale, for a
precision of at least 1: sign, integer digits, point, exactly `precision` decimals. -/
def printf_lf (precision : Nat) (x : GDouble) : CString :=
  let n := round_half_even (x.num.natAbs * 10 ^ precision) x.den
  (if x.num < 0 then ['-'] else []) ++ Nat.toDigits 10 (n / 10 ^ precision) ++
    '.' :: pad_zeros precision (Nat.toDigits 10 (n % 10 ^ precision))

/-- Text that `%s` prints for `flag ? "true" : "false"`. -/
def printf_bool (flag : Bool) : CString := if flag then "true".data else "false".data

/-- First loop of `clapper_server_json_escape_string`: `strchr` is called again after each
quote, and `offset` counts the quotes found. -/
def escape_count_quotes : CString → Nat
  | [] => 0
  | c :: rest => if c = '"' then escape_count_quotes rest + 1 else escape_count_quotes rest

/-- Second loop of `clapper_server_json_escape_string`: copies the bytes, writing a
backslash in front of every quote. -/
def escape_copy : CString → CString
  | [] => []
  | c :: rest => if c = '"' then '\\' :: '"' :: escape_copy rest else c :: escape_copy rest

/-- Function `clapper_server_json_escape_string`: the string that `*string` points at
afterwards. -/
def clapper_server_json_escape_string (string : CString) : CString :=
  if escape_count_quotes string > 0 then escape_copy string else string

/-- Macro `_JSON_AUTO_COMMA`: appends a comma unless the last byte of the buffer opens an
object or an array. The buffer is never empty, `_JSON_BUILD` starts it with a brace. -/
def _JSON_AUTO_COMMA (json : CString) : CString :=
  match json.getLast? with
  | some last => if last ≠ '{' ∧ last ≠ '[' then json ++ [','] else json
  | none => json

/-- Macro `_ADD_KEY_VAL (k, t, v)`; `formatted` is `v` printed with the format `t`. -/
def _ADD_KEY_VAL (json : CString) (k : String) (formatted : CString) : CString :=
  _JSON_AUTO_COMMA json ++ ('"' :: k.data ++ '"' :: ':' :: formatted)

/-- Opening half of the macro `_ADD_OBJECT`. -/
def _ADD_OBJECT_open (json : CString) : CString := _JSON_AUTO_COMMA json ++ ['{']

/-- Opening half of the macro `_ADD_NAMED_OBJECT (name, ...)`. -/
def _ADD_NAMED_OBJECT_open (json : CString) (name : String) : CString :=
  _JSON_AUTO_COMMA json ++ ('"' :: name.data ++ ['"', ':', '{'])

/-- Opening half of the macro `_ADD_NAMED_ARRAY (name, ...)`. -/
def _ADD_NAMED_ARRAY_open (json : CString) (name : String) : CString :=
  _JSON_AUTO_COMMA json ++ ('"' :: name.data ++ ['"', ':', '['])

/-- Text that the format `"\"%s\""` prints for a string. -/
def printf_quoted (s : CString) : CString := '"' :: s ++ ['"']

/-- The `for` loop over `hub->items` in `clapper_control_hub_json_build_default`. -/
def build_default_items (json : CString) : List MediaItem → CString
  | [] => json
  | item :: rest =>
      let json := _ADD_OBJECT_open json
      let title := clapper_server_json_escape_string item.title.data
      let json := _ADD_KEY_VAL json "id" (printf_u item.id)
      let json := _ADD_KEY_VAL json "title" (printf_quoted title)
      let json := _ADD_KEY_VAL json "duration" (printf_lf 3 item.duration)
      build_default_items (json ++ ['}']) rest

/-- Function `clapper_control_hub_json_build_default (hub, as_event)`. -/
def clapper_control_hub_json_build_default (hub : Hub) (as_event : Bool) : CString :=
  let json : CString := ['{']
  let json := if as_event then _ADD_KEY_VAL json "event" (printf_quoted "snapshot".data) else json
  let json := _ADD_KEY_VAL json "state" (printf_u hub.state)
  let json := _ADD_KEY_VAL json "position" (printf_lf 3 hub.position)
  let json := _ADD_KEY_VAL json "speed" (printf_lf 2 hub.speed)
  let json := _ADD_KEY_VAL json "volume" (printf_lf 2 hub.volume)
  let json := _ADD_KEY_VAL json "mute" (printf_bool hub.mute)
  let json := _ADD_NAMED_OBJECT_open json "queue"
  let json := _ADD_KEY_VAL json "controllable" (printf_bool hub.queue_controllable)
  let json := _ADD_KEY_VAL json "progression" (printf_u hub.progression)
  let json := _ADD_KEY_VAL json "played_index" (printf_u hub.played_index)
  let json := _ADD_NAMED_ARRAY_open json "items"
  let json := build_default_items json hub.items
  let json := json ++ [']']
  let json := json ++ ['}']
  json ++ ['}']

/-- The `for` loop over the markers in `clapper_control_hub_json_build_item_info`, from
index `i` on: `clapper_timeline_get_marker` gives the marker at `i` or NULL, and a NULL
marker leaves its object empty. -/
def build_item_info_markers (timeline : List Marker) (n_markers : Nat) (json : CString) :
    Nat → Nat → CString
  | _, 0 => json
  | i, fuel + 1 =>
      if i < n_markers then
        let json := _ADD_OBJECT_open json
        let json :=
          match timeline[i]? with
          | some marker =>
              let json := _ADD_KEY_VAL json "marker_type" (printf_u marker.marker_type)
              let json := _ADD_KEY_VAL json "title" (printf_quoted marker.title.data)
              let json := _ADD_KEY_VAL json "start" (printf_lf 3 marker.start)
              _ADD_KEY_VAL json "end" (printf_lf 3 marker.end_)
          | none => json
        build_item_info_markers timeline n_markers (json ++ ['}']) (i + 1) fuel
      else json

/-- Function `clapper_control_hub_json_build_item_info (hub, item, with_timeline)`. -/
def clapper_control_hub_json_build_item_info (_hub : Hub) (item : MediaItem)
    (with_timeline : Bool) : CString :=
  let title := clapper_server_json_escape_string item.title.data
  let json : CString := ['{']
  let json := _ADD_KEY_VAL json "id" (printf_u item.id)
  let json := _ADD_KEY_VAL json "title" (printf_quoted title)
  let json := _ADD_KEY_VAL json "duration" (printf_lf 3 item.duration)
  let json :=
    if with_timeline then
      let json := _ADD_NAMED_ARRAY_open json "timeline"
      let n_markers := item.timeline.length
      let json := build_item_info_markers item.timeline n_markers json 0 n_markers
      json ++ [']']
    else json
  json ++ ['}']

/-- Size of the event buffer, `WS_EVENT_SIZE`. -/
def WS_EVENT_SIZE : Nat := 128

/-- GLib `g_snprintf (string, n, format, ...)`: stores at most `n - 1` bytes of the
formatted text `full`, then the NUL. -/
def g_snprintf (n : Nat) (full : CString) : CString := full.take (n - 1)

/-- Macro `__JSON_EMPTY_EVENT (n)`. -/
def __JSON_EMPTY_EVENT (n : String) : CString :=
  ['{', '"'] ++ "event".data ++ ['"', ':', '"'] ++ n.data ++ ['"', '}']

/-- Macro `__JSON_CHANGED_EVENT (n, t)`, with the value already printed in the format `t`. -/
def __JSON_CHANGED_EVENT (n : String) (t : CString) : CString :=
  ['{', '"'] ++ "event".data ++ ['"', ':', '"'] ++ n.data ++ "_changed".data ++
    ['"', ',', '"'] ++ n.data ++ ['"', ':'] ++ t ++ ['}']

/-- Macro `__JSON_CUSTOM_EVENT (n, k1, t1, k2, t2)`, with both values already printed. -/
def __JSON_CUSTOM_EVENT (n k1 : String) (t1 : CString) (k2 : String) (t2 : CString) :
    CString :=
  ['{', '"'] ++ "event".data ++ ['"', ':', '"'] ++ n.data ++ ['"', ',', '"'] ++ k1.data ++
    ['"', ':'] ++ t1 ++ [',', '"'] ++ k2.data ++ ['"', ':'] ++ t2 ++ ['}']

/-- The text that the format and arguments of the macro
`clapper_control_hub_json_fill_*_message` of a message print in full. -/
def WsMessage.formatted : WsMessage → CString
  | .state_changed state => __JSON_CHANGED_EVENT "state" (printf_u state)
  | .position_changed position => __JSON_CHANGED_EVENT "position" (printf_lf 3 position)
  | .speed_changed speed => __JSON_CHANGED_EVENT "speed" (printf_lf 2 speed)
  | .volume_changed volume => __JSON_CHANGED_EVENT "volume" (printf_lf 2 volume)
  | .mute_changed mute => __JSON_CHANGED_EVENT "mute" (printf_bool mute)
  | .played_index_changed index => __JSON_CHANGED_EVENT "played_index" (printf_u index)
  | .progression_changed mode => __JSON_CHANGED_EVENT "progression" (printf_u mode)
  | .item_updated item_id flags =>
      __JSON_CUSTOM_EVENT "item_updated" "id" (printf_u item_id) "flags" (printf_u flags)
  | .item_added item_id index =>
      __JSON_CUSTOM_EVENT "item_added" "id" (printf_u item_id) "index" (printf_u index)
  | .item_removed item_id index =>
      __JSON_CUSTOM_EVENT "item_removed" "id" (printf_u item_id) "index" (printf_u index)
  | .item_repositioned before after =>
      __JSON_CUSTOM_EVENT "item_repositioned" "before" (printf_u before) "after"
        (printf_u after)
  | .queue_cleared => __JSON_EMPTY_EVENT "queue_cleared"

/-- The macros `clapper_control_hub_json_fill_*_message (string, ...)`, which are
`g_snprintf (string, sizeof (string), ...)` on a buffer of `WS_EVENT_SIZE` bytes: the text
left in the buffer, which is what the handler hands to `clapper_control_hub_ws_send`. -/
def WsMessage.text (message : WsMessage) : CString :=
  g_snprintf WS_EVENT_SIZE message.formatted

/-! ## Connection set (`clapper-control-hub-ws.c`) -/

/-- GLib `g_ptr_array_remove (array, data)` on the connection array: removes the first
element whose pointer is `data` and moves the following ones down. -/
def g_ptr_array_remove : List WsConnection → Nat → List WsConnection
  | [], _ => []
  | connection :: rest, data =>
      if connection.ptr = data then rest else connection :: g_ptr_array_remove rest data

/-- Callback `_ws_connection_closed_cb (connection, hub)`. -/
def _ws_connection_closed_cb (hub : Hub) (connection : Nat) : Hub :=
  { hub with ws_connections := g_ptr_array_remove hub.ws_connections connection }

/-- Callback `clapper_control_hub_ws_connection_cb`: the hub with the connection
registered, and the texts written to connections, here at most the snapshot sent to the
new one. -/
def clapper_control_hub_ws_connection_cb (hub : Hub) (connection : WsConnection) :
    Hub × List (Nat × CString) :=
  let hub := { hub with ws_connections := hub.ws_connections ++ [connection] }
  if connection.state = SoupWebsocketState.OPEN then
    let init_data := clapper_control_hub_json_build_default hub true
    (hub, [(connection.ptr, init_data)])
  else (hub, [])

/-- What happens to the connection set: a handshake delivers a connection, or the
`closed` signal of the connection at an address fires. -/
inductive WsLifecycle where
  | handshake (connection : WsConnection)
  | closed (connection : Nat)

/-- The hub after one lifecycle event. -/
def ws_lifecycle_step (hub : Hub) : WsLifecycle → Hub
  | .handshake connection => (clapper_control_hub_ws_connection_cb hub connection).1
  | .closed connection => _ws_connection_closed_cb hub connection

/-- The hub after a sequence of lifecycle events. -/
def ws_lifecycle_run (hub : Hub) : List WsLifecycle → Hub
  | [] => hub
  | event :: rest => ws_lifecycle_run (ws_lifecycle_step hub event) rest

/-! ## HTTP handlers (`clapper-control-hub.c`) -/

/-- Status codes of libsoup used by the handlers. -/
def SOUP_STATUS_OK : Nat := 200

/-- Status 204. -/
def SOUP_STATUS_NO_CONTENT : Nat := 204

/-- Status 400. -/
def SOUP_STATUS_BAD_REQUEST : Nat := 400

/-- Status 500. -/
def SOUP_STATUS_INTERNAL_SERVER_ERROR : Nat := 500

/-- Status 503. -/
def SOUP_STATUS_SERVICE_UNAVAILABLE : Nat := 503

/-- Largest `guint64`. -/
def G_MAXUINT64 : Nat := 18446744073709551615

/-- What a handler leaves in the `SoupServerMessage`: the status, and the content type
and body when `soup_server_message_set_response` was called. -/
structure Response where
  status : Nat
  content_type : Option String
  body : Option CString
  deriving DecidableEq

/-- The decoded query of a request: NULL (`none`) without a query string, else the table
of its keys and values. -/
abbrev Query := Option (List (String × String))

/-- Macro `ISSPACE` of GLib's number parser. -/
def ISSPACE (c : Char) : Bool :=
  c = ' ' || c = Char.ofNat 12 || c = '\n' || c = '\r' || c = '\t' || c = Char.ofNat 11

/-- Digit loop of GLib's `g_parse_long_long` for base 10: the accumulated value, the
overflow flag, and the text left at the first character that is no digit. -/
def g_parse_long_long_loop : CString → Nat → Bool → Nat × Bool × CString
  | [], ui64, overflow => (ui64, overflow, [])
  | c :: rest, ui64, overflow =>
      if c.isDigit then
        if ui64 > G_MAXUINT64 / 10 ∨ (ui64 = G_MAXUINT64 / 10 ∧ c.toNat - 48 > G_MAXUINT64 % 10) then
          g_parse_long_long_loop rest ui64 true
        else g_parse_long_long_loop rest (ui64 * 10 + (c.toNat - 48)) overflow
      else (ui64, overflow, c :: rest)

/-- GLib `g_ascii_strtoull (nptr, &endptr, 10)`: the value returned and the text at
`endptr`. White space and one sign are skipped; without a digit the value is 0 and
`endptr` is `nptr`; on overflow the value is `G_MAXUINT64`; a minus sign negates the
value as a `guint64`. -/
def g_ascii_strtoull (nptr : CString) : Nat × CString :=
  let s := nptr.dropWhile ISSPACE
  match s with
  | [] => (0, nptr)
  | first :: after_first =>
      let negative := decide (first = '-')
      let save := if first = '-' ∨ first = '+' then after_first else s
      let (ui64, overflow, rest) := g_parse_long_long_loop save 0 false
      if rest.length = save.length then (0, nptr)
      else
        let result := if overflow then G_MAXUINT64 else ui64
        (if negative then (G_MAXUINT64 + 1 - result) % (G_MAXUINT64 + 1) else result, rest)

/-- Helper `_query_parse_item_id (query, &id)`: `some id` when it returns TRUE. The
`guint64` is cut to a `guint`. -/
def _query_parse_item_id (query : Query) : Option Nat :=
  match query with
  | none => none
  | some table =>
      match table.lookup "id" with
      | none => none
      | some id_str =>
          let (value, endptr) := g_ascii_strtoull id_str.data
          if endptr = [] then some (value % (G_MAXUINT + 1)) else none

/-- Helper `_query_get_boolean_value (query, key)`, called with a query that is not NULL. -/
def _query_get_boolean_value (query : Query) (key : String) : Bool :=
  match query.bind (fun table => table.lookup key) with
  | none => false
  | some val => val.data.map Char.toLower = "true".data || val = "1"

/-- Handler `_item_info_request_cb`: the hub as the handler leaves it and the response.
The builder always gives a string, so the branch for a NULL result (status 503) is never
taken. -/
def _item_info_request_cb (self : Hub) (query : Query) : Hub × Response :=
  match _query_parse_item_id query with
  | none => (self, { status := SOUP_STATUS_BAD_REQUEST, content_type := none, body := none })
  | some id =>
      match _get_item_by_id self.items id with
      | none => (self, { status := SOUP_STATUS_NO_CONTENT, content_type := none, body := none })
      | some item =>
          let with_timeline := _query_get_boolean_value query "timeline"
          let data := clapper_control_hub_json_build_item_info self item with_timeline
          (self, { status := SOUP_STATUS_OK, content_type := some "application/json",
                   body := some data })

/-- Handler `_item_tags_request_cb`. -/
def _item_tags_request_cb (self : Hub) (query : Query) : Hub × Response :=
  match _query_parse_item_id query with
  | none => (self, { status := SOUP_STATUS_BAD_REQUEST, content_type := none, body := none })
  | some id =>
      match _get_item_by_id self.items id with
      | none => (self, { status := SOUP_STATUS_NO_CONTENT, content_type := none, body := none })
      | some item =>
          match item.tags with
          | none =>
              (self, { status := SOUP_STATUS_INTERNAL_SERVER_ERROR, content_type := none,
                       body := none })
          | some data =>
              (self, { status := SOUP_STATUS_OK, content_type := some "application/octet-stream",
                       body := some data.data })

/-- Handler `_default_request_cb`. The builder always gives a string, so the branch for a
NULL result (status 503) is never taken. -/
def _default_request_cb (self : Hub) (_query : Query) : Hub × Response :=
  let data := clapper_control_hub_json_build_default self false
  (self, { status := SOUP_STATUS_OK, content_type := some "application/json",
           body := some data })

/-! ## Serving (`clapper-control-hub.c`) -/

/-- What the surroundings answer while the server starts: whether
`soup_server_listen_all` succeeds, whether it set the `GError`, the ports of the URIs
that `soup_server_get_uris` lists, and whether the hub has a player. -/
structure ServeEnv where
  listen_ok : Bool
  error : Bool
  uri_ports : List Int
  player : Bool

/-- A call that `_start_serving` or `_stop_serving` makes outside the hub. The argument of
`clapper_control_hub_mdns_stop` tells whether the pointer handed over is an announcer. -/
inductive ServeCall where
  | soup_server_listen_all
  | clapper_control_hub_mdns_new
  | clapper_control_hub_mdns_start (port : Int)
  | clapper_control_hub_mdns_stop (mdns : Bool)
  | soup_server_disconnect
  | clapper_player_post_message
  deriving DecidableEq

/-- Helper `_find_current_port`: the first port above 0 among the URIs, else 0. -/
def _find_current_port : List Int → Int
  | [] => 0
  | current_port :: rest => if current_port > 0 then current_port else _find_current_port rest

/-- Helper `_start_serving`. -/
def _start_serving (env : ServeEnv) (self : Hub) : Hub × List ServeCall :=
  if self.running then (self, [])
  else
    let self := { self with running := env.listen_ok }
    if self.running then
      let port := _find_current_port env.uri_ports
      if port > 0 then
        if self.mdns then
          (self, [.soup_server_listen_all, .clapper_control_hub_mdns_start port])
        else
          ({ self with mdns := true },
            [.soup_server_listen_all, .clapper_control_hub_mdns_new,
              .clapper_control_hub_mdns_start port])
      else (self, [.soup_server_listen_all])
    else if env.error then
      if env.player then (self, [.soup_server_listen_all, .clapper_player_post_message])
      else (self, [.soup_server_listen_all])
    else (self, [.soup_server_listen_all])

/-- Helper `_stop_serving`. -/
def _stop_serving (self : Hub) : Hub × List ServeCall :=
  if !self.running then (self, [])
  else
    ({ self with running := false },
      [.clapper_control_hub_mdns_stop self.mdns, .soup_server_disconnect])

/-- Setter `clapper_control_hub_set_active (self, active)`. -/
def clapper_control_hub_set_active (env : ServeEnv) (self : Hub) (active : Bool) :
    Hub × List ServeCall :=
  if self.active = active then (self, [])
  else
    let self := { self with active := active }
    if self.active then _start_serving env self else _stop_serving self

/-- Macro `CLAPPER_CONTROL_HUB_MDNS_SERVICE`. -/
def CLAPPER_CONTROL_HUB_MDNS_SERVICE : String := "_clapper._tcp.local"

/-- Macro `N_ANSWERS`. -/
def N_ANSWERS : Nat := 4

/-- Macro `N_TXT`. -/
def N_TXT : Nat := 4

/-- Socket address family of IPv4, `AF_INET`. -/
def AF_INET : Nat := 2

/-- Header flag `FLAG_QR` of microdns. -/
def FLAG_QR : Nat := 32768

/-- Header flag `FLAG_AA` of microdns. -/
def FLAG_AA : Nat := 1024

/-- Record class `RR_IN` of microdns. -/
def RR_IN : Nat := 1

/-- The `enum mdns_announce_type` of microdns. -/
inductive mdns_announce_type where
  | MDNS_ANNOUNCE_INITIAL
  | MDNS_ANNOUNCE_RESPONSE
  | MDNS_ANNOUNCE_GOODBYE
  deriving DecidableEq

/-- The record types of microdns that the announcer uses. -/
inductive rr_type where
  | RR_A
  | RR_PTR
  | RR_TXT
  | RR_AAAA
  | RR_SRV
  deriving DecidableEq

/-- The `struct sockaddr` handed to the callback: its family, and the address read from it
as `sockaddr_in` (`sin_addr`) or as `sockaddr_in6` (`sin6_addr`). -/
structure sockaddr where
  sa_family : Nat
  sin_addr : Nat
  sin6_addr : Nat
  deriving DecidableEq

/-- One `struct rr_data_txt` of the array `txt_data`: the text, and the index in the array
of the element that `next` points to. -/
structure rr_data_txt where
  txt : CString
  next : Option Nat
  deriving DecidableEq

/-- The member of `union rr_data` that a record sets. For `TXT` it is the chain of texts
that starts at the element pointed to. -/
inductive rr_data where
  | A (addr : Nat)
  | AAAA (addr : Nat)
  | PTR (domain : CString)
  | TXT (texts : List CString)
  | SRV (port priority weight : Nat) (target : CString)
  deriving DecidableEq

/-- One `struct rr_entry` of the array `answers`; `next` is the index in the array of the
entry pointed to. -/
structure rr_entry where
  name : CString
  type : rr_type
  rr_class : Nat
  msbit : Nat
  ttl : Nat
  data : rr_data
  next : Option Nat
  deriving DecidableEq

/-- The `struct mdns_hdr` fields that the announcer sets. -/
structure mdns_hdr where
  flags : Nat
  num_ans_rr : Nat
  deriving DecidableEq

/-- The fields of `struct _ClapperControlHubMdns` read while answering. -/
structure ClapperControlHubMdns where
  port : Int
  domain_name : CString
  service_link : CString
  txt_records : List CString
  deriving DecidableEq

/-- The elements of an array that a chain of `next` pointers visits, starting from the
element with index `start`. -/
def chain_from {α : Type} (next : α → Option Nat) (array : List α) :
    Option Nat → Nat → List α
  | _, 0 => []
  | none, _ + 1 => []
  | some i, fuel + 1 =>
      match array[i]? with
      | some element => element :: chain_from next array (next element) fuel
      | none => []

/-- GLib `g_strlcpy (dest, src, dest_size)`: what `dest` holds afterwards, at most
`dest_size - 1` bytes of `src`. -/
def g_strlcpy (src : CString) (dest_size : Nat) : CString := src.take (dest_size - 1)

/-- The loop `for (i = 0; i < N_TXT; ++i)` of `_send_entries` that fills `txt_data`;
`sizeof_txt` is `sizeof (txt_data[i].txt)`, the size that microdns gives the text of a
`struct rr_data_txt`. -/
def _send_entries_txt_data (self : ClapperControlHubMdns) (sizeof_txt : Nat) :
    List rr_data_txt :=
  (List.range N_TXT).map fun i =>
    { txt := g_strlcpy (self.txt_records.getD i []) sizeof_txt
      next := if i < N_TXT - 1 then some (i + 1) else none }

/-- Helper `_send_entries`: the header and the array `answers` handed to
`mdns_entries_send`. The port goes into the 16-bit field of the SRV record. -/
def _send_entries (sizeof_txt : Nat) (self : ClapperControlHubMdns) (addr : sockaddr)
    (type : mdns_announce_type) : mdns_hdr × List rr_entry :=
  let port := self.port
  let hdr : mdns_hdr := { flags := FLAG_QR ||| FLAG_AA, num_ans_rr := N_ANSWERS }
  let txt_data := _send_entries_txt_data self sizeof_txt
  let ttl := if type = .MDNS_ANNOUNCE_GOODBYE then 0 else 120
  let ptr : rr_entry :=
    { type := .RR_PTR, name := CLAPPER_CONTROL_HUB_MDNS_SERVICE.data,
      data := .PTR self.service_link, rr_class := RR_IN, msbit := 1, ttl := ttl,
      next := some 1 }
  let txt : rr_entry :=
    { type := .RR_TXT, name := self.service_link,
      data := .TXT ((chain_from rr_data_txt.next txt_data (some 0) N_TXT).map rr_data_txt.txt),
      rr_class := RR_IN, msbit := 1, ttl := ttl, next := some 2 }
  let srv : rr_entry :=
    { type := .RR_SRV, name := self.service_link,
      data := .SRV (port % 65536).toNat 0 0 self.domain_name,
      rr_class := RR_IN, msbit := 1, ttl := ttl, next := some 3 }
  let a_aaaa : rr_entry :=
    if addr.sa_family = AF_INET then
      { type := .RR_A, name := self.domain_name, data := .A addr.sin_addr,
        rr_class := RR_IN, msbit := 1, ttl := ttl, next := none }
    else
      { type := .RR_AAAA, name := self.domain_name, data := .AAAA addr.sin6_addr,
        rr_class := RR_IN, msbit := 1, ttl := ttl, next := none }
  (hdr, [ptr, txt, srv, a_aaaa])

/-- Callback `_mdns_cb`: the arguments of the call of `mdns_entries_send`, `none` when the
callback returns without answering. `service = none` is the NULL string. -/
def _mdns_cb (sizeof_txt : Nat) (self : ClapperControlHubMdns) (addr : sockaddr)
    (service : Option CString) (type : mdns_announce_type) :
    Option (mdns_hdr × List rr_entry) :=
  match service with
  | some service =>
      if service ≠ CLAPPER_CONTROL_HUB_MDNS_SERVICE.data then none
      else some (_send_entries sizeof_txt self addr type)
  | none => some (_send_entries sizeof_txt self addr type)

/-- The records that `mdns_entries_send` finds by following `next` from the first entry
of the array. -/
def mdns_entries_send (answers : List rr_entry) : List rr_entry :=
  chain_from rr_entry.next answers (some 0) answers.length

/-- The part of `_serve_in_thread_func` that sets the names of a new announcer from the
host name, the program name (`none` when `g_get_prgname` gives NULL), the object name and
the version strings of `config.h`. -/
def _serve_in_thread_func_names (host_name : CString) (prgname : Option CString)
    (cch_name CONTROL_HUB_VERSION_S CLAPPER_VERSION_S : CString) (port : Int) :
    ClapperControlHubMdns :=
  let prgname := prgname.getD "unknown".data
  { port := port
    domain_name := host_name ++ ".local".data
    service_link := host_name ++ [' '] ++ prgname ++ [' '] ++ cch_name ++ ['.'] ++
      CLAPPER_CONTROL_HUB_MDNS_SERVICE.data
    txt_records :=
      ["id=".data ++ host_name ++ ['-'] ++ prgname ++ ['-'] ++ cch_name,
        "chver=".data ++ CONTROL_HUB_VERSION_S,
        "cver=".data ++ CLAPPER_VERSION_S,
        "app=".data ++ prgname] }

/-! ## JSON reader helpers (`json-utils.c`) -/

/-- A node of a JSON tree as json-glib holds it. -/
inductive JsonNode where
  | null
  | boolean (value : Bool)
  | int (value : Int)
  | string (value : CString)
  | array (elements : List JsonNode)
  | object (members : List (CString × JsonNode))

/-- The cursor of a `JsonReader` of json-glib: the root, the current node (`none` is NULL),
the previous node followed by its parents, and whether the reader is in its error state. -/
structure JsonReader where
  root : JsonNode
  current_node : Option JsonNode
  previous : List JsonNode
  error : Bool

/-- The harvest of an extraction, as far as the extractors fill it: the text it was filled
with, and the title and duration of each `clapper_harvest_tags_add` call. -/
structure ClapperHarvest where
  buffer : Option CString
  tags : List (Option CString × Nat)
  deriving DecidableEq

/-- A variadic argument of the helpers, a pointer: the name of a member to enter at an
object, or an index plus one (`JSON_UTILS_ARRAY_INDEX`) to enter at an array. An argument
of the other kind does not lead anywhere. -/
inductive JsonKey where
  | name (text : CString)
  | index (plus_one : Nat)

/-- Callback type `JsonUtilsForeachFunc`, with `user_data` bound: the value returned, and
the reader and harvest as the callback leaves them. -/
abbrev JsonUtilsForeachFunc := JsonReader → ClapperHarvest → Bool × JsonReader × ClapperHarvest

/-- Reader of json-glib on a tree: `json_reader_new (root)`. -/
def json_reader_new (root : JsonNode) : JsonReader :=
  { root := root, current_node := some root, previous := [], error := false }

/-- Function `json_reader_is_array` of json-glib. -/
def json_reader_is_array (reader : JsonReader) : Bool :=
  if reader.error then false
  else
    match reader.current_node with
    | some (.array _) => true
    | _ => false

/-- Function `json_reader_is_object` of json-glib. -/
def json_reader_is_object (reader : JsonReader) : Bool :=
  if reader.error then false
  else
    match reader.current_node with
    | some (.object _) => true
    | _ => false

/-- Function `json_reader_is_value` of json-glib: true at a value and at a null. -/
def json_reader_is_value (reader : JsonReader) : Bool :=
  if reader.error then false
  else
    match reader.current_node with
    | some .null => true
    | some (.boolean _) => true
    | some (.int _) => true
    | some (.string _) => true
    | _ => false

/-- Function `json_reader_count_elements` of json-glib; -1 with the error set when the
reader is not at an array. -/
def json_reader_count_elements (reader : JsonReader) : Int × JsonReader :=
  if reader.error then (-1, reader)
  else
    match reader.current_node with
    | some (.array elements) => (elements.length, reader)
    | _ => (-1, { reader with error := true })

/-- Function `json_reader_read_element` of json-glib: enters the element (or, at an
object, the member) with the index given; otherwise sets the error and stays. -/
def json_reader_read_element (reader : JsonReader) (index_ : Nat) : Bool × JsonReader :=
  if reader.error then (false, reader)
  else
    let current := reader.current_node.getD reader.root
    let reader := { reader with current_node := some current }
    match current with
    | .array elements =>
        match elements[index_]? with
        | some element =>
            (true, { reader with current_node := some element,
                                 previous := current :: reader.previous })
        | none => (false, { reader with error := true })
    | .object members =>
        match members[index_]? with
        | some member =>
            (true, { reader with current_node := some member.2,
                                 previous := current :: reader.previous })
        | none => (false, { reader with error := true })
    | _ => (false, { reader with error := true })

/-- Function `json_reader_read_member` of json-glib: enters the member with the name
given; otherwise sets the error and stays. -/
def json_reader_read_member (reader : JsonReader) (member_name : CString) :
    Bool × JsonReader :=
  if reader.error then (false, reader)
  else
    let current := reader.current_node.getD reader.root
    let reader := { reader with current_node := some current }
    match current with
    | .object members =>
        match members.lookup member_name with
        | some member =>
            (true, { reader with current_node := some member,
                                 previous := current :: reader.previous })
        | none => (false, { reader with error := true })
    | _ => (false, { reader with error := true })

/-- Function `json_reader_end_element` of json-glib (`json_reader_end_member` does the
same): in the error state it only clears the error; otherwise it moves to the previous
node. -/
def json_reader_end_element (reader : JsonReader) : JsonReader :=
  if reader.error then { reader with error := false }
  else { reader with current_node := reader.previous.head?, previous := reader.previous.tail }

/-- Function `json_reader_get_null_value` of json-glib. -/
def json_reader_get_null_value (reader : JsonReader) : Bool × JsonReader :=
  if reader.error then (false, reader)
  else
    match reader.current_node with
    | none => (false, { reader with error := true })
    | some .null => (true, reader)
    | some _ => (false, reader)

/-- Function `json_reader_get_string_value` of json-glib: the string at a string value;
at any other node NULL with the error set. -/
def json_reader_get_string_value (reader : JsonReader) : Option CString × JsonReader :=
  if reader.error then (none, reader)
  else
    match reader.current_node with
    | some (.string value) => (some value, reader)
    | _ => (none, { reader with error := true })

/-- Function `json_reader_get_int_value` of json-glib: the number at an integer or boolean
value, 0 at a string; at any other node 0 with the error set. -/
def json_reader_get_int_value (reader : JsonReader) : Int × JsonReader :=
  if reader.error then (0, reader)
  else
    match reader.current_node with
    | some (.int value) => (value, reader)
    | some (.boolean value) => (if value then 1 else 0, reader)
    | some (.string _) => (0, reader)
    | _ => (0, { reader with error := true })

/-- Function `json_utils_go_back (reader, count)`. -/
def json_utils_go_back (reader : JsonReader) : Nat → JsonReader
  | 0 => reader
  | count + 1 => json_utils_go_back (json_reader_end_element reader) count

/-- Helper `_json_reader_va_iter (reader, args, &depth)` on the arguments before the
closing NULL: the value returned, the reader and the depth. -/
def _json_reader_va_iter : List JsonKey → JsonReader → Nat → Bool × JsonReader × Nat
  | [], reader, depth => (true, reader, depth)
  | arg :: args, reader, depth =>
      if json_reader_is_object reader then
        let depth := depth + 1
        match arg with
        | .name name =>
            let read := json_reader_read_member reader name
            if !read.1 then (false, read.2, depth)
            else _json_reader_va_iter args read.2 depth
        | .index _ => (false, { reader with error := true }, depth)
      else if json_reader_is_array reader then
        match arg with
        | .index index =>
            if !(index > 0) then (false, reader, depth)
            else
              let index := index - 1
              let counted := json_reader_count_elements reader
              if !(counted.1 > 0 && decide ((index : Int) < counted.1)) then
                (false, counted.2, depth)
              else
                let depth := depth + 1
                let read := json_reader_read_element counted.2 index
                if !read.1 then (false, read.2, depth)
                else _json_reader_va_iter args read.2 depth
        | .name _ => (false, reader, depth)
      else (false, reader, depth)

/-- Function `json_utils_get_string (reader, ..., NULL)`; `none` is NULL. -/
def json_utils_get_string (reader : JsonReader) (args : List JsonKey) :
    Option CString × JsonReader :=
  let iter := _json_reader_va_iter args reader 0
  let reader := iter.2.1
  let got : Option CString × JsonReader :=
    if iter.1 && json_reader_is_value reader then
      let is_null := json_reader_get_null_value reader
      if !is_null.1 then json_reader_get_string_value is_null.2 else (none, is_null.2)
    else (none, reader)
  (got.1, json_utils_go_back got.2 iter.2.2)

/-- Function `json_utils_get_int (reader, ..., NULL)`. -/
def json_utils_get_int (reader : JsonReader) (args : List JsonKey) : Int × JsonReader :=
  let iter := _json_reader_va_iter args reader 0
  let reader := iter.2.1
  let got : Int × JsonReader :=
    if iter.1 && json_reader_is_value reader then json_reader_get_int_value reader
    else (0, reader)
  (got.1, json_utils_go_back got.2 iter.2.2)

/-- Function `json_utils_go_to (reader, ..., NULL)`: stays where it arrived on success,
goes back on failure. -/
def json_utils_go_to (reader : JsonReader) (args : List JsonKey) : Bool × JsonReader :=
  let iter := _json_reader_va_iter args reader 0
  if !iter.1 then (false, json_utils_go_back iter.2.1 iter.2.2) else (true, iter.2.1)

/-- What `json_utils_array_foreach` gives: the value returned, the reader and the harvest
afterwards, and the indices at which the callback was called, in the order of the
calls. -/
structure ForeachResult where
  result : Bool
  reader : JsonReader
  harvest : ClapperHarvest
  called : List Nat

/-- The loop `for (i = 0; i < count; i++)` of `json_utils_array_foreach`, from index `i`
with `remaining = count - i` rounds to go. -/
def json_utils_array_foreach_loop (func : JsonUtilsForeachFunc) :
    Nat → Nat → JsonReader → ClapperHarvest → List Nat →
      JsonReader × ClapperHarvest × List Nat
  | 0, _, reader, harvest, called => (reader, harvest, called)
  | remaining + 1, i, reader, harvest, called =>
      let read := json_reader_read_element reader i
      let step : Bool × JsonReader × ClapperHarvest × List Nat :=
        if read.1 then
          let returned := func read.2 harvest
          (returned.1, returned.2.1, returned.2.2, called ++ [i])
        else (false, read.2, harvest, called)
      let reader := json_reader_end_element step.2.1
      if !step.1 then (reader, step.2.2.1, step.2.2.2)
      else json_utils_array_foreach_loop func remaining (i + 1) reader step.2.2.1 step.2.2.2

/-- Function `json_utils_array_foreach (reader, harvest, func, user_data)`. -/
def json_utils_array_foreach (reader : JsonReader) (harvest : ClapperHarvest)
    (func : JsonUtilsForeachFunc) : ForeachResult :=
  if !json_reader_is_array reader then
    { result := false, reader := reader, harvest := harvest, called := [] }
  else
    let counted := json_reader_count_elements reader
    let count := counted.1
    let looped := json_utils_array_foreach_loop func count.toNat 0 counted.2 harvest []
    { result := decide (count > 0), reader := looped.1, harvest := looped.2.1,
      called := looped.2.2 }

/-! ## PeerTube extractor (`clapper-peertube.c`) -/

/-- Nanoseconds in a second, `GST_SECOND`. -/
def GST_SECOND : Nat := 1000000000

/-- Function `clapper_harvest_fill_with_text` of the player library: takes the text unless
it is empty, and tells whether it took it. -/
def clapper_harvest_fill_with_text (harvest : ClapperHarvest) (text : CString) :
    Bool × ClapperHarvest :=
  if text.length = 0 then (false, harvest) else (true, { harvest with buffer := some text })

/-- Function `clapper_harvest_tags_add (harvest, GST_TAG_TITLE, title, GST_TAG_DURATION,
duration, NULL)`. -/
def clapper_harvest_tags_add (harvest : ClapperHarvest) (title : Option CString)
    (duration : Nat) : ClapperHarvest :=
  { harvest with tags := harvest.tags ++ [(title, duration)] }

/-- Callback `_read_uris_array_cb (reader, harvest, key_str)`. -/
def _read_uris_array_cb (key_str : CString) : JsonUtilsForeachFunc := fun reader harvest =>
  let got := json_utils_get_string reader [.name key_str]
  match got.1 with
  | some uri =>
      let filled := clapper_harvest_fill_with_text harvest uri
      (!filled.1, got.2, filled.2)
  | none => (true, got.2, harvest)

/-- Helper `_read_extract_api_response`: the value returned, and the reader and harvest
afterwards. The duration is multiplied in 64 bits. -/
def _read_extract_api_response (reader : JsonReader) (harvest : ClapperHarvest) :
    Bool × JsonReader × ClapperHarvest :=
  let name := json_utils_get_string reader [.name "name".data]
  let duration := json_utils_get_int name.2 [.name "duration".data]
  let harvest := clapper_harvest_tags_add harvest name.1
    ((duration.1 * GST_SECOND) % 18446744073709551616).toNat
  let reader := duration.2
  let success := false
  let went := json_utils_go_to reader [.name "streamingPlaylists".data]
  let first : Bool × JsonReader × ClapperHarvest :=
    if went.1 then
      let each := json_utils_array_foreach went.2 harvest (_read_uris_array_cb "playlistUrl".data)
      (each.result, json_utils_go_back each.reader 1, each.harvest)
    else (success, went.2, harvest)
  let went := if !first.1 then json_utils_go_to first.2.1 [.name "files".data]
    else (false, first.2.1)
  if !first.1 && went.1 then
    let each := json_utils_array_foreach went.2 first.2.2 (_read_uris_array_cb "fileUrl".data)
    (each.result, json_utils_go_back each.reader 1, each.harvest)
  else (first.1, went.2, first.2.2)

/-! ## Recall (`clapper-recall.c`) -/

/-- Macro `DEFAULT_MIN_DURATION`. -/
def DEFAULT_MIN_DURATION : Int := 180

/-- Macro `DEFAULT_MIN_ELAPSED`. -/
def DEFAULT_MIN_ELAPSED : Int := 60

/-- Macro `DEFAULT_MIN_REMAINING`. -/
def DEFAULT_MIN_REMAINING : Int := 60

/-- Macro `RECALL_MARKER_TYPE`, which is `CLAPPER_MARKER_TYPE_CUSTOM_2`. -/
def RECALL_MARKER_TYPE : Nat := 102

/-- Flag `CLAPPER_REACTABLE_ITEM_UPDATED_DURATION`. -/
def CLAPPER_REACTABLE_ITEM_UPDATED_DURATION : Nat := 2

/-- Macro `CLAPPER_RECALL_SECONDS_TO_USECONDS (seconds)`: the product cut to an integer. -/
def CLAPPER_RECALL_SECONDS_TO_USECONDS (seconds : GDouble) : Int :=
  Int.tdiv (seconds * 1000000).num (seconds * 1000000).den

/-- Macro `CLAPPER_RECALL_USECONDS_TO_SECONDS (useconds)`; the division is taken exact. -/
def CLAPPER_RECALL_USECONDS_TO_SECONDS (useconds : Int) : GDouble := (useconds : ℚ) / 1000000

/-- A `ClapperMarker` made by `clapper_marker_new (marker_type, title, start, end)`;
`title = none` is the NULL title. -/
structure ClapperMarker where
  marker_type : Nat
  title : Option String
  start : GDouble
  end_ : GDouble
  deriving DecidableEq

/-- The `ClapperRecallMemo`: `ptr` is the address of the memo, `item` the address of its
media item, `hash = none` and `marker = none` are NULL pointers. -/
structure ClapperRecallMemo where
  ptr : Nat
  hash : Option CString
  item : Nat
  position : GDouble
  duration : GDouble
  marker : Option ClapperMarker
  deriving DecidableEq

/-- The fields of `struct _ClapperRecall` that the handlers use. `memos` holds the memos
that the pointer array points to, `current_memo` is the address of the current memo. -/
structure ClapperRecall where
  memos : List ClapperRecallMemo
  current_memo : Option Nat
  state : Nat
  played_position : GDouble
  resume_done : Bool
  persistent_storage : Bool
  mark_position : Bool
  auto_resume : Bool
  min_duration : Int
  min_elapsed : Int
  min_remaining : Int
  deriving DecidableEq

/-- What the surroundings answer to Recall: whether `clapper_reactable_get_player` gives a
player, and whether `_ensure_db` gives a database. -/
structure RecallEnv where
  player : Bool
  db : Bool

/-- A call that Recall makes outside itself. -/
inductive RecallCall where
  | clapper_player_seek (position : GDouble)
  | clapper_timeline_insert_marker (item : Nat) (marker : ClapperMarker)
  | clapper_timeline_remove_marker (item : Nat) (marker : ClapperMarker)
  | memorize (hash : CString) (useconds : Int)
  | g_thread_pool_push (memo : Nat)
  | g_thread_pool_move_to_front (memo : Nat)
  deriving DecidableEq

/-- Recall right after `clapper_recall_init` (GObject zero-fills the instance first). -/
def clapper_recall_init : ClapperRecall :=
  { memos := []
    current_memo := none
    state := 0
    played_position := 0
    resume_done := false
    persistent_storage := true
    mark_position := true
    auto_resume := true
    min_duration := DEFAULT_MIN_DURATION
    min_elapsed := DEFAULT_MIN_ELAPSED
    min_remaining := DEFAULT_MIN_REMAINING }

/-- Function `clapper_recall_memo_new_for_item (item)`, the memo getting the address `ptr`. -/
def clapper_recall_memo_new_for_item (ptr item : Nat) : ClapperRecallMemo :=
  { ptr := ptr, hash := none, item := item, position := -1, duration := 0, marker := none }

/-- The memo that a memo pointer points to, among those of the array. -/
def memo_at (self : ClapperRecall) (ptr : Nat) : Option ClapperRecallMemo :=
  self.memos.find? fun memo => memo.ptr == ptr

/-- A write through a memo pointer: every place of the array that points to the memo shows
the new fields. -/
def store_memo (self : ClapperRecall) (memo : ClapperRecallMemo) : ClapperRecall :=
  { self with memos := self.memos.map fun old => if old.ptr = memo.ptr then memo else old }

/-- Helper `_memo_is_recallable`; the arithmetic on doubles is taken exact. -/
def _memo_is_recallable (self : ClapperRecall) (memo : ClapperRecallMemo) : Bool :=
  decide (memo.position ≥ (self.min_elapsed : ℚ)) &&
    decide (memo.duration ≥ (self.min_duration : ℚ)) &&
    decide (memo.position ≤ memo.duration - (self.min_remaining : ℚ))

/-- Helper `_consider_playback_resume`, with the memo that `current_memo` points to. -/
def _consider_playback_resume (env : RecallEnv) (self : ClapperRecall)
    (current_memo : ClapperRecallMemo) : ClapperRecall × List RecallCall :=
  if self.resume_done || current_memo.hash.isNone || decide (current_memo.duration ≤ 0)
      || decide (self.state < CLAPPER_PLAYER_STATE_PAUSED) then (self, [])
  else
    let calls :=
      if self.auto_resume && decide (current_memo.position > self.played_position)
          && _memo_is_recallable self current_memo then
        if env.player then [RecallCall.clapper_player_seek current_memo.position] else []
      else []
    ({ self with resume_done := true }, calls)

/-- Helper `_refresh_marker_presence`: the memo afterwards and the timeline calls. -/
def _refresh_marker_presence (self : ClapperRecall) (memo : ClapperRecallMemo)
    (forced : Bool) : ClapperRecallMemo × List RecallCall :=
  let has_marker := memo.marker.isSome
  let should_have_marker := self.mark_position && _memo_is_recallable self memo
  if forced || has_marker != should_have_marker then
    let removed : ClapperRecallMemo × List RecallCall :=
      match memo.marker with
      | some marker =>
          ({ memo with marker := none }, [.clapper_timeline_remove_marker memo.item marker])
      | none => (memo, [])
    if should_have_marker then
      let marker : ClapperMarker :=
        { marker_type := RECALL_MARKER_TYPE, title := none, start := removed.1.position,
          end_ := removed.1.position }
      ({ removed.1 with marker := some marker },
        removed.2 ++ [.clapper_timeline_insert_marker removed.1.item marker])
    else removed
  else (memo, [])

/-- Helper `_refresh_all_markers_presence`. -/
def _refresh_all_markers_presence (self : ClapperRecall) : ClapperRecall × List RecallCall :=
  ({ self with memos := self.memos.map fun memo => (_refresh_marker_presence self memo false).1 },
    self.memos.flatMap fun memo => (_refresh_marker_presence self memo false).2)

/-- Helper `memorize_current_memo_position`, with the memo that `current_memo` points to:
the row written, if any. -/
def memorize_current_memo_position (env : RecallEnv) (self : ClapperRecall)
    (current_memo : ClapperRecallMemo) : List RecallCall :=
  match current_memo.hash with
  | some hash =>
      if !self.persistent_storage || decide (current_memo.duration ≤ 0) || !env.db then []
      else [.memorize hash (CLAPPER_RECALL_SECONDS_TO_USECONDS current_memo.position)]
  | none => []

/-- Callback `_on_hash_generated_cb` for the memo with address `memo` and the hash
`pending_hash`; `row` is the position of the row that the database holds for the hash, if
it holds one. A memo that left the array is not followed any further. -/
def _on_hash_generated_cb (env : RecallEnv) (self : ClapperRecall) (memo : Nat)
    (pending_hash : CString) (row : Option Int) : ClapperRecall × List RecallCall :=
  match memo_at self memo with
  | none => (self, [])
  | some data_memo =>
      let data_memo := { data_memo with hash := some pending_hash }
      let data_memo :=
        if self.persistent_storage && decide (data_memo.position ≤ 0) && env.db then
          match row with
          | some useconds =>
              { data_memo with position := CLAPPER_RECALL_USECONDS_TO_SECONDS useconds }
          | none => data_memo
        else data_memo
      let considered :=
        if self.current_memo = some memo then _consider_playback_resume env self data_memo
        else (self, [])
      let refreshed := _refresh_marker_presence considered.1 data_memo false
      (store_memo considered.1 refreshed.1, considered.2 ++ refreshed.2)

/-- Helper `find_memo_by_item`: the first memo of the array that has the item. -/
def find_memo_by_item (self : ClapperRecall) (search_item : Option Nat) :
    Option ClapperRecallMemo :=
  match search_item with
  | some item => self.memos.find? fun memo => memo.item == item
  | none => none

/-- Handler `clapper_recall_state_changed`. -/
def clapper_recall_state_changed (env : RecallEnv) (self : ClapperRecall) (state : Nat) :
    ClapperRecall × List RecallCall :=
  let self := { self with state := state }
  match self.current_memo.bind (memo_at self) with
  | some current_memo => _consider_playback_resume env self current_memo
  | none => (self, [])

/-- Handler `clapper_recall_position_changed`. -/
def clapper_recall_position_changed (self : ClapperRecall) (position : GDouble) :
    ClapperRecall × List RecallCall :=
  if position = 0 then (self, []) else ({ self with played_position := position }, [])

/-- Handler `clapper_recall_played_item_changed`; `item = none` is a NULL item. -/
def clapper_recall_played_item_changed (env : RecallEnv) (self : ClapperRecall)
    (item : Option Nat) : ClapperRecall × List RecallCall :=
  let previous : ClapperRecall × List RecallCall :=
    match self.current_memo.bind (memo_at self) with
    | some current_memo =>
        let current_memo := { current_memo with position := self.played_position }
        let memorized := memorize_current_memo_position env self current_memo
        let refreshed := _refresh_marker_presence self current_memo true
        (store_memo self refreshed.1, memorized ++ refreshed.2)
    | none => (self, [])
  let self := previous.1
  let found := find_memo_by_item self item
  let self := { self with current_memo := found.map ClapperRecallMemo.ptr }
  let self := { self with played_position := 0, resume_done := false }
  match found with
  | some memo =>
      if memo.hash.isNone then (self, previous.2 ++ [.g_thread_pool_move_to_front memo.ptr])
      else (self, previous.2)
  | none => (self, previous.2)

/-- Handler `clapper_recall_item_updated`; `duration` is what
`clapper_media_item_get_duration` gives for the item. -/
def clapper_recall_item_updated (env : RecallEnv) (self : ClapperRecall) (item : Nat)
    (duration : GDouble) (flags : Nat) : ClapperRecall × List RecallCall :=
  if flags &&& (CLAPPER_REACTABLE_ITEM_UPDATED_DURATION |||
      CLAPPER_REACTABLE_ITEM_UPDATED_REDIRECT_URI) = 0 then (self, [])
  else
    match find_memo_by_item self (some item) with
    | some memo =>
        let redirected : ClapperRecallMemo × List RecallCall :=
          if flags &&& CLAPPER_REACTABLE_ITEM_UPDATED_REDIRECT_URI ≠ 0 then
            ({ memo with hash := none, position := -1 },
              if self.current_memo = some memo.ptr then
                [.g_thread_pool_push memo.ptr, .g_thread_pool_move_to_front memo.ptr]
              else [.g_thread_pool_push memo.ptr])
          else (memo, [])
        let memo := redirected.1
        let timed : ClapperRecallMemo × ClapperRecall × List RecallCall :=
          if flags &&& CLAPPER_REACTABLE_ITEM_UPDATED_DURATION ≠ 0 then
            let memo := { memo with duration := duration }
            if self.current_memo = some memo.ptr then
              (memo, _consider_playback_resume env self memo)
            else (memo, self, [])
          else (memo, self, [])
        let refreshed := _refresh_marker_presence timed.2.1 timed.1 false
        (store_memo timed.2.1 refreshed.1, redirected.2 ++ timed.2.2 ++ refreshed.2)
    | none => (self, [])

/-- Handler `clapper_recall_queue_item_added`; `memo` is the address of the new memo. -/
def clapper_recall_queue_item_added (self : ClapperRecall) (memo item index : Nat) :
    ClapperRecall × List RecallCall :=
  let created := clapper_recall_memo_new_for_item memo item
  ({ self with memos := g_ptr_array_insert self.memos (gint_of_guint index) created },
    [.g_thread_pool_push memo])

/-- Handler `clapper_recall_queue_item_removed`. With an index that GLib rejects nothing
is taken out. -/
def clapper_recall_queue_item_removed (env : RecallEnv) (self : ClapperRecall)
    (_item index : Nat) : ClapperRecall × List RecallCall :=
  match g_ptr_array_steal_index self.memos index with
  | (some memo, rest) =>
      let self := { self with memos := rest }
      let left : ClapperRecall × ClapperRecallMemo × List RecallCall :=
        if self.current_memo = some memo.ptr then
          let memo := { memo with position := self.played_position }
          ({ self with current_memo := none }, memo,
            memorize_current_memo_position env self memo)
        else (self, memo, [])
      match left.2.1.marker with
      | some marker =>
          (left.1, left.2.2 ++ [.clapper_timeline_remove_marker left.2.1.item marker])
      | none => (left.1, left.2.2)
  | (none, _) => (self, [])

/-- Handler `clapper_recall_queue_item_repositioned`. With an index that GLib rejects
nothing is moved. -/
def clapper_recall_queue_item_repositioned (self : ClapperRecall) (before after : Nat) :
    ClapperRecall × List RecallCall :=
  match g_ptr_array_steal_index self.memos before with
  | (some memo, rest) =>
      ({ self with memos := g_ptr_array_insert rest (gint_of_guint after) memo }, [])
  | (none, _) => (self, [])

/-- Handler `clapper_recall_queue_cleared`. -/
def clapper_recall_queue_cleared (env : RecallEnv) (self : ClapperRecall) :
    ClapperRecall × List RecallCall :=
  let left : ClapperRecall × List RecallCall :=
    match self.current_memo.bind (memo_at self) with
    | some current_memo =>
        let current_memo := { current_memo with position := self.played_position }
        ({ store_memo self current_memo with current_memo := none },
          memorize_current_memo_position env self current_memo)
    | none => (self, [])
  ({ left.1 with memos := [] },
    left.2 ++ left.1.memos.reverse.flatMap fun memo =>
      match memo.marker with
      | some marker => [RecallCall.clapper_timeline_remove_marker memo.item marker]
      | none => [])

/-- Setter `clapper_recall_set_mark_position`. -/
def clapper_recall_set_mark_position (self : ClapperRecall) (value : Bool) :
    ClapperRecall × List RecallCall :=
  if self.mark_position != value then
    _refresh_all_markers_presence { self with mark_position := value }
  else (self, [])

/-- The three threshold properties that `clapper_recall_set_property` hands to
`clapper_recall_set_time_ptr`. -/
inductive RecallTime where
  | min_duration
  | min_elapsed
  | min_remaining
  deriving DecidableEq

/-- Setter `clapper_recall_set_time_ptr (self, time_ptr, value)`. -/
def clapper_recall_set_time_ptr (self : ClapperRecall) (time_ptr : RecallTime) (value : Int) :
    ClapperRecall × List RecallCall :=
  match time_ptr with
  | .min_duration =>
      if self.min_duration ≠ value then
        _refresh_all_markers_presence { self with min_duration := value }
      else (self, [])
  | .min_elapsed =>
      if self.min_elapsed ≠ value then
        _refresh_all_markers_presence { self with min_elapsed := value }
      else (self, [])
  | .min_remaining =>
      if self.min_remaining ≠ value then
        _refresh_all_markers_presence { self with min_remaining := value }
      else (self, [])

/-- What happens to Recall: a call of the notification interface, the arrival of a
generated hash, or a property being set. -/
inductive RecallEvent where
  | state_changed (state : Nat)
  | position_changed (position : GDouble)
  | played_item_changed (item : Option Nat)
  | item_updated (item : Nat) (duration : GDouble) (flags : Nat)
  | queue_item_added (memo item index : Nat)
  | queue_item_removed (item index : Nat)
  | queue_item_repositioned (before after : Nat)
  | queue_cleared
  | hash_generated (memo : Nat) (pending_hash : CString) (row : Option Int)
  | set_persistent_storage (value : Bool)
  | set_mark_position (value : Bool)
  | set_auto_resume (value : Bool)
  | set_time (time_ptr : RecallTime) (value : Int)

/-- The virtual table set up by `clapper_recall_reactable_iface_init`, the hash callback
and `clapper_recall_set_property`. -/
def recall_step (env : RecallEnv) (self : ClapperRecall) :
    RecallEvent → ClapperRecall × List RecallCall
  | .state_changed state => clapper_recall_state_changed env self state
  | .position_changed position => clapper_recall_position_changed self position
  | .played_item_changed item => clapper_recall_played_item_changed env self item
  | .item_updated item duration flags => clapper_recall_item_updated env self item duration flags
  | .queue_item_added memo item index => clapper_recall_queue_item_added self memo item index
  | .queue_item_removed item index => clapper_recall_queue_item_removed env self item index
  | .queue_item_repositioned before after =>
      clapper_recall_queue_item_repositioned self before after
  | .queue_cleared => clapper_recall_queue_cleared env self
  | .hash_generated memo pending_hash row => _on_hash_generated_cb env self memo pending_hash row
  | .set_persistent_storage value => ({ self with persistent_storage := value }, [])
  | .set_mark_position value => clapper_recall_set_mark_position self value
  | .set_auto_resume value => ({ self with auto_resume := value }, [])
  | .set_time time_ptr value => clapper_recall_set_time_ptr self time_ptr value

/-- Recall and the calls made after a sequence of events, delivered in order. -/
def recall_run (env : RecallEnv) (self : ClapperRecall) :
    List RecallEvent → ClapperRecall × List RecallCall
  | [] => (self, [])
  | event :: rest =>
      ((recall_run env (recall_step env self event).1 rest).1,
        (recall_step env self event).2 ++ (recall_run env (recall_step env self event).1 rest).2)

/-! ## M3U playlist parser (`clapper-parser-m3u.c`) -/

/-- The tags of a `GstTagList` that the parser sets: the duration in nanoseconds and the
title. -/
structure GstTagList where
  duration : Option Nat
  title : Option CString
  deriving DecidableEq

/-- A `ClapperMediaItem` made by `clapper_media_item_new (uri)`, with the tags that
`clapper_media_item_populate_tags` gave it, if any. -/
structure ClapperMediaItem where
  uri : CString
  tags : Option GstTagList
  deriving DecidableEq

/-- What the surroundings answer to the parser: GLib `g_ascii_strtod` (the number read and
the text left at `endptr`), GStreamer `gst_uri_is_valid`, GLib `g_uri_resolve_relative`
against the URI of the playlist (`none` is NULL with the error set), and
`g_cancellable_is_cancelled` at the check that ends the round with the number given. -/
structure M3uEnv where
  g_ascii_strtod : CString → GDouble × CString
  gst_uri_is_valid : CString → Bool
  g_uri_resolve_relative : CString → Option CString
  g_cancellable_is_cancelled : Nat → Bool

/-- What `clapper_parser_m3u_parse` gives: the value returned, the items appended to the
playlist in order, and whether the error is set. -/
structure M3uResult where
  success : Bool
  playlist : List ClapperMediaItem
  error : Bool
  deriving DecidableEq

/-- GLib `g_strndup (str, n)`: the first `n` bytes of `str`, up to the first NUL. -/
def g_strndup (str : CString) (n : Nat) : CString :=
  (str.take n).takeWhile fun c => c ≠ Char.ofNat 0

/-- Helper `_parse_extinf_data (self, ptr, len)`; `none` is the NULL tag list. The
duration is positive where it is converted, and taken to fit 64 bits. -/
def _parse_extinf_data (env : M3uEnv) (ptr : CString) (len : Nat) : Option GstTagList :=
  let line := g_strndup ptr len
  let parsed := env.g_ascii_strtod (line.drop 8)
  let duration := parsed.1
  let dur_end := parsed.2
  let tags : Option GstTagList :=
    if duration > 0 then
      some { duration := some (Int.tdiv (duration * GST_SECOND).num
               (duration * GST_SECOND).den).toNat,
             title := none }
    else none
  if dur_end ≠ [] then
    let title := dur_end.drop 1
    if title ≠ [] then
      some { tags.getD { duration := none, title := none } with title := some title }
    else tags
  else tags

/-- Helper `_parse_uri_data (self, uri, ptr, len, error)`: the item (`none` is NULL) and
whether the error was set. -/
def _parse_uri_data (env : M3uEnv) (ptr : CString) (len : Nat) :
    Option ClapperMediaItem × Bool :=
  let line := g_strndup ptr len
  if env.gst_uri_is_valid line then (some { uri := line, tags := none }, false)
  else
    match env.g_uri_resolve_relative line with
    | some res_uri => (some { uri := res_uri, tags := none }, false)
    | none => (none, true)

/-- The bytes from `ptr` that follow the current line: `ptr = nl ? (nl + 1) : end`. -/
def m3u_advance (ptr : CString) : CString :=
  let len := (ptr.takeWhile fun c => c ≠ '\n').length
  if len < ptr.length then ptr.drop (len + 1) else []

/-- The `switch (ptr[0])` of `clapper_parser_m3u_parse` for the line at `ptr`: the pending
tags, the playlist, `success` and whether the error is set, after it. `g_str_has_prefix`
is taken within the bytes of the buffer. -/
def clapper_parser_m3u_parse_switch (env : M3uEnv) (ptr : CString)
    (tags : Option GstTagList) (playlist : List ClapperMediaItem) (success : Bool) :
    Option GstTagList × List ClapperMediaItem × Bool × Bool :=
  let len := (ptr.takeWhile fun c => c ≠ '\n').length
  match ptr.head? with
  | some '#' =>
      if ptr.take 8 = "#EXTINF:".data then (_parse_extinf_data env ptr len, playlist, success, false)
      else (tags, playlist, success, false)
  | some first =>
      if first = Char.ofNat 0 ∨ first = '\n' ∨ first = ' ' then (tags, playlist, success, false)
      else
        match _parse_uri_data env ptr len with
        | (some item, error) =>
            match tags with
            | some found => (none, playlist ++ [{ item with tags := some found }], true, error)
            | none => (tags, playlist ++ [item], true, error)
        | (none, error) => (tags, playlist, success, error)
  | none => (tags, playlist, success, false)

/-- The loop `while (ptr < end)` of `clapper_parser_m3u_parse`, from the bytes left at
`ptr` in the round with number `round`. -/
def clapper_parser_m3u_parse_loop (env : M3uEnv) (ptr : CString) (round : Nat)
    (tags : Option GstTagList) (playlist : List ClapperMediaItem) (success : Bool) :
    M3uResult :=
  match ptr with
  | [] => { success := success, playlist := playlist, error := false }
  | first :: more =>
      let step := clapper_parser_m3u_parse_switch env (first :: more) tags playlist success
      if step.2.2.2 || env.g_cancellable_is_cancelled round then
        { success := false, playlist := step.2.1, error := step.2.2.2 }
      else
        clapper_parser_m3u_parse_loop env (m3u_advance (first :: more)) (round + 1) step.1
          step.2.1 step.2.2.1
termination_by ptr.length
decreasing_by
  simp only [m3u_advance]
  split
  · simp only [List.length_drop, List.length_cons]
    omega
  · simp

/-- Function `clapper_parser_m3u_parse` on the bytes of the playlist, called with an
empty playlist and no error set. -/
def clapper_parser_m3u_parse (env : M3uEnv) (bytes : CString) : M3uResult :=
  clapper_parser_m3u_parse_loop env bytes 0 none [] false

/-! ## Reference definitions the claims are compared against -/

/-- Largest `gint`. -/
def G_MAXINT : Nat := 2147483647

/-- The list operation the specification names for a queue notification: insert the item
at the index, delete the element at the index, move the element at `before` to position
`after`, empty the list. Other notifications leave the queue alone. -/
def spec_queue_apply (queue : List MediaItem) : Notification → List MediaItem
  | .queue_item_added item index => queue.insertIdx index item
  | .queue_item_removed _ index => queue.eraseIdx index
  | .queue_item_repositioned before after =>
      match queue[before]? with
      | some item => (queue.eraseIdx before).insertIdx after item
      | none => queue
  | .queue_cleared => []
  | _ => queue

/-- The indices of a queue notification are valid for a mirror holding `queue`: an added
item goes to a position of the grown queue, a removed or moved item comes from a position
of the queue, and a moved item goes to a position of the queue. An index that GLib takes
as a `gint` is such a value. -/
def index_in_range (queue : List MediaItem) : Notification → Prop
  | .queue_item_added _ index => index ≤ queue.length ∧ index ≤ G_MAXINT
  | .queue_item_removed _ index => index < queue.length
  | .queue_item_repositioned before after =>
      before < queue.length ∧ after < queue.length ∧ after ≤ G_MAXINT
  | _ => True

instance index_in_range_decidable (queue : List MediaItem) (n : Notification) :
    Decidable (index_in_range queue n) := by
  cases n <;> dsimp only [index_in_range] <;> infer_instance

/-- Every notification of the sequence has indices valid for the mirror at its time. -/
def indices_in_range (self : Hub) : List Notification → Prop
  | [] => True
  | n :: rest => index_in_range self.items n ∧ indices_in_range (react self n).1 rest

instance indices_in_range_decidable :
    (self : Hub) → (ns : List Notification) → Decidable (indices_in_range self ns)
  | _, [] => isTrue trivial
  | self, n :: rest =>
      @instDecidableAnd _ _ (index_in_range_decidable self.items n)
        (indices_in_range_decidable (react self n).1 rest)

/-- The item of the last `played_item_changed` notification of a sequence (`none` when
there was no such notification or it carried no item). -/
def last_played_item (ns : List Notification) : Option MediaItem :=
  ns.foldl (fun last n =>
    match n with
    | .played_item_changed item => item
    | _ => last) none

/-- The invariant of the specification: `played_index` is the sentinel, or a valid index
of the mirror whose element is the given played item. -/
def played_index_consistent (self : Hub) (played : Option MediaItem) : Bool :=
  self.played_index == CLAPPER_QUEUE_INVALID_POSITION ||
    match self.items[self.played_index]?, played with
    | some item, some p => item.same p
    | _, _ => false

/-- Position `i` holds `item`, the first element of `items` whose id is `id`. -/
def first_with_id (items : List MediaItem) (id i : Nat) (item : MediaItem) : Prop :=
  items[i]? = some item ∧ item.id = id ∧
    ∀ j other, j < i → items[j]? = some other → other.id ≠ id

/-- The writes performed for the texts a handler handed to `clapper_control_hub_ws_send`. -/
def ws_writes (hub : Hub) (texts : List WsMessage) : List (Nat × WsMessage) :=
  texts.flatMap (clapper_control_hub_ws_send hub)

/-- The string with every quote replaced by the two characters backslash and quote. -/
def spec_escape (s : CString) : CString :=
  s.flatMap fun c => if c = '"' then ['\\', '"'] else [c]

/-- The string without the backslash that stands right in front of a quote. -/
def spec_unescape : CString → CString
  | [] => []
  | [c] => [c]
  | c :: d :: rest =>
      if c = '\\' ∧ d = '"' then d :: spec_unescape rest else c :: spec_unescape (d :: rest)

/-- A member of a JSON object: the key in quotes, a colon, the value text. -/
def json_member (key : String) (value : CString) : CString :=
  '"' :: key.data ++ '"' :: ':' :: value

/-- Texts joined by single commas, in order. -/
def join_commas : List CString → CString
  | [] => []
  | first :: rest => first ++ rest.flatMap fun text => ',' :: text

/-- A JSON object without insignificant white space: its members in order. -/
def json_object (members : List CString) : CString := '{' :: join_commas members ++ ['}']

/-- A string value of the encoder: the text in quotes, each quote of the text escaped. -/
def json_string (s : CString) : CString := '"' :: spec_escape s ++ ['"']

/-- The object of a change event: the event name `<field>_changed`, then the field. -/
def changed_event_json (field : String) (value : CString) : CString :=
  json_object [json_member "event" (json_string (field.data ++ "_changed".data)),
    json_member field value]

/-- The object of an event with two members after its name. -/
def custom_event_json (name key1 : String) (value1 : CString) (key2 : String)
    (value2 : CString) : CString :=
  json_object [json_member "event" (json_string name.data), json_member key1 value1,
    json_member key2 value2]

/-- The JSON object the specification gives for each delta event, numbers in decimal. -/
def event_json : WsMessage → CString
  | .state_changed state => changed_event_json "state" (printf_u state)
  | .position_changed position => changed_event_json "position" (printf_lf 3 position)
  | .speed_changed speed => changed_event_json "speed" (printf_lf 2 speed)
  | .volume_changed volume => changed_event_json "volume" (printf_lf 2 volume)
  | .mute_changed mute => changed_event_json "mute" (printf_bool mute)
  | .played_index_changed index => changed_event_json "played_index" (printf_u index)
  | .progression_changed mode => changed_event_json "progression" (printf_u mode)
  | .item_updated item_id flags =>
      custom_event_json "item_updated" "id" (printf_u item_id) "flags" (printf_u flags)
  | .item_added item_id index =>
      custom_event_json "item_added" "id" (printf_u item_id) "index" (printf_u index)
  | .item_removed item_id index =>
      custom_event_json "item_removed" "id" (printf_u item_id) "index" (printf_u index)
  | .item_repositioned before after =>
      custom_event_json "item_repositioned" "before" (printf_u before) "after"
        (printf_u after)
  | .queue_cleared => json_object [json_member "event" (json_string "queue_cleared".data)]

/-- The flags of an `item_updated` notification without the redirect URI and the cache
location bit. -/
def surfaced_flags (flags : Nat) : Nat :=
  flags &&& (G_MAXUINT ^^^
    (CLAPPER_REACTABLE_ITEM_UPDATED_REDIRECT_URI ||| CLAPPER_REACTABLE_ITEM_UPDATED_CACHE_LOCATION))

/-- The connection set the specification describes after a sequence of lifecycle events:
the connections registered, in registration order, minus the closed ones. -/
def spec_connections (events : List WsLifecycle) : List WsConnection :=
  events.foldl (fun set event =>
    match event with
    | .handshake connection => set ++ [connection]
    | .closed closed => set.filter fun connection => connection.ptr ≠ closed) []

/-- A handshake delivers a fresh connection: one whose address is not in the connection
set of the hub. -/
def fresh_event (hub : Hub) : WsLifecycle → Prop
  | .handshake connection => ∀ known ∈ hub.ws_connections, known.ptr ≠ connection.ptr
  | .closed _ => True

/-- Every handshake of the sequence delivers a connection that is fresh at its time. -/
def fresh_handshakes (hub : Hub) : List WsLifecycle → Prop
  | [] => True
  | event :: rest => fresh_event hub event ∧ fresh_handshakes (ws_lifecycle_step hub event) rest

/-- The reader after it entered the element `element` of the array `array` at which
`reader` stood. -/
def reader_at_element (reader : JsonReader) (array element : JsonNode) : JsonReader :=
  { reader with current_node := some element, previous := array :: reader.previous }

/-- Visiting the elements of a list in order until a visit returns FALSE: the harvest
afterwards and the number of visits made. -/
def visit_until (visit : JsonNode → ClapperHarvest → Bool × ClapperHarvest) :
    List JsonNode → ClapperHarvest → ClapperHarvest × Nat
  | [], harvest => (harvest, 0)
  | element :: rest, harvest =>
      if (visit element harvest).1 then
        ((visit_until visit rest (visit element harvest).2).1,
          (visit_until visit rest (visit element harvest).2).2 + 1)
      else ((visit element harvest).2, 1)

/-- The value and harvest that the callback gives when called with the reader at an
element of the array at which `reader` stands. -/
def visit_element (func : JsonUtilsForeachFunc) (reader : JsonReader) (array : JsonNode)
    (element : JsonNode) (harvest : ClapperHarvest) : Bool × ClapperHarvest :=
  ((func (reader_at_element reader array element) harvest).1,
    (func (reader_at_element reader array element) harvest).2.2)

/-- Whether a call of Recall is a seek of the player. -/
def RecallCall.is_seek : RecallCall → Bool
  | .clapper_player_seek _ => true
  | _ => false

/-- Whether an event is the notification of a change of the played item. -/
def RecallEvent.is_played_item_changed : RecallEvent → Bool
  | .played_item_changed _ => true
  | _ => false

/-- The first four guards of a resume consideration: no resume done yet, the hash of the
memo set, its duration above 0, the player state at least PAUSED. -/
def resume_guards (self : ClapperRecall) (memo : ClapperRecallMemo) : Prop :=
  self.resume_done = false ∧ memo.hash ≠ none ∧ 0 < memo.duration ∧
    CLAPPER_PLAYER_STATE_PAUSED ≤ self.state

/-- The memo is recallable, in the words of the claim: position at least min-elapsed,
duration at least min-duration, position at most duration minus min-remaining. -/
def spec_recallable (self : ClapperRecall) (memo : ClapperRecallMemo) : Prop :=
  (self.min_elapsed : ℚ) ≤ memo.position ∧ (self.min_duration : ℚ) ≤ memo.duration ∧
    memo.position ≤ memo.duration - (self.min_remaining : ℚ)

instance resume_guards_decidable (self : ClapperRecall) (memo : ClapperRecallMemo) :
    Decidable (resume_guards self memo) := by
  unfold resume_guards
  infer_instance

instance spec_recallable_decidable (self : ClapperRecall) (memo : ClapperRecallMemo) :
    Decidable (spec_recallable self memo) := by
  unfold spec_recallable
  infer_instance

/-- Whether no call of a list is a seek. -/
def no_seek (calls : List RecallCall) : Bool := calls.all fun call => !call.is_seek

/-- A step that leaves the resume flag set and issues no seek. -/
def quiet_step (result : ClapperRecall × List RecallCall) : Prop :=
  result.1.resume_done = true ∧ no_seek result.2 = true

/-- The lines of a buffer: the runs of bytes between its newlines, in order; a newline at
the very end does not start a further line. -/
def split_lines : CString → List CString
  | [] => []
  | c :: rest =>
      if c = '\n' then [] :: split_lines rest
      else
        match split_lines rest with
        | [] => [[c]]
        | line :: lines => (c :: line) :: lines

/-- Whether the first byte of a line is none of `#`, NUL, newline and space; an empty line
is one whose first byte is its newline. -/
def is_item_line (line : CString) : Bool :=
  match line.head? with
  | some c => c ≠ '#' && c ≠ Char.ofNat 0 && c ≠ '\n' && c ≠ ' '
  | none => false

/-- Whether a line starts with `#EXTINF:`. -/
def is_extinf_line (line : CString) : Bool := decide (line.take 8 = "#EXTINF:".data)

/-- The tags that wait for the next item after the lines given, the nearest line first:
those of the nearest `#EXTINF` line, unless an item line came after it. -/
def pending_tags (env : M3uEnv) : List CString → Option GstTagList
  | [] => none
  | line :: earlier =>
      if is_extinf_line line then _parse_extinf_data env line line.length
      else if is_item_line line then none
      else pending_tags env earlier

/-- The item of an item line: its URI is the line when that is a valid URI and the line
resolved against the URI of the playlist otherwise. -/
def item_of_line (env : M3uEnv) (line : CString) (tags : Option GstTagList) :
    ClapperMediaItem :=
  { uri := if env.gst_uri_is_valid (g_strndup line line.length) then g_strndup line line.length
      else (env.g_uri_resolve_relative (g_strndup line line.length)).getD []
    tags := tags }

/-- The items of the lines given, in order: one per item line, with the tags that wait
after the lines before it (`earlier`, the nearest first). -/
def spec_items (env : M3uEnv) : List CString → List CString → List ClapperMediaItem
  | _, [] => []
  | earlier, line :: rest =>
      if is_item_line line then
        item_of_line env line (pending_tags env earlier) :: spec_items env (line :: earlier) rest
      else spec_items env (line :: earlier) rest

/-- No item line of the list makes `_parse_uri_data` set the error: each is a valid URI
or resolves against the URI of the playlist. -/
def lines_resolve (env : M3uEnv) (lines : List CString) : Prop :=
  ∀ line ∈ lines, is_item_line line = true →
    env.gst_uri_is_valid (g_strndup line line.length) = true ∨
      (env.g_uri_resolve_relative (g_strndup line line.length)).isSome = true

/-! ## Sample data -/

/-- A media item with address and id `n`. -/
def sample_item (n : Nat) : MediaItem :=
  { ptr := n, id := n, title := "", duration := 0 }

/-- An item with id 7 whose title holds a quote, with one marker whose title holds a
quote too. -/
def marked_item : MediaItem :=
  { sample_item 7 with
    title := "a\"b"
    timeline := [{ marker_type := 1, title := "c\"d", start := 0, end_ := mkRat 3 2 }] }

/-- Surroundings in which the listener binds and reports port 8080. -/
def binding_env : ServeEnv :=
  { listen_ok := true, error := false, uri_ports := [8080], player := true }

/-- Surroundings in which the listener fails to bind and the error is set. -/
def failing_env : ServeEnv :=
  { listen_ok := false, error := true, uri_ports := [], player := true }

/-- A running hub with one open connection. -/
def served_hub : Hub :=
  { clapper_control_hub_init with
    running := true, active := true, ws_connections := [{ ptr := 1, state := .OPEN }] }

/-- Splits a command at its first colon into keyword and payload. -/
def split_command : List Char → List Char × List Char
  | [] => ([], [])
  | c :: rest =>
      if c = ':' then ([], rest)
      else ((c :: (split_command rest).1), (split_command rest).2)

/-- Value of a run of decimal digits read after the value `acc`; `none` at any other
character. -/
def decimal_value : List Char → Nat → Option Nat
  | [], acc => some acc
  | c :: rest, acc =>
      if c.isDigit then decimal_value rest (acc * 10 + (c.toNat - 48)) else none

/-- A non-empty run of decimal digits as a number. -/
def parse_decimal (payload : List Char) : Option Nat :=
  if payload = [] then none else decimal_value payload 0

/-- Keyword table of the sample grammar. -/
def sample_get_action (text : String) : ClapperControlHubAction :=
  let keyword := String.mk (split_command text.data).1
  if keyword = "toggle-play" then .TOGGLE_PLAY
  else if keyword = "play" then .PLAY
  else if keyword = "pause" then .PAUSE
  else if keyword = "stop" then .STOP
  else if keyword = "seek" then .SEEK
  else if keyword = "set-speed" then .SET_SPEED
  else if keyword = "set-volume" then .SET_VOLUME
  else if keyword = "set-mute" then .SET_MUTE
  else if keyword = "set-progression" then .SET_PROGRESSION
  else if keyword = "add" then .ADD
  else if keyword = "insert" then .INSERT
  else if keyword = "select" then .SELECT
  else if keyword = "remove" then .REMOVE
  else if keyword = "clear" then .CLEAR
  else .INVALID

/-- Modelled from the spec: the command grammar of `clapper-control-hub-actions.c` is not
among the sources. This sample follows the `ACTION` or `ACTION:arg` shape the
specification suggests (numbers in plain decimal, `insert:<after-id>` taking the URI
`sample:uri`) and serves to run the callback on concrete frames; the theorems hold for
every implementation of `Actions`. -/
def sample_actions : Actions :=
  { get_action := sample_get_action
    parse_seek := fun text => (parse_decimal (split_command text.data).2).map fun n => (n : GDouble)
    parse_set_speed := fun text =>
      (parse_decimal (split_command text.data).2).map fun n => (n : GDouble)
    parse_set_volume := fun text =>
      (parse_decimal (split_command text.data).2).map fun n => (n : GDouble)
    parse_set_mute := fun text =>
      if String.mk (split_command text.data).2 = "true" then some true
      else if String.mk (split_command text.data).2 = "false" then some false
      else none
    parse_set_progression := fun text => parse_decimal (split_command text.data).2
    parse_add := fun text =>
      if (split_command text.data).2 = [] then none
      else some (String.mk (split_command text.data).2)
    parse_insert := fun text =>
      (parse_decimal (split_command text.data).2).map fun n => ("sample:uri", n)
    parse_select := fun text => parse_decimal (split_command text.data).2
    parse_remove := fun text => parse_decimal (split_command text.data).2 }

/-- A hub with a player state of PLAYING whose mirror holds the items with ids 41, 42, 42
(addresses 1, 2, 3). -/
def queue_hub (controllable : Bool) : Hub :=
  { clapper_control_hub_init with
    state := CLAPPER_PLAYER_STATE_PLAYING
    queue_controllable := controllable
    items := [{ sample_item 41 with ptr := 1 }, { sample_item 42 with ptr := 2 },
      { sample_item 42 with ptr := 3 }] }

/-- C27, the events of the claim: those whose values are all integers of 32 bits or
booleans, and the event without values. -/
def integer_valued : WsMessage → Prop
  | .state_changed state => state ≤ G_MAXUINT
  | .position_changed _ => False
  | .speed_changed _ => False
  | .volume_changed _ => False
  | .mute_changed _ => True
  | .played_index_changed index => index ≤ G_MAXUINT
  | .progression_changed mode => mode ≤ G_MAXUINT
  | .item_updated item_id flags => item_id ≤ G_MAXUINT ∧ flags ≤ G_MAXUINT
  | .item_added item_id index => item_id ≤ G_MAXUINT ∧ index ≤ G_MAXUINT
  | .item_removed item_id index => item_id ≤ G_MAXUINT ∧ index ≤ G_MAXUINT
  | .item_repositioned before after => before ≤ G_MAXUINT ∧ after ≤ G_MAXUINT
  | .queue_cleared => True

/-- An announcer of the program `player` on the host `box`, serving port 8080. -/
def sample_mdns : ClapperControlHubMdns :=
  _serve_in_thread_func_names "box".data (some "player".data) "controlhub0".data
    "0.10.0".data "0.10.0".data 8080

/-- An IPv4 query address. -/
def sample_addr4 : sockaddr := { sa_family := AF_INET, sin_addr := 3232235777, sin6_addr := 0 }

/-- An IPv6 query address. -/
def sample_addr6 : sockaddr := { sa_family := 10, sin_addr := 0, sin6_addr := 1 }

/-- An empty harvest. -/
def empty_harvest : ClapperHarvest := { buffer := none, tags := [] }

/-- An object with the single member `key` holding the string `value`. -/
def string_member (key value : String) : JsonNode := .object [(key.data, .string value.data)]

/-- An array of three objects: one without `playlistUrl`, then two with one each. -/
def sample_playlists : JsonNode :=
  .array [string_member "id" "x", string_member "playlistUrl" "http://a/1.m3u8",
    string_member "playlistUrl" "http://a/2.m3u8"]

/-- An object whose `playlistUrl` holds the number 5. -/
def number_member : JsonNode := .object [("playlistUrl".data, .int 5)]

/-- An array of two objects: one whose `playlistUrl` holds a number, then one whose
`playlistUrl` holds a string. -/
def number_playlists : JsonNode :=
  .array [number_member, string_member "playlistUrl" "http://a/2.m3u8"]

/-- An API response whose only streaming playlist has no `playlistUrl`, while its only
file has a `fileUrl`. -/
def sample_response : JsonNode :=
  .object [("name".data, .string "clip".data), ("duration".data, .int 10),
    ("streamingPlaylists".data, .array [string_member "id" "x"]),
    ("files".data, .array [string_member "fileUrl" "http://a/v.mp4"])]

/-- The response `sample_response` with an empty list of streaming playlists. -/
def sample_response_files_only : JsonNode :=
  .object [("name".data, .string "clip".data), ("duration".data, .int 10),
    ("streamingPlaylists".data, .array []),
    ("files".data, .array [string_member "fileUrl" "http://a/v.mp4"])]

/-- Surroundings of Recall with a player and a database. -/
def recall_env : RecallEnv := { player := true, db := true }

/-- A memo at address 100 for the item 1, of duration 1000, with the hash set and the
position 500 remembered. -/
def sample_memo : ClapperRecallMemo :=
  { ptr := 100, hash := some "h".data, item := 1, position := 500, duration := 1000,
    marker := none }

/-- Recall with default settings, `sample_memo` as the current memo, and the player
paused at the start of the item. -/
def sample_recall : ClapperRecall :=
  { clapper_recall_init with
    memos := [sample_memo], current_memo := some 100, state := CLAPPER_PLAYER_STATE_PAUSED }

/-- A session with min-elapsed set to 0: the item 1 is queued (its memo at address 100),
its duration of 1000 seconds becomes known, it becomes the played item and is left again
before any position was reported, and then its hash arrives, for which the database holds
a row of 500 seconds. -/
def stale_marker_events : List RecallEvent :=
  [.set_time .min_elapsed 0, .queue_item_added 100 1 0,
    .item_updated 1 1000 CLAPPER_REACTABLE_ITEM_UPDATED_DURATION,
    .played_item_changed (some 1), .played_item_changed none,
    .hash_generated 100 "h".data (some 500000000)]

/-- Sample surroundings of the parser: numbers are runs of decimal digits, a line is a
valid URI when it starts with `http://`, any other line resolves against `http://base/`,
and nothing is cancelled. -/
def sample_m3u_env : M3uEnv :=
  { g_ascii_strtod := fun text =>
      (((decimal_value (text.takeWhile Char.isDigit) 0).getD 0 : Nat),
        text.dropWhile Char.isDigit)
    gst_uri_is_valid := fun line => decide (line.take 7 = "http://".data)
    g_uri_resolve_relative := fun line => some ("http://base/".data ++ line)
    g_cancellable_is_cancelled := fun _ => false }

/-- A playlist of three items: the first after an `#EXTINF` line, the second without one,
the third after two `#EXTINF` lines. -/
def sample_m3u : CString :=
  ("#EXTM3U\n#EXTINF:10,One\nhttp://a/1.mp3\n\n skipped\nb.mp3\n" ++
    "#EXTINF:5,X\n#EXTINF:7,Y\nc.mp3").data

/-! ## Reading a snapshot back -/

/-- A title that the encoder writes as a valid JSON string: it holds no backslash and no
control character. -/
def plain_title (title : CString) : Prop :=
  ∀ c ∈ title, c ≠ '\\' ∧ 32 ≤ c.toNat

instance plain_title_decidable (title : CString) : Decidable (plain_title title) := by
  unfold plain_title
  infer_instance

/-- C1 (evaluated at the failing input): after `queue_item_added (A, 0)`,
`played_item_changed (A)` and `queue_item_added (B, 0)` the mirror is `[B, A]` while
`played_index` is still `0`, so it indexes `B` and not the played item `A`; and after
`queue_item_added (A, 0)`, `queue_item_added (B, 1)`, `played_item_changed (B)` and
`queue_item_removed (A, 0)` the mirror is `[B]` while `played_index` is still `1`, which
is neither the sentinel nor an index of the mirror. The indices of both sequences are in
range and the invariant of the specification is false in both final states. -/
theorem played_index_stale_after_queue_mutation :
    (indices_in_range clapper_control_hub_init
        [.queue_item_added (sample_item 1) 0, .played_item_changed (some (sample_item 1)),
          .queue_item_added (sample_item 2) 0] ∧
      (react_all clapper_control_hub_init
        [.queue_item_added (sample_item 1) 0, .played_item_changed (some (sample_item 1)),
          .queue_item_added (sample_item 2) 0]).items = [sample_item 2, sample_item 1] ∧
      (react_all clapper_control_hub_init
        [.queue_item_added (sample_item 1) 0, .played_item_changed (some (sample_item 1)),
          .queue_item_added (sample_item 2) 0]).played_index = 0 ∧
      last_played_item
        [.queue_item_added (sample_item 1) 0, .played_item_changed (some (sample_item 1)),
          .queue_item_added (sample_item 2) 0] = some (sample_item 1) ∧
      played_index_consistent
        (react_all clapper_control_hub_init
          [.queue_item_added (sample_item 1) 0, .played_item_changed (some (sample_item 1)),
            .queue_item_added (sample_item 2) 0])
        (some (sample_item 1)) = false) ∧
    (indices_in_range clapper_control_hub_init
        [.queue_item_added (sample_item 1) 0, .queue_item_added (sample_item 2) 1,
          .played_item_changed (some (sample_item 2)), .queue_item_removed (sample_item 1) 0] ∧
      (react_all clapper_control_hub_init
        [.queue_item_added (sample_item 1) 0, .queue_item_added (sample_item 2) 1,
          .played_item_changed (some (sample_item 2)),
          .queue_item_removed (sample_item 1) 0]).items = [sample_item 2] ∧
      (react_all clapper_control_hub_init
        [.queue_item_added (sample_item 1) 0, .queue_item_added (sample_item 2) 1,
          .played_item_changed (some (sample_item 2)),
          .queue_item_removed (sample_item 1) 0]).played_index = 1 ∧
      played_index_consistent
        (react_all clapper_control_hub_init
          [.queue_item_added (sample_item 1) 0, .queue_item_added (sample_item 2) 1,
            .played_item_changed (some (sample_item 2)), .queue_item_removed (sample_item 1) 0])
        (some (sample_item 2)) = false) := by
  refine ⟨⟨?_, ?_, ?_, ?_, ?_⟩, ⟨?_, ?_, ?_, ?_⟩⟩ <;> decide

/-! ### Queue mirror against list operations -/

theorem gint_of_guint_of_le {u : Nat} (h : u ≤ G_MAXINT) : gint_of_guint u = (u : Int) := by
  unfold G_MAXINT at h
  unfold gint_of_guint
  have h1 : u % 4294967296 = u := Nat.mod_eq_of_lt (by omega)
  rw [h1, if_pos (by omega)]

theorem take_append_cons_drop_eq_insertIdx {α : Type} (x : α) :
    ∀ (l : List α) (i : Nat), i ≤ l.length → l.take i ++ x :: l.drop i = l.insertIdx i x
  | l, 0, _ => by simp
  | [], i + 1, h => by simp at h
  | a :: l, i + 1, h => by
      have ih := take_append_cons_drop_eq_insertIdx x l i (by simpa using h)
      simp [List.insertIdx_succ_cons, ih]

theorem g_ptr_array_insert_in_range {α : Type} (l : List α) (i : Nat) (x : α)
    (h : i ≤ l.length) (hi : i ≤ G_MAXINT) :
    g_ptr_array_insert l (gint_of_guint i) x = l.insertIdx i x := by
  rw [gint_of_guint_of_le hi]
  unfold g_ptr_array_insert
  rw [if_neg (by omega), if_neg (by omega), if_neg (by omega)]
  simpa using take_append_cons_drop_eq_insertIdx x l i h

theorem g_ptr_array_remove_index_eq_eraseIdx {α : Type} (l : List α) (i : Nat) :
    g_ptr_array_remove_index l i = l.eraseIdx i := by
  unfold g_ptr_array_remove_index
  split
  · exact (List.eraseIdx_eq_take_drop_succ l i).symm
  · exact (List.eraseIdx_of_length_le (by omega)).symm

theorem g_ptr_array_steal_index_in_range {α : Type} (l : List α) (i : Nat) (h : i < l.length) :
    g_ptr_array_steal_index l i = (some l[i], l.eraseIdx i) := by
  unfold g_ptr_array_steal_index
  rw [if_pos h, List.eraseIdx_eq_take_drop_succ, List.getElem?_eq_getElem h]

theorem _clear_stored_queue_items (self : Hub) : (_clear_stored_queue self).items = [] := by
  unfold _clear_stored_queue g_ptr_array_remove_range
  by_cases h : self.items.length > 0
  · simp [h]
  · have : self.items = [] := List.length_eq_zero.mp (by omega)
    simp [this]

theorem react_items_eq_spec (self : Hub) (n : Notification)
    (h : index_in_range self.items n) :
    (react self n).1.items = spec_queue_apply self.items n := by
  cases n with
  | state_changed state => rfl
  | position_changed position =>
      simp only [react, clapper_control_hub_position_changed, spec_queue_apply]
      split <;> rfl
  | speed_changed speed => rfl
  | volume_changed volume => rfl
  | mute_changed mute => rfl
  | played_item_changed item =>
      simp only [react, clapper_control_hub_played_item_changed, spec_queue_apply]
      split <;> rfl
  | item_updated item flags =>
      simp only [react, clapper_control_hub_item_updated, spec_queue_apply]
      split <;> rfl
  | queue_item_added item index =>
      obtain ⟨h1, h2⟩ := h
      simp only [react, clapper_control_hub_queue_item_added, spec_queue_apply]
      exact g_ptr_array_insert_in_range _ _ _ h1 h2
  | queue_item_removed item index =>
      simp only [react, clapper_control_hub_queue_item_removed, spec_queue_apply]
      split <;> exact g_ptr_array_remove_index_eq_eraseIdx _ _
  | queue_item_repositioned before after =>
      obtain ⟨h1, h2, h3⟩ := h
      simp only [react, clapper_control_hub_queue_item_repositioned, spec_queue_apply]
      rw [g_ptr_array_steal_index_in_range _ _ h1, List.getElem?_eq_getElem h1]
      refine g_ptr_array_insert_in_range _ _ _ ?_ h3
      rw [List.length_eraseIdx]
      simp [h1]; omega
  | queue_cleared => exact _clear_stored_queue_items self
  | queue_progression_changed mode => rfl

theorem react_all_items_eq_spec :
    ∀ (ns : List Notification) (self : Hub), indices_in_range self ns →
      (react_all self ns).items = ns.foldl spec_queue_apply self.items
  | [], _, _ => rfl
  | n :: rest, self, h => by
      obtain ⟨h1, h2⟩ := h
      simp only [react_all, List.foldl_cons]
      rw [react_all_items_eq_spec rest _ h2, react_items_eq_spec self n h1]

/-- C2: for every notification sequence whose indices are in range for the mirror at
their time, the mirrored items after the sequence are the empty list transformed, in
order, by the list operation of each notification (insert at index, delete at index, move
from `before` to `after`, empty); and a reposition with in-range indices is exactly that
one move (the element of position `before` ends at position `after`), keeps the length and
permutes the items. -/
theorem queue_mirror_matches_operations (ns : List Notification)
    (hns : indices_in_range clapper_control_hub_init ns)
    (self : Hub) (before after : Nat)
    (hmove : index_in_range self.items (.queue_item_repositioned before after)) :
    (react_all clapper_control_hub_init ns).items = ns.foldl spec_queue_apply [] ∧
    (∃ item, self.items[before]? = some item ∧
      (react self (.queue_item_repositioned before after)).1.items =
        (self.items.eraseIdx before).insertIdx after item ∧
      (react self (.queue_item_repositioned before after)).1.items[after]? = some item) ∧
    (react self (.queue_item_repositioned before after)).1.items.length = self.items.length ∧
    (react self (.queue_item_repositioned before after)).1.items.Perm self.items := by
  have hstep := react_items_eq_spec self _ hmove
  obtain ⟨h1, h2, _⟩ := hmove
  have hget : self.items[before]? = some self.items[before] := List.getElem?_eq_getElem h1
  have hlen : after ≤ (self.items.eraseIdx before).length := by
    rw [List.length_eraseIdx]; simp [h1]; omega
  simp only [spec_queue_apply, hget] at hstep
  have hat : ((self.items.eraseIdx before).insertIdx after self.items[before])[after]? =
      some self.items[before] := by
    have hlt : after < ((self.items.eraseIdx before).insertIdx after self.items[before]).length := by
      rw [List.length_insertIdx _ _ hlen]; omega
    rw [List.getElem?_eq_getElem hlt, List.getElem_insertIdx_self _ _ _ hlen]
  refine ⟨react_all_items_eq_spec ns _ hns, ⟨_, hget, hstep, by rw [hstep]; exact hat⟩, ?_, ?_⟩
  · rw [hstep, List.length_insertIdx _ _ hlen, List.length_eraseIdx]
    simp [h1]; omega
  · rw [hstep]
    refine (List.perm_insertIdx _ _ hlen).trans ?_
    rw [List.eraseIdx_eq_take_drop_succ]
    refine List.perm_middle.symm.trans ?_
    rw [List.getElem_cons_drop, List.take_append_drop]

/-- C2, witness: an add, an add, a move and a removal, evaluated. -/
theorem queue_mirror_matches_operations_witness :
    (react_all clapper_control_hub_init
        [.queue_item_added (sample_item 1) 0, .queue_item_added (sample_item 2) 1,
          .queue_item_repositioned 0 1, .queue_item_removed (sample_item 2) 0]).items =
      [sample_item 1] ∧
    (react { clapper_control_hub_init with items := [sample_item 1, sample_item 2, sample_item 3] }
        (.queue_item_repositioned 0 2)).1.items = [sample_item 2, sample_item 3, sample_item 1] := by
  have h := queue_mirror_matches_operations
    [.queue_item_added (sample_item 1) 0, .queue_item_added (sample_item 2) 1,
      .queue_item_repositioned 0 1, .queue_item_removed (sample_item 2) 0] (by decide)
    { clapper_control_hub_init with items := [sample_item 1, sample_item 2, sample_item 3] } 0 2
    (by decide)
  obtain ⟨h1, ⟨item, h2, h3, _⟩, _, _⟩ := h
  refine ⟨h1.trans (by decide), ?_⟩
  have : item = sample_item 1 := by
    have : (some (sample_item 1) : Option MediaItem) = some item := h2
    exact (Option.some.inj this).symm
  subst this
  exact h3.trans (by decide)

/-! ### Scalar notifications -/

theorem send_if_served_eq (self : Hub) (data : WsMessage) :
    send_if_served self data =
      if self.running = true ∧ self.ws_connections ≠ [] then [data] else [] := by
  unfold send_if_served
  cases hr : self.running <;> cases hc : self.ws_connections <;> simp

theorem send_if_served_of_served (self : Hub) (data : WsMessage)
    (hrun : self.running = true) (hconn : self.ws_connections ≠ []) :
    send_if_served self data = [data] := by
  rw [send_if_served_eq, if_pos ⟨hrun, hconn⟩]

theorem send_if_served_of_not_served (self : Hub) (data : WsMessage)
    (h : self.running = false ∨ self.ws_connections = []) :
    send_if_served self data = [] := by
  rw [send_if_served_eq, if_neg]
  rintro ⟨h1, h2⟩
  rcases h with h | h
  · rw [h] at h1; exact Bool.noConfusion h1
  · exact h2 h

theorem position_changed_seconds (self : Hub) (p : GDouble) :
    gint_of_gdouble (clapper_control_hub_position_changed self p).1.position =
      gint_of_gdouble p := by
  unfold clapper_control_hub_position_changed
  split
  · assumption
  · rfl

theorem position_changed_served (self : Hub) (p : GDouble) :
    (clapper_control_hub_position_changed self p).1.running = self.running ∧
      (clapper_control_hub_position_changed self p).1.ws_connections = self.ws_connections := by
  unfold clapper_control_hub_position_changed
  split <;> exact ⟨rfl, rfl⟩

theorem position_changed_sent (self : Hub) (p : GDouble)
    (hrun : self.running = true) (hconn : self.ws_connections ≠ []) :
    (clapper_control_hub_position_changed self p).2 =
      if gint_of_gdouble self.position = gint_of_gdouble p then []
      else [.position_changed p] := by
  unfold clapper_control_hub_position_changed
  split
  · rfl
  · exact send_if_served_of_served _ _ hrun hconn

theorem gint_of_gdouble_samples :
    gint_of_gdouble 1.2 = 1 ∧ gint_of_gdouble 1.8 = 1 ∧ gint_of_gdouble 2.1 = 2 := by
  refine ⟨?_, ?_, ?_⟩ <;> norm_num [gint_of_gdouble] <;> decide

/-- C3: with the server running and at least one connection, and positions whose whole
seconds fit a `gint`, `position_changed (p)` hands a `position_changed` event carrying `p`
to the fan-out exactly when the truncated seconds of `p` differ from those of the mirrored
position, and hands over nothing otherwise; after `position_changed (1.2)` a following
`position_changed (1.8)` yields no event and a following `position_changed (2.1)` yields
exactly one. -/
theorem position_event_iff_seconds_differ (self : Hub) (p : GDouble)
    (hrun : self.running = true) (hconn : self.ws_connections ≠ [])
    (_hold : fits_gint self.position) (_hnew : fits_gint p) :
    ((clapper_control_hub_position_changed self p).2 = [.position_changed p] ↔
      gint_of_gdouble p ≠ gint_of_gdouble self.position) ∧
    ((clapper_control_hub_position_changed self p).2 = [] ↔
      gint_of_gdouble p = gint_of_gdouble self.position) ∧
    (clapper_control_hub_position_changed
      (clapper_control_hub_position_changed self 1.2).1 1.8).2 = [] ∧
    (clapper_control_hub_position_changed
      (clapper_control_hub_position_changed self 1.2).1 2.1).2 = [.position_changed 2.1] := by
  obtain ⟨s1, s2, s3⟩ := gint_of_gdouble_samples
  have hafter := position_changed_seconds self 1.2
  obtain ⟨hr, hc⟩ := position_changed_served self 1.2
  rw [s1] at hafter
  refine ⟨?_, ?_, ?_, ?_⟩
  · rw [position_changed_sent self p hrun hconn]
    by_cases h : gint_of_gdouble self.position = gint_of_gdouble p
    · simp [h]
    · simpa [h] using fun e => h e.symm
  · rw [position_changed_sent self p hrun hconn]
    by_cases h : gint_of_gdouble self.position = gint_of_gdouble p
    · simp [h]
    · simpa [h] using fun e => h e.symm
  · rw [position_changed_sent _ _ (hr.trans hrun) (hc ▸ hconn), hafter, s2]
    rfl
  · rw [position_changed_sent _ _ (hr.trans hrun) (hc ▸ hconn), hafter, s3]
    rfl

/-- C3, witness: the scenario on a running hub with one open connection. -/
theorem position_event_iff_seconds_differ_witness :
    (clapper_control_hub_position_changed
      (clapper_control_hub_position_changed served_hub 1.2).1 1.8).2 = [] ∧
    (clapper_control_hub_position_changed
      (clapper_control_hub_position_changed served_hub 1.2).1 2.1).2 =
        [.position_changed 2.1] :=
  (position_event_iff_seconds_differ served_hub 1.2 rfl (by decide)
    (by unfold fits_gint; decide)
    (by unfold fits_gint; norm_num; decide)).2.2

/-- C4 (as stated, refuted): on a running hub with one open connection whose mirror holds
state 0, speed 1, volume 1, mute off and progression 0, a notification that repeats the
mirrored value is forwarded all the same, for each of the five handlers. -/
theorem repeated_value_is_forwarded :
    (served_hub.state = 0 ∧
      (clapper_control_hub_state_changed served_hub 0).2 = [.state_changed 0]) ∧
    (served_hub.speed = 1 ∧
      (clapper_control_hub_speed_changed served_hub 1).2 = [.speed_changed 1]) ∧
    (served_hub.volume = 1 ∧
      (clapper_control_hub_volume_changed served_hub 1).2 = [.volume_changed 1]) ∧
    (served_hub.mute = false ∧
      (clapper_control_hub_mute_changed served_hub false).2 = [.mute_changed false]) ∧
    (served_hub.progression = 0 ∧
      (clapper_control_hub_queue_progression_changed served_hub 0).2 =
        [.progression_changed 0]) :=
  ⟨⟨rfl, rfl⟩, ⟨rfl, rfl⟩, ⟨rfl, rfl⟩, ⟨rfl, rfl⟩, ⟨rfl, rfl⟩⟩

/-- C4 (amended): each of the state, speed, volume, mute and progression handlers stores
the notified value, changes no other field, and hands the corresponding change event with
that value to the fan-out exactly when the server is running with at least one connection,
whether or not the value differs from the one mirrored before. -/
theorem scalar_handlers_store_and_forward (self : Hub) :
    (∀ state : Nat,
      clapper_control_hub_state_changed self state =
        ({ self with state := state },
          if self.running = true ∧ self.ws_connections ≠ [] then [.state_changed state]
          else [])) ∧
    (∀ speed : GDouble,
      clapper_control_hub_speed_changed self speed =
        ({ self with speed := speed },
          if self.running = true ∧ self.ws_connections ≠ [] then [.speed_changed speed]
          else [])) ∧
    (∀ volume : GDouble,
      clapper_control_hub_volume_changed self volume =
        ({ self with volume := volume },
          if self.running = true ∧ self.ws_connections ≠ [] then [.volume_changed volume]
          else [])) ∧
    (∀ mute : Bool,
      clapper_control_hub_mute_changed self mute =
        ({ self with mute := mute },
          if self.running = true ∧ self.ws_connections ≠ [] then [.mute_changed mute]
          else [])) ∧
    (∀ mode : Nat,
      clapper_control_hub_queue_progression_changed self mode =
        ({ self with progression := mode },
          if self.running = true ∧ self.ws_connections ≠ [] then [.progression_changed mode]
          else [])) := by
  refine ⟨?_, ?_, ?_, ?_, ?_⟩ <;> intro v
  · simp only [clapper_control_hub_state_changed, send_if_served_eq]
  · simp only [clapper_control_hub_speed_changed, send_if_served_eq]
  · simp only [clapper_control_hub_volume_changed, send_if_served_eq]
  · simp only [clapper_control_hub_mute_changed, send_if_served_eq]
  · simp only [clapper_control_hub_queue_progression_changed, send_if_served_eq]

/-! ### No event without a served client -/

theorem react_keeps_served (self : Hub) (n : Notification) :
    (react self n).1.running = self.running ∧
      (react self n).1.ws_connections = self.ws_connections := by
  cases n <;>
    simp only [react, clapper_control_hub_state_changed, clapper_control_hub_position_changed,
      clapper_control_hub_speed_changed, clapper_control_hub_volume_changed,
      clapper_control_hub_mute_changed, clapper_control_hub_played_item_changed,
      clapper_control_hub_item_updated, clapper_control_hub_queue_item_added,
      clapper_control_hub_queue_item_removed, clapper_control_hub_queue_item_repositioned,
      clapper_control_hub_queue_cleared, clapper_control_hub_queue_progression_changed,
      _clear_stored_queue] <;>
    (repeat' split) <;> first | exact ⟨rfl, rfl⟩ | exact ⟨trivial, trivial⟩

theorem react_sent_cases (self : Hub) (n : Notification) :
    (react self n).2 = [] ∨ ∃ data, (react self n).2 = send_if_served (react self n).1 data := by
  cases n <;>
    simp only [react, clapper_control_hub_state_changed, clapper_control_hub_position_changed,
      clapper_control_hub_speed_changed, clapper_control_hub_volume_changed,
      clapper_control_hub_mute_changed, clapper_control_hub_played_item_changed,
      clapper_control_hub_item_updated, clapper_control_hub_queue_item_added,
      clapper_control_hub_queue_item_removed, clapper_control_hub_queue_item_repositioned,
      clapper_control_hub_queue_cleared, clapper_control_hub_queue_progression_changed] <;>
    (try split) <;> first | exact Or.inl rfl | exact Or.inr ⟨_, rfl⟩

/-- C5: in a hub state whose server is not running or whose connection set is empty, no
notification handler hands a text to `clapper_control_hub_ws_send`, and so no message is
written to any connection. -/
theorem no_event_unless_served (self : Hub) (n : Notification)
    (h : self.running = false ∨ self.ws_connections = []) :
    (react self n).2 = [] ∧ ws_writes (react self n).1 (react self n).2 = [] := by
  have hnil : (react self n).2 = [] := by
    rcases react_sent_cases self n with h0 | ⟨data, h1⟩
    · exact h0
    · rw [h1]
      obtain ⟨hr, hc⟩ := react_keeps_served self n
      exact send_if_served_of_not_served _ _ (by rw [hr, hc]; exact h)
  exact ⟨hnil, by rw [hnil]; rfl⟩

/-- C5, witness: a state change on the freshly initialised hub, which is not running. -/
theorem no_event_unless_served_witness :
    clapper_control_hub_init.running = false ∧
      (react clapper_control_hub_init (.state_changed 3)).2 = [] ∧
      ws_writes (react clapper_control_hub_init (.state_changed 3)).1
        (react clapper_control_hub_init (.state_changed 3)).2 = [] :=
  ⟨rfl, no_event_unless_served clapper_control_hub_init (.state_changed 3) (Or.inl rfl)⟩

/-! ### WebSocket message callback -/

theorem _ws_message_cb_eq (A : Actions) (hub : Hub) (player : Bool) (type : Nat)
    (text : String) :
    _ws_message_cb A hub player type (some text) =
      (hub,
        if type = SOUP_WEBSOCKET_DATA_TEXT ∧ text ≠ "" ∧ A.get_action text ≠ .INVALID ∧
            player = true then
          _ws_message_cb_switch A hub (A.get_action text) text
        else []) := by
  unfold _ws_message_cb
  by_cases ht : type = SOUP_WEBSOCKET_DATA_TEXT <;> by_cases hne : text = "" <;>
    by_cases ha : A.get_action text = .INVALID <;> cases player <;> simp [ht, hne, ha]

theorem _ws_message_cb_none (A : Actions) (hub : Hub) (player : Bool) (type : Nat) :
    _ws_message_cb A hub player type none = (hub, []) := by
  unfold _ws_message_cb
  by_cases ht : type = SOUP_WEBSOCKET_DATA_TEXT <;> simp [ht]

/-- C6: with `queue_controllable` off, a frame whose action is add, insert, select, remove
or clear makes the callback issue no player or queue call and leave the hub, its mirror
included, as it was, whatever the frame type, the payload and the mirror are. -/
theorem queue_actions_need_controllable (A : Actions) (hub : Hub) (player : Bool)
    (type : Nat) (text : String)
    (hgate : hub.queue_controllable = false)
    (haction : A.get_action text = .ADD ∨ A.get_action text = .INSERT ∨
      A.get_action text = .SELECT ∨ A.get_action text = .REMOVE ∨
      A.get_action text = .CLEAR) :
    _ws_message_cb A hub player type (some text) = (hub, []) := by
  rw [_ws_message_cb_eq]
  split
  · rcases haction with ha | ha | ha | ha | ha <;> rw [ha] <;>
      simp [_ws_message_cb_switch, hgate]
  · rfl

/-- C6, witness: `remove:42` against a mirror that holds id 42, with the gate closed. -/
theorem queue_actions_need_controllable_witness :
    (∃ item ∈ (queue_hub false).items, item.id = 42) ∧
      sample_actions.get_action "remove:42" = .REMOVE ∧
      sample_actions.parse_remove "remove:42" = some 42 ∧
      _ws_message_cb sample_actions (queue_hub false) true SOUP_WEBSOCKET_DATA_TEXT
        (some "remove:42") = (queue_hub false, []) :=
  ⟨by decide, by decide, by decide,
    queue_actions_need_controllable sample_actions (queue_hub false) true
      SOUP_WEBSOCKET_DATA_TEXT "remove:42" rfl (by decide)⟩

/-- C7: for a frame whose action is toggle-play, play, pause, stop, seek, set-speed,
set-volume, set-mute or set-progression, the calls issued by the callback are the same in
two hub states that differ only in `queue_controllable`. -/
theorem transport_actions_ignore_gate (A : Actions) (hub : Hub) (player : Bool)
    (type : Nat) (text : String)
    (haction : A.get_action text = .TOGGLE_PLAY ∨ A.get_action text = .PLAY ∨
      A.get_action text = .PAUSE ∨ A.get_action text = .STOP ∨
      A.get_action text = .SEEK ∨ A.get_action text = .SET_SPEED ∨
      A.get_action text = .SET_VOLUME ∨ A.get_action text = .SET_MUTE ∨
      A.get_action text = .SET_PROGRESSION) :
    (_ws_message_cb A { hub with queue_controllable := true } player type (some text)).2 =
      (_ws_message_cb A { hub with queue_controllable := false } player type (some text)).2 := by
  rw [_ws_message_cb_eq, _ws_message_cb_eq]
  dsimp only
  split
  · rcases haction with ha | ha | ha | ha | ha | ha | ha | ha | ha <;> rw [ha] <;> rfl
  · rfl

/-- C7, witness: `seek:30` issues the same seek with the gate open and closed. -/
theorem transport_actions_ignore_gate_witness :
    (_ws_message_cb sample_actions (queue_hub true) true SOUP_WEBSOCKET_DATA_TEXT
        (some "seek:30")).2 = [.clapper_player_seek 30] ∧
      (_ws_message_cb sample_actions (queue_hub false) true SOUP_WEBSOCKET_DATA_TEXT
        (some "seek:30")).2 = [.clapper_player_seek 30] := by
  have h := transport_actions_ignore_gate sample_actions (queue_hub true) true
    SOUP_WEBSOCKET_DATA_TEXT "seek:30" (by decide)
  have h1 : (_ws_message_cb sample_actions (queue_hub true) true SOUP_WEBSOCKET_DATA_TEXT
      (some "seek:30")).2 = [.clapper_player_seek 30] := by decide
  exact ⟨h1, h.symm.trans h1⟩

/-- C8: a toggle-play text frame, with a player at hand, issues `play` and nothing else
when the mirrored state is STOPPED or PAUSED, `pause` and nothing else when it is PLAYING,
and no call for any other state, BUFFERING for one. -/
theorem toggle_play_follows_state (A : Actions) (hub : Hub) (text : String)
    (htext : text ≠ "") (haction : A.get_action text = .TOGGLE_PLAY) :
    ((hub.state = CLAPPER_PLAYER_STATE_STOPPED ∨ hub.state = CLAPPER_PLAYER_STATE_PAUSED) →
      (_ws_message_cb A hub true SOUP_WEBSOCKET_DATA_TEXT (some text)).2 =
        [.clapper_player_play]) ∧
    (hub.state = CLAPPER_PLAYER_STATE_PLAYING →
      (_ws_message_cb A hub true SOUP_WEBSOCKET_DATA_TEXT (some text)).2 =
        [.clapper_player_pause]) ∧
    ((hub.state ≠ CLAPPER_PLAYER_STATE_STOPPED ∧ hub.state ≠ CLAPPER_PLAYER_STATE_PAUSED ∧
        hub.state ≠ CLAPPER_PLAYER_STATE_PLAYING) →
      (_ws_message_cb A hub true SOUP_WEBSOCKET_DATA_TEXT (some text)).2 = []) ∧
    (hub.state = CLAPPER_PLAYER_STATE_BUFFERING →
      (_ws_message_cb A hub true SOUP_WEBSOCKET_DATA_TEXT (some text)).2 = []) := by
  have hcb : (_ws_message_cb A hub true SOUP_WEBSOCKET_DATA_TEXT (some text)).2 =
      _ws_message_cb_switch A hub .TOGGLE_PLAY text := by
    rw [_ws_message_cb_eq, haction]
    simp [htext]
  rw [hcb]
  simp only [_ws_message_cb_switch, CLAPPER_PLAYER_STATE_STOPPED, CLAPPER_PLAYER_STATE_PAUSED,
    CLAPPER_PLAYER_STATE_PLAYING, CLAPPER_PLAYER_STATE_BUFFERING]
  refine ⟨?_, ?_, ?_, ?_⟩
  · intro h
    rw [if_pos h]
  · intro h
    rw [if_neg (by omega), if_pos h]
  · rintro ⟨h1, h2, h3⟩
    rw [if_neg (by omega), if_neg h3]
  · intro h
    rw [if_neg (by omega), if_neg (by omega)]

/-- C8, witness: `toggle-play` while PLAYING pauses. -/
theorem toggle_play_follows_state_witness :
    (queue_hub true).state = CLAPPER_PLAYER_STATE_PLAYING ∧
      (_ws_message_cb sample_actions (queue_hub true) true SOUP_WEBSOCKET_DATA_TEXT
        (some "toggle-play")).2 = [.clapper_player_pause] :=
  ⟨rfl, (toggle_play_follows_state sample_actions (queue_hub true) "toggle-play"
    (by decide) (by decide)).2.1 rfl⟩

/-! ### Lookup by id -/

theorem _get_item_by_id_eq_none {items : List MediaItem} {id : Nat} :
    _get_item_by_id items id = none ↔ ∀ item ∈ items, item.id ≠ id := by
  induction items with
  | nil => simp [_get_item_by_id]
  | cons a rest ih =>
      unfold _get_item_by_id
      by_cases h : a.id = id
      · simp [h]
      · simp [h, ih]

theorem _get_item_by_id_of_first {items : List MediaItem} {id i : Nat} {item : MediaItem}
    (h : first_with_id items id i item) : _get_item_by_id items id = some item := by
  induction items generalizing i with
  | nil =>
      obtain ⟨h1, _, _⟩ := h
      simp at h1
  | cons a rest ih =>
      obtain ⟨h1, h2, h3⟩ := h
      unfold _get_item_by_id
      cases i with
      | zero =>
          simp only [List.getElem?_cons_zero, Option.some.injEq] at h1
          subst h1
          rw [if_pos h2]
      | succ k =>
          have ha : a.id ≠ id := h3 0 a (Nat.succ_pos k) (by simp)
          rw [if_neg ha]
          refine ih ⟨by simpa using h1, h2, ?_⟩
          intro j other hj hget
          exact h3 (j + 1) other (Nat.succ_lt_succ hj) (by simpa using hget)

theorem first_with_id_exists {items : List MediaItem} {id : Nat}
    (h : ∃ item ∈ items, item.id = id) : ∃ i item, first_with_id items id i item := by
  induction items with
  | nil => simp at h
  | cons a rest ih =>
      by_cases ha : a.id = id
      · exact ⟨0, a, by simp, ha, fun j _ hj => absurd hj (Nat.not_lt_zero j)⟩
      · obtain ⟨x, hx, hid⟩ := h
        have hrest : ∃ item ∈ rest, item.id = id := by
          rcases List.mem_cons.mp hx with hxa | hxr
          · exact absurd (hxa ▸ hid) ha
          · exact ⟨x, hxr, hid⟩
        obtain ⟨i, item, h1, h2, h3⟩ := ih hrest
        refine ⟨i + 1, item, by simpa using h1, h2, ?_⟩
        intro j other hj hget
        cases j with
        | zero =>
            simp only [List.getElem?_cons_zero, Option.some.injEq] at hget
            exact hget ▸ ha
        | succ k => exact h3 k other (Nat.lt_of_succ_lt_succ hj) (by simpa using hget)

theorem _ws_message_cb_calls (A : Actions) (hub : Hub) (text : String) (htext : text ≠ "")
    (action : ClapperControlHubAction) (haction : A.get_action text = action)
    (hvalid : action ≠ .INVALID) :
    (_ws_message_cb A hub true SOUP_WEBSOCKET_DATA_TEXT (some text)).2 =
      _ws_message_cb_switch A hub action text := by
  subst haction
  rw [_ws_message_cb_eq]
  simp [htext, hvalid]

/-- C9: with `queue_controllable` on and a player at hand, a text frame whose action is
insert, select or remove and whose payload parses to an id issues no call when no mirrored
item has that id, and when some item has it issues exactly one call, on the first item of
the mirror with that id (with the parsed URI for insert). -/
theorem lookup_actions_use_first_match (A : Actions) (hub : Hub) (text : String)
    (hgate : hub.queue_controllable = true) (htext : text ≠ "") :
    (∀ uri after_id, A.get_action text = .INSERT → A.parse_insert text = some (uri, after_id) →
      ((∀ item ∈ hub.items, item.id ≠ after_id) →
        (_ws_message_cb A hub true SOUP_WEBSOCKET_DATA_TEXT (some text)).2 = []) ∧
      ((∃ item ∈ hub.items, item.id = after_id) →
        ∃ i item, first_with_id hub.items after_id i item ∧
          (_ws_message_cb A hub true SOUP_WEBSOCKET_DATA_TEXT (some text)).2 =
            [.clapper_reactable_queue_insert_sync uri item])) ∧
    (∀ id, A.get_action text = .SELECT → A.parse_select text = some id →
      ((∀ item ∈ hub.items, item.id ≠ id) →
        (_ws_message_cb A hub true SOUP_WEBSOCKET_DATA_TEXT (some text)).2 = []) ∧
      ((∃ item ∈ hub.items, item.id = id) →
        ∃ i item, first_with_id hub.items id i item ∧
          (_ws_message_cb A hub true SOUP_WEBSOCKET_DATA_TEXT (some text)).2 =
            [.clapper_queue_select_item item])) ∧
    (∀ id, A.get_action text = .REMOVE → A.parse_remove text = some id →
      ((∀ item ∈ hub.items, item.id ≠ id) →
        (_ws_message_cb A hub true SOUP_WEBSOCKET_DATA_TEXT (some text)).2 = []) ∧
      ((∃ item ∈ hub.items, item.id = id) →
        ∃ i item, first_with_id hub.items id i item ∧
          (_ws_message_cb A hub true SOUP_WEBSOCKET_DATA_TEXT (some text)).2 =
            [.clapper_reactable_queue_remove_sync item])) := by
  refine ⟨?_, ?_, ?_⟩
  · intro uri after_id ha hp
    rw [_ws_message_cb_calls A hub text htext _ ha (by decide)]
    simp only [_ws_message_cb_switch, hgate, hp, if_true]
    refine ⟨fun hno => ?_, fun hsome => ?_⟩
    · rw [_get_item_by_id_eq_none.mpr hno]
    · obtain ⟨i, item, hfirst⟩ := first_with_id_exists hsome
      exact ⟨i, item, hfirst, by rw [_get_item_by_id_of_first hfirst]⟩
  · intro id ha hp
    rw [_ws_message_cb_calls A hub text htext _ ha (by decide)]
    simp only [_ws_message_cb_switch, hgate, hp, if_true]
    refine ⟨fun hno => ?_, fun hsome => ?_⟩
    · rw [_get_item_by_id_eq_none.mpr hno]
    · obtain ⟨i, item, hfirst⟩ := first_with_id_exists hsome
      exact ⟨i, item, hfirst, by rw [_get_item_by_id_of_first hfirst]⟩
  · intro id ha hp
    rw [_ws_message_cb_calls A hub text htext _ ha (by decide)]
    simp only [_ws_message_cb_switch, hgate, hp, if_true]
    refine ⟨fun hno => ?_, fun hsome => ?_⟩
    · rw [_get_item_by_id_eq_none.mpr hno]
    · obtain ⟨i, item, hfirst⟩ := first_with_id_exists hsome
      exact ⟨i, item, hfirst, by rw [_get_item_by_id_of_first hfirst]⟩

/-- C9, witness: the mirror holds ids 41, 42, 42; `select:7` matches nothing and issues no
call, and `remove:42` is answered by one call on the first item with id 42, the one at
address 2. -/
theorem lookup_actions_use_first_match_witness :
    (_ws_message_cb sample_actions (queue_hub true) true SOUP_WEBSOCKET_DATA_TEXT
        (some "select:7")).2 = [] ∧
      (∃ i item, first_with_id (queue_hub true).items 42 i item ∧
        (_ws_message_cb sample_actions (queue_hub true) true SOUP_WEBSOCKET_DATA_TEXT
          (some "remove:42")).2 = [.clapper_reactable_queue_remove_sync item]) ∧
      (_ws_message_cb sample_actions (queue_hub true) true SOUP_WEBSOCKET_DATA_TEXT
        (some "remove:42")).2 =
          [.clapper_reactable_queue_remove_sync { sample_item 42 with ptr := 2 }] :=
  ⟨((lookup_actions_use_first_match sample_actions (queue_hub true) "select:7" rfl
      (by decide)).2.1 7 (by decide) (by decide)).1 (by decide),
    ((lookup_actions_use_first_match sample_actions (queue_hub true) "remove:42" rfl
      (by decide)).2.2 42 (by decide) (by decide)).2 (by decide),
    by decide⟩

/-- C10: a frame that is not a text frame, carries no text or the empty text, parses to
the INVALID action, or whose payload the parser of its action rejects, makes the callback
issue no call on the player or its queue and leave the hub (connection set and mirror
included) as it was. -/
theorem malformed_frames_are_dropped (A : Actions) (hub : Hub) (player : Bool) (type : Nat)
    (message : Option String)
    (h : type ≠ SOUP_WEBSOCKET_DATA_TEXT ∨ message = none ∨ message = some "" ∨
      ∃ text, message = some text ∧
        (A.get_action text = .INVALID ∨
          (A.get_action text = .SEEK ∧ A.parse_seek text = none) ∨
          (A.get_action text = .SET_SPEED ∧ A.parse_set_speed text = none) ∨
          (A.get_action text = .SET_VOLUME ∧ A.parse_set_volume text = none) ∨
          (A.get_action text = .SET_MUTE ∧ A.parse_set_mute text = none) ∨
          (A.get_action text = .SET_PROGRESSION ∧ A.parse_set_progression text = none) ∨
          (A.get_action text = .ADD ∧ A.parse_add text = none) ∨
          (A.get_action text = .INSERT ∧ A.parse_insert text = none) ∨
          (A.get_action text = .SELECT ∧ A.parse_select text = none) ∨
          (A.get_action text = .REMOVE ∧ A.parse_remove text = none))) :
    _ws_message_cb A hub player type message = (hub, []) := by
  cases message with
  | none => exact _ws_message_cb_none A hub player type
  | some text =>
      rw [_ws_message_cb_eq]
      rcases h with h | h | h | ⟨t, ht, h⟩
      · rw [if_neg (fun hc => h hc.1)]
      · exact absurd h (by simp)
      · rw [if_neg (fun hc => hc.2.1 (Option.some.inj h))]
      · obtain rfl : text = t := Option.some.inj ht
        split
        · rcases h with h | ⟨ha, hp⟩ | ⟨ha, hp⟩ | ⟨ha, hp⟩ | ⟨ha, hp⟩ | ⟨ha, hp⟩ | ⟨ha, hp⟩ |
            ⟨ha, hp⟩ | ⟨ha, hp⟩ | ⟨ha, hp⟩
          · rename_i hc
            exact absurd h hc.2.2.1
          all_goals
            rw [ha]
            simp [_ws_message_cb_switch, hp]
        · rfl

/-- C10, witness: `seek:foo` reaches the seek parser, which rejects it; no call is issued
and the hub is unchanged. -/
theorem malformed_frames_are_dropped_witness :
    sample_actions.get_action "seek:foo" = .SEEK ∧
      sample_actions.parse_seek "seek:foo" = none ∧
      _ws_message_cb sample_actions (queue_hub true) true SOUP_WEBSOCKET_DATA_TEXT
        (some "seek:foo") = (queue_hub true, []) :=
  ⟨by decide, by decide,
    malformed_frames_are_dropped sample_actions (queue_hub true) true SOUP_WEBSOCKET_DATA_TEXT
      (some "seek:foo")
      (Or.inr (Or.inr (Or.inr ⟨"seek:foo", rfl, Or.inr (Or.inl ⟨by decide, by decide⟩)⟩)))⟩

/-! ### Escaping of quotes -/

theorem escape_copy_eq_spec_escape (s : CString) : escape_copy s = spec_escape s := by
  induction s with
  | nil => rfl
  | cons c rest ih =>
      unfold escape_copy
      by_cases h : c = '"'
      · rw [if_pos h, ih]
        simp [h, spec_escape]
      · rw [if_neg h, ih]
        simp [h, spec_escape]

theorem escape_count_quotes_eq_count (s : CString) : escape_count_quotes s = s.count '"' := by
  induction s with
  | nil => rfl
  | cons c rest ih =>
      unfold escape_count_quotes
      by_cases h : c = '"'
      · simp [h, ih]
      · simp [h, ih, List.count_cons, Ne.symm h]

theorem escape_copy_of_no_quote (s : CString) (h : '"' ∉ s) : escape_copy s = s := by
  induction s with
  | nil => rfl
  | cons c rest ih =>
      unfold escape_copy
      have hc : c ≠ '"' := fun e => h (by simp [e])
      rw [if_neg hc, ih (fun hm => h (List.mem_cons_of_mem _ hm))]

theorem clapper_server_json_escape_string_eq (s : CString) :
    clapper_server_json_escape_string s = spec_escape s := by
  unfold clapper_server_json_escape_string
  split
  · exact escape_copy_eq_spec_escape s
  · rename_i h
    rw [escape_count_quotes_eq_count] at h
    have hq : '"' ∉ s := fun hm => h (List.count_pos_iff.mpr hm)
    rw [← escape_copy_eq_spec_escape, escape_copy_of_no_quote s hq]

theorem escape_copy_length (s : CString) :
    (escape_copy s).length = s.length + s.count '"' := by
  induction s with
  | nil => rfl
  | cons c rest ih =>
      unfold escape_copy
      by_cases h : c = '"'
      · simp [h, ih]; omega
      · simp [h, ih, List.count_cons, Ne.symm h]; omega

theorem escape_copy_head_ne_quote (s : CString) : (escape_copy s).head? ≠ some '"' := by
  cases s with
  | nil => simp [escape_copy]
  | cons c rest =>
      unfold escape_copy
      by_cases h : c = '"'
      · simp [h]
      · simp [h]

theorem spec_unescape_escape_copy (s : CString) : spec_unescape (escape_copy s) = s := by
  induction s with
  | nil => rfl
  | cons c rest ih =>
      unfold escape_copy
      by_cases h : c = '"'
      · rw [if_pos h]
        unfold spec_unescape
        simp [ih, h]
      · rw [if_neg h]
        have hhead := escape_copy_head_ne_quote rest
        cases hrest : escape_copy rest with
        | nil =>
            rw [hrest] at ih
            have : rest = [] := by simpa [spec_unescape] using ih.symm
            simp [spec_unescape, this]
        | cons d tail =>
            rw [hrest] at ih hhead
            have hd : d ≠ '"' := by simpa using hhead
            unfold spec_unescape
            simp [hd, ih]

/-- C12: for every string, `clapper_server_json_escape_string` gives the string with each
quote replaced by backslash and quote and every other character unchanged and in order;
the result is longer than the string by its number of quotes, is the string itself when
it has no quote, and gives the string back when the backslash in front of each quote is
removed. -/
theorem escape_string_escapes_quotes (s : CString) :
    clapper_server_json_escape_string s = spec_escape s ∧
    (clapper_server_json_escape_string s).length = s.length + s.count '"' ∧
    ('"' ∉ s → clapper_server_json_escape_string s = s) ∧
    spec_unescape (clapper_server_json_escape_string s) = s := by
  have h := clapper_server_json_escape_string_eq s
  have hcopy := escape_copy_eq_spec_escape s
  refine ⟨h, ?_, ?_, ?_⟩
  · rw [h, ← hcopy, escape_copy_length]
  · intro hq
    rw [h, ← hcopy, escape_copy_of_no_quote s hq]
  · rw [h, ← hcopy, spec_unescape_escape_copy]

/-- C12, witness: `say "hi"` becomes `say \"hi\"`, two characters longer, and `plain`
stays as it is. -/
theorem escape_string_escapes_quotes_witness :
    clapper_server_json_escape_string "say \"hi\"".data = "say \\\"hi\\\"".data ∧
    (clapper_server_json_escape_string "say \"hi\"".data).length = 8 + 2 ∧
    clapper_server_json_escape_string "plain".data = "plain".data ∧
    spec_unescape (clapper_server_json_escape_string "say \"hi\"".data) = "say \"hi\"".data :=
  ⟨(escape_string_escapes_quotes "say \"hi\"".data).1.trans (by decide),
    (escape_string_escapes_quotes "say \"hi\"".data).2.1.trans (by decide),
    (escape_string_escapes_quotes "plain".data).2.2.1 (by decide),
    (escape_string_escapes_quotes "say \"hi\"".data).2.2.2⟩

/-! ### Ends of printed values -/

set_option maxRecDepth 20000 in
/-- C13 (evaluated at the failing input): `GET /item?id=7&timeline=true` for an item
titled `a"b` that has one marker titled `c"d`. The item title is emitted escaped, as
`a\"b`; the marker title is emitted as it is, `"title":"c"d"`, its quote not escaped. -/
theorem marker_title_is_not_escaped :
    (_item_info_request_cb { clapper_control_hub_init with items := [marked_item] }
        (some [("id", "7"), ("timeline", "true")])).2.status = SOUP_STATUS_OK ∧
    (_item_info_request_cb { clapper_control_hub_init with items := [marked_item] }
        (some [("id", "7"), ("timeline", "true")])).2.body.map String.mk =
      some "\x7b\"id\":7,\"title\":\"a\\\"b\",\"duration\":0.000,\"timeline\":[\x7b\"marker_type\":1,\"title\":\"c\"d\",\"start\":0.000,\"end\":1.500\x7d]\x7d" ∧
    json_string "c\"d".data = "\"c\\\"d\"".data := by
  refine ⟨by decide, by decide, by decide⟩

/-! ### Delta events -/

theorem spec_escape_of_no_quote (s : CString) (h : '"' ∉ s) : spec_escape s = s := by
  rw [← escape_copy_eq_spec_escape, escape_copy_of_no_quote s h]

theorem json_string_of_no_quote (s : CString) (h : '"' ∉ s) : json_string s = printf_quoted s := by
  unfold json_string printf_quoted
  rw [spec_escape_of_no_quote s h]

theorem __JSON_CHANGED_EVENT_eq (field : String) (value : CString)
    (h : '"' ∉ field.data ++ "_changed".data) :
    __JSON_CHANGED_EVENT field value = changed_event_json field value := by
  unfold __JSON_CHANGED_EVENT changed_event_json
  rw [json_string_of_no_quote _ h]
  simp [json_object, join_commas, json_member, printf_quoted]

theorem __JSON_CUSTOM_EVENT_eq (name key1 : String) (value1 : CString) (key2 : String)
    (value2 : CString) (h : '"' ∉ name.data) :
    __JSON_CUSTOM_EVENT name key1 value1 key2 value2 =
      custom_event_json name key1 value1 key2 value2 := by
  unfold __JSON_CUSTOM_EVENT custom_event_json
  rw [json_string_of_no_quote _ h]
  simp [json_object, join_commas, json_member, printf_quoted]

theorem formatted_eq_event_json (message : WsMessage) : message.formatted = event_json message := by
  cases message with
  | state_changed state => exact __JSON_CHANGED_EVENT_eq _ _ (by decide)
  | position_changed position => exact __JSON_CHANGED_EVENT_eq _ _ (by decide)
  | speed_changed speed => exact __JSON_CHANGED_EVENT_eq _ _ (by decide)
  | volume_changed volume => exact __JSON_CHANGED_EVENT_eq _ _ (by decide)
  | mute_changed mute => exact __JSON_CHANGED_EVENT_eq _ _ (by decide)
  | played_index_changed index => exact __JSON_CHANGED_EVENT_eq _ _ (by decide)
  | progression_changed mode => exact __JSON_CHANGED_EVENT_eq _ _ (by decide)
  | item_updated item_id flags => exact __JSON_CUSTOM_EVENT_eq _ _ _ _ _ (by decide)
  | item_added item_id index => exact __JSON_CUSTOM_EVENT_eq _ _ _ _ _ (by decide)
  | item_removed item_id index => exact __JSON_CUSTOM_EVENT_eq _ _ _ _ _ (by decide)
  | item_repositioned before after => exact __JSON_CUSTOM_EVENT_eq _ _ _ _ _ (by decide)
  | queue_cleared => decide

theorem g_snprintf_of_short (n : Nat) (full : CString) (h : full.length < n) :
    g_snprintf n full = full := by
  unfold g_snprintf
  exact List.take_of_length_le (by omega)

theorem surfaced_mask_testBit (bit : Nat) :
    (G_MAXUINT ^^^
      (CLAPPER_REACTABLE_ITEM_UPDATED_REDIRECT_URI |||
        CLAPPER_REACTABLE_ITEM_UPDATED_CACHE_LOCATION)).testBit bit =
      decide (bit < 32 ∧ bit ≠ 4 ∧ bit ≠ 5) := by
  by_cases h : bit < 32
  · have hall : ∀ b, b < 32 →
        (G_MAXUINT ^^^
          (CLAPPER_REACTABLE_ITEM_UPDATED_REDIRECT_URI |||
            CLAPPER_REACTABLE_ITEM_UPDATED_CACHE_LOCATION)).testBit b =
          decide (b < 32 ∧ b ≠ 4 ∧ b ≠ 5) := by decide
    exact hall bit h
  · have hlt : (G_MAXUINT ^^^
        (CLAPPER_REACTABLE_ITEM_UPDATED_REDIRECT_URI |||
          CLAPPER_REACTABLE_ITEM_UPDATED_CACHE_LOCATION)) < 2 ^ bit :=
      Nat.lt_of_lt_of_le (by decide : _ < 2 ^ 32)
        (Nat.pow_le_pow_right (by decide) (by omega))
    rw [Nat.testBit_lt_two_pow hlt]
    simp [h]

theorem surfaced_flags_testBit (flags : Nat) (hflags : flags ≤ G_MAXUINT) (bit : Nat) :
    (surfaced_flags flags).testBit bit = (flags.testBit bit && decide (bit ≠ 4 ∧ bit ≠ 5)) := by
  unfold surfaced_flags
  rw [Nat.testBit_and, surfaced_mask_testBit]
  by_cases h : bit < 32
  · simp [h]
  · have hlt : flags < 2 ^ bit :=
      Nat.lt_of_lt_of_le (by unfold G_MAXUINT at hflags; omega : flags < 2 ^ 32)
        (Nat.pow_le_pow_right (by decide) (by omega))
    rw [Nat.testBit_lt_two_pow hlt]
    simp

theorem surfaced_flags_ne_zero_iff (flags : Nat) (hflags : flags ≤ G_MAXUINT) :
    surfaced_flags flags ≠ 0 ↔ ∃ bit, bit ≠ 4 ∧ bit ≠ 5 ∧ flags.testBit bit = true := by
  constructor
  · intro hne
    obtain ⟨bit, hbit⟩ := Nat.ne_zero_implies_bit_true hne
    rw [surfaced_flags_testBit flags hflags] at hbit
    simp only [Bool.and_eq_true, decide_eq_true_eq] at hbit
    exact ⟨bit, hbit.2.1, hbit.2.2, hbit.1⟩
  · rintro ⟨bit, h4, h5, hbit⟩ hzero
    have := surfaced_flags_testBit flags hflags bit
    rw [hzero, Nat.zero_testBit, hbit] at this
    simp [h4, h5] at this

/-- C15: on a running hub with a connection, `item_updated (item, flags)` with 32-bit
flags hands an event to the fan-out exactly when some bit of the flags other than the
redirect URI bit (bit 4) and the cache location bit (bit 5) is set; the event then is the
one `item_updated` event with the id of the item and the flags received without those two
bits, every other bit as received; and the hub is left as it was. -/
theorem item_updated_hides_internal_flags (self : Hub) (item : MediaItem) (flags : Nat)
    (hrun : self.running = true) (hconn : self.ws_connections ≠ [])
    (hflags : flags ≤ G_MAXUINT) :
    ((clapper_control_hub_item_updated self item flags).2 ≠ [] ↔
      ∃ bit, bit ≠ 4 ∧ bit ≠ 5 ∧ flags.testBit bit = true) ∧
    ((clapper_control_hub_item_updated self item flags).2 = [] ∨
      (clapper_control_hub_item_updated self item flags).2 =
        [.item_updated item.id (surfaced_flags flags)]) ∧
    (∀ bit, (surfaced_flags flags).testBit bit =
      (flags.testBit bit && decide (bit ≠ 4 ∧ bit ≠ 5))) ∧
    (surfaced_flags flags).testBit 4 = false ∧ (surfaced_flags flags).testBit 5 = false ∧
    CLAPPER_REACTABLE_ITEM_UPDATED_REDIRECT_URI = 2 ^ 4 ∧
    CLAPPER_REACTABLE_ITEM_UPDATED_CACHE_LOCATION = 2 ^ 5 ∧
    (clapper_control_hub_item_updated self item flags).1 = self := by
  have hsent : (clapper_control_hub_item_updated self item flags).2 =
      if surfaced_flags flags = 0 then [] else [.item_updated item.id (surfaced_flags flags)] := by
    unfold clapper_control_hub_item_updated
    by_cases h : surfaced_flags flags = 0
    · have h' := h
      unfold surfaced_flags at h'
      simp only [h', h, if_true]
    · have h' := h
      unfold surfaced_flags at h'
      simp only [h', h, if_false]
      exact send_if_served_of_served _ _ hrun hconn
  have hbits := surfaced_flags_testBit flags hflags
  refine ⟨?_, ?_, hbits, by simp [hbits], by simp [hbits], rfl, rfl, ?_⟩
  · rw [hsent, ← surfaced_flags_ne_zero_iff flags hflags]
    by_cases h : surfaced_flags flags = 0 <;> simp [h]
  · rw [hsent]
    by_cases h : surfaced_flags flags = 0 <;> simp [h]
  · simp only [clapper_control_hub_item_updated]
    split <;> rfl

/-- C15, witness: flags 19 (title, duration and redirect URI) are forwarded as 3, and
flags 48 (redirect URI and cache location only) are not forwarded. -/
theorem item_updated_hides_internal_flags_witness :
    (clapper_control_hub_item_updated served_hub (sample_item 7) 19).2 = [.item_updated 7 3] ∧
    (clapper_control_hub_item_updated served_hub (sample_item 7) 48).2 = [] := by
  have h19 := item_updated_hides_internal_flags served_hub (sample_item 7) 19 rfl (by decide)
    (by decide)
  have h48 := item_updated_hides_internal_flags served_hub (sample_item 7) 48 rfl (by decide)
    (by decide)
  refine ⟨?_, ?_⟩
  · rcases h19.2.1 with h | h
    · exact absurd h (h19.1.mpr ⟨0, by decide, by decide, by decide⟩)
    · exact h.trans (by decide)
  · have hno : ¬ ∃ bit, bit ≠ 4 ∧ bit ≠ 5 ∧ Nat.testBit 48 bit = true := by
      rintro ⟨bit, h4, h5, hb⟩
      by_cases hlt : bit < 6
      · have hsmall : ∀ b, b < 6 → b ≠ 4 → b ≠ 5 → Nat.testBit 48 b = false := by decide
        rw [hsmall bit hlt h4 h5] at hb
        exact Bool.noConfusion hb
      · have hbig : (48 : Nat) < 2 ^ bit :=
          Nat.lt_of_lt_of_le (by decide : (48 : Nat) < 2 ^ 6)
            (Nat.pow_le_pow_right (by decide) (by omega))
        rw [Nat.testBit_lt_two_pow hbig] at hb
        exact Bool.noConfusion hb
    exact not_not.mp fun hne => hno (h48.1.mp hne)

/-! ### Connection set and broadcast -/

theorem clapper_control_hub_ws_send_eq (hub : Hub) (text : WsMessage) :
    clapper_control_hub_ws_send hub text =
      (hub.ws_connections.filter fun connection => connection.state = .OPEN).map
        fun connection => (connection.ptr, text) := by
  unfold clapper_control_hub_ws_send
  induction hub.ws_connections with
  | nil => rfl
  | cons connection rest ih =>
      rw [List.filterMap_cons, List.filter_cons, ih]
      by_cases h : connection.state = .OPEN <;> simp [h]

theorem g_ptr_array_remove_eq_filter :
    ∀ (set : List WsConnection) (closed : Nat), (set.map fun c => c.ptr).Nodup →
      g_ptr_array_remove set closed = set.filter fun connection => connection.ptr ≠ closed
  | [], _, _ => rfl
  | connection :: rest, closed, hnodup => by
      have hrest : (rest.map fun c => c.ptr).Nodup := (List.nodup_cons.mp hnodup).2
      have hnotin : connection.ptr ∉ rest.map fun c => c.ptr := (List.nodup_cons.mp hnodup).1
      unfold g_ptr_array_remove
      by_cases h : connection.ptr = closed
      · rw [if_pos h]
        have hall : ∀ c ∈ rest, c.ptr ≠ closed := by
          intro c hc hcp
          exact hnotin (List.mem_map.mpr ⟨c, hc, hcp.trans h.symm⟩)
        rw [List.filter_cons]
        simp only [h, ne_eq, not_true_eq_false, decide_False, Bool.false_eq_true, if_false]
        exact (List.filter_eq_self.mpr (by simpa using hall)).symm
      · rw [if_neg h, g_ptr_array_remove_eq_filter rest closed hrest, List.filter_cons]
        simp [h]

theorem ws_lifecycle_step_nodup (hub : Hub) (event : WsLifecycle)
    (hnodup : (hub.ws_connections.map fun c => c.ptr).Nodup)
    (hfresh : fresh_event hub event) :
    ((ws_lifecycle_step hub event).ws_connections.map fun c => c.ptr).Nodup := by
  cases event with
  | handshake connection =>
      have hset : (ws_lifecycle_step hub (.handshake connection)).ws_connections =
          hub.ws_connections ++ [connection] := by
        simp only [ws_lifecycle_step, clapper_control_hub_ws_connection_cb]
        split <;> rfl
      rw [hset, List.map_append, List.nodup_append]
      refine ⟨hnodup, by simp, ?_⟩
      intro p hp hq
      obtain ⟨known, hknown, rfl⟩ := List.mem_map.mp hp
      simp only [List.map_cons, List.map_nil, List.mem_singleton] at hq
      exact hfresh known hknown hq
  | closed closed =>
      simp only [ws_lifecycle_step, _ws_connection_closed_cb]
      rw [g_ptr_array_remove_eq_filter _ _ hnodup]
      exact hnodup.sublist ((List.filter_sublist _).map _)

theorem ws_lifecycle_run_spec :
    ∀ (events : List WsLifecycle) (hub : Hub),
      (hub.ws_connections.map fun c => c.ptr).Nodup → fresh_handshakes hub events →
      (ws_lifecycle_run hub events).ws_connections =
          events.foldl (fun set event =>
            match event with
            | .handshake connection => set ++ [connection]
            | .closed closed => set.filter fun connection => connection.ptr ≠ closed)
            hub.ws_connections ∧
        ((ws_lifecycle_run hub events).ws_connections.map fun c => c.ptr).Nodup
  | [], _, hnodup, _ => ⟨rfl, hnodup⟩
  | event :: rest, hub, hnodup, hfresh => by
      obtain ⟨h1, h2⟩ := hfresh
      have hstep := ws_lifecycle_step_nodup hub event hnodup h1
      obtain ⟨ih1, ih2⟩ := ws_lifecycle_run_spec rest _ hstep h2
      refine ⟨?_, ih2⟩
      simp only [ws_lifecycle_run, List.foldl_cons]
      rw [ih1]
      congr 1
      cases event with
      | handshake connection =>
          simp only [ws_lifecycle_step, clapper_control_hub_ws_connection_cb]
          split <;> rfl
      | closed closed =>
          simp only [ws_lifecycle_step, _ws_connection_closed_cb]
          exact g_ptr_array_remove_eq_filter _ _ hnodup

/-- C16: a broadcast writes the text once to each registered connection that is open, in
registration order, and to no other connection; and after any sequence of handshakes and
closes, from a hub without connections and with every handshake delivering a fresh
connection, the connection set is the registered connections in order minus the closed
ones and holds no address twice, no broadcast writes twice to one address, and once the
`closed` callback of a connection has run no broadcast writes to it. -/
theorem broadcast_reaches_open_connections (hub : Hub) (text : WsMessage)
    (start : Hub) (events : List WsLifecycle)
    (hstart : start.ws_connections = []) (hfresh : fresh_handshakes start events) :
    clapper_control_hub_ws_send hub text =
      (hub.ws_connections.filter fun connection => connection.state = .OPEN).map
        (fun connection => (connection.ptr, text)) ∧
    (ws_lifecycle_run start events).ws_connections = spec_connections events ∧
    ((ws_lifecycle_run start events).ws_connections.map fun c => c.ptr).Nodup ∧
    ((clapper_control_hub_ws_send (ws_lifecycle_run start events) text).map Prod.fst).Nodup ∧
    (∀ closed other,
      (closed, other) ∉ clapper_control_hub_ws_send
        (_ws_connection_closed_cb (ws_lifecycle_run start events) closed) text) := by
  have hnil : (start.ws_connections.map fun c => c.ptr).Nodup := by simp [hstart]
  obtain ⟨hspec, hnodup⟩ := ws_lifecycle_run_spec events start hnil hfresh
  refine ⟨clapper_control_hub_ws_send_eq hub text, ?_, hnodup, ?_, ?_⟩
  · rw [hspec, hstart]
    rfl
  · rw [clapper_control_hub_ws_send_eq, List.map_map]
    exact hnodup.sublist ((List.filter_sublist _).map _)
  · intro closed other hmem
    rw [clapper_control_hub_ws_send_eq] at hmem
    obtain ⟨connection, hconn, heq⟩ := List.mem_map.mp hmem
    have hin : connection ∈ g_ptr_array_remove (ws_lifecycle_run start events).ws_connections
        closed := (List.mem_filter.mp hconn).1
    rw [g_ptr_array_remove_eq_filter _ _ hnodup] at hin
    have hne := (List.mem_filter.mp hin).2
    have hptr : connection.ptr = closed := (Prod.mk.inj heq).1
    simp [hptr] at hne

/-- C16, witness: connections 1 (open), 2 (closing) and 3 (open) register and 1 closes;
the set is then 2, 3 and a broadcast writes to 3 only. -/
theorem broadcast_reaches_open_connections_witness :
    (ws_lifecycle_run clapper_control_hub_init
        [.handshake { ptr := 1, state := .OPEN }, .handshake { ptr := 2, state := .CLOSING },
          .handshake { ptr := 3, state := .OPEN }, .closed 1]).ws_connections =
      [{ ptr := 2, state := .CLOSING }, { ptr := 3, state := .OPEN }] ∧
    clapper_control_hub_ws_send
        (ws_lifecycle_run clapper_control_hub_init
          [.handshake { ptr := 1, state := .OPEN }, .handshake { ptr := 2, state := .CLOSING },
            .handshake { ptr := 3, state := .OPEN }, .closed 1])
        .queue_cleared = [(3, .queue_cleared)] := by
  have h := broadcast_reaches_open_connections
    (ws_lifecycle_run clapper_control_hub_init
      [.handshake { ptr := 1, state := .OPEN }, .handshake { ptr := 2, state := .CLOSING },
        .handshake { ptr := 3, state := .OPEN }, .closed 1])
    .queue_cleared clapper_control_hub_init
    [.handshake { ptr := 1, state := .OPEN }, .handshake { ptr := 2, state := .CLOSING },
      .handshake { ptr := 3, state := .OPEN }, .closed 1] rfl
    (by simp [fresh_handshakes, fresh_event, ws_lifecycle_step,
      clapper_control_hub_ws_connection_cb, _ws_connection_closed_cb,
      clapper_control_hub_init])
  exact ⟨h.2.1.trans (by decide), h.1.trans (by decide)⟩

/-! ### HTTP queries -/

set_option maxRecDepth 20000 in
/-- C17 (evaluated at the failing inputs): with a mirror holding only the item with id 7,
`GET /item?id=` and `GET /tags?id=` (an empty value) are answered 204 as a lookup of id 0,
and `id=+7`, `id=%207` (a leading blank), `id=4294967303` (7 plus 2^32) and
`id=-4294967289` are all answered 200 with the info of item 7; none of them is answered
400. A missing id, `abc`, `7x` and `7` with a trailing blank are answered 400. -/
theorem malformed_ids_are_accepted :
    ((_item_info_request_cb { clapper_control_hub_init with items := [sample_item 7] }
        (some [("id", "")])).2.status = SOUP_STATUS_NO_CONTENT ∧
      (_item_tags_request_cb { clapper_control_hub_init with items := [sample_item 7] }
        (some [("id", "")])).2.status = SOUP_STATUS_NO_CONTENT ∧
      _query_parse_item_id (some [("id", "")]) = some 0) ∧
    (∀ text ∈ ["+7", " 7", "4294967303", "-4294967289"],
      _query_parse_item_id (some [("id", text)]) = some 7 ∧
      (_item_info_request_cb { clapper_control_hub_init with items := [sample_item 7] }
        (some [("id", text)])).2 =
        { status := SOUP_STATUS_OK, content_type := some "application/json",
          body := some (clapper_control_hub_json_build_item_info clapper_control_hub_init
            (sample_item 7) false) }) ∧
    ((_item_info_request_cb { clapper_control_hub_init with items := [sample_item 7] }
        none).2.status = SOUP_STATUS_BAD_REQUEST ∧
      ∀ text ∈ ["abc", "7x", "7 "],
        (_item_info_request_cb { clapper_control_hub_init with items := [sample_item 7] }
          (some [("id", text)])).2.status = SOUP_STATUS_BAD_REQUEST) := by
  refine ⟨⟨by decide, by decide, by decide⟩, by decide, by decide, by decide⟩

theorem decimal_value_ge : ∀ (digits : List Char) (acc n : Nat),
    decimal_value digits acc = some n → acc ≤ n
  | [], acc, n, h => by
      simp only [decimal_value, Option.some.injEq] at h
      omega
  | c :: rest, acc, n, h => by
      unfold decimal_value at h
      split at h
      · have := decimal_value_ge rest _ n h
        omega
      · exact absurd h (by simp)

theorem g_parse_long_long_loop_of_decimal : ∀ (digits : List Char) (acc n : Nat) (overflow : Bool),
    decimal_value digits acc = some n → n ≤ G_MAXUINT64 →
      g_parse_long_long_loop digits acc overflow = (n, overflow, [])
  | [], acc, n, overflow, h, _ => by
      simp only [decimal_value, Option.some.injEq] at h
      simp [g_parse_long_long_loop, h]
  | c :: rest, acc, n, overflow, h, hn => by
      unfold decimal_value at h
      split at h
      · rename_i hdigit
        have hge := decimal_value_ge rest _ n h
        have hcut : G_MAXUINT64 / 10 = 1844674407370955161 := by decide
        have hlim : G_MAXUINT64 % 10 = 5 := by decide
        have hmax : G_MAXUINT64 = 18446744073709551615 := rfl
        unfold g_parse_long_long_loop
        rw [if_pos hdigit, if_neg (by rw [hcut, hlim]; omega)]
        exact g_parse_long_long_loop_of_decimal rest _ n overflow h hn
      · exact absurd h (by simp)

theorem isDigit_not_space_or_sign (c : Char) (h : c.isDigit = true) :
    ISSPACE c = false ∧ c ≠ '-' ∧ c ≠ '+' := by
  refine ⟨?_, ?_, ?_⟩
  · cases hs : ISSPACE c with
    | false => rfl
    | true =>
        simp only [ISSPACE, Bool.or_eq_true, decide_eq_true_eq] at hs
        rcases hs with ((((hs | hs) | hs) | hs) | hs) | hs <;> subst hs <;>
          exact absurd h (by decide)
  · rintro rfl
    exact absurd h (by decide)
  · rintro rfl
    exact absurd h (by decide)

theorem g_ascii_strtoull_of_decimal (digits : List Char) (n : Nat)
    (h : parse_decimal digits = some n) (hn : n ≤ G_MAXUINT64) :
    g_ascii_strtoull digits = (n, []) := by
  unfold parse_decimal at h
  cases digits with
  | nil => simp at h
  | cons c rest =>
      simp only [reduceCtorEq, if_false] at h
      have hdigit : c.isDigit = true := by
        unfold decimal_value at h
        split at h
        · assumption
        · exact absurd h (by simp)
      obtain ⟨hspace, hminus, hplus⟩ := isDigit_not_space_or_sign c hdigit
      have hloop := g_parse_long_long_loop_of_decimal (c :: rest) 0 n false h hn
      unfold g_ascii_strtoull
      simp [List.dropWhile_cons, hspace, hminus, hplus, hloop]

theorem _query_parse_item_id_of_decimal (table : List (String × String)) (text : String)
    (id : Nat) (hlookup : table.lookup "id" = some text)
    (hdecimal : parse_decimal text.data = some id) (hfit : id ≤ G_MAXUINT) :
    _query_parse_item_id (some table) = some id := by
  have hmax : id ≤ G_MAXUINT64 := by
    unfold G_MAXUINT at hfit
    unfold G_MAXUINT64
    omega
  unfold _query_parse_item_id
  simp only [hlookup, g_ascii_strtoull_of_decimal _ _ hdecimal hmax, if_true]
  unfold G_MAXUINT at hfit ⊢
  rw [Nat.mod_eq_of_lt (by omega)]

/-- C18: for a query whose `id` is the decimal text of a `guint`, `GET /item` and
`GET /tags` answer 204 without content type or body when no mirrored item has that id;
when some item has it `GET /item` answers 200 with the info of the first such item as
`application/json` (its timeline included exactly when the query asks for it); and the
three HTTP handlers leave the hub, its mirror included, as it was for every query. -/
theorem unknown_id_gives_no_content (self : Hub) (table : List (String × String))
    (text : String) (id : Nat) (hlookup : table.lookup "id" = some text)
    (hdecimal : parse_decimal text.data = some id) (hfit : id ≤ G_MAXUINT) :
    ((∀ item ∈ self.items, item.id ≠ id) →
      _item_info_request_cb self (some table) =
          (self, { status := SOUP_STATUS_NO_CONTENT, content_type := none, body := none }) ∧
        _item_tags_request_cb self (some table) =
          (self, { status := SOUP_STATUS_NO_CONTENT, content_type := none, body := none })) ∧
    ((∃ item ∈ self.items, item.id = id) →
      ∃ i item, first_with_id self.items id i item ∧
        _item_info_request_cb self (some table) =
          (self, { status := SOUP_STATUS_OK, content_type := some "application/json",
                   body := some (clapper_control_hub_json_build_item_info self item
                     (_query_get_boolean_value (some table) "timeline")) })) ∧
    (∀ query, (_item_info_request_cb self query).1 = self ∧
      (_item_tags_request_cb self query).1 = self ∧ (_default_request_cb self query).1 = self) := by
  have hparse := _query_parse_item_id_of_decimal table text id hlookup hdecimal hfit
  refine ⟨fun hno => ?_, fun hsome => ?_, fun query => ⟨?_, ?_, rfl⟩⟩
  · have hnone := _get_item_by_id_eq_none.mpr hno
    simp only [_item_info_request_cb, _item_tags_request_cb, hparse, hnone, and_self]
  · obtain ⟨i, item, hfirst⟩ := first_with_id_exists hsome
    refine ⟨i, item, hfirst, ?_⟩
    simp only [_item_info_request_cb, hparse, _get_item_by_id_of_first hfirst]
  · unfold _item_info_request_cb
    repeat' split
    all_goals rfl
  · unfold _item_tags_request_cb
    repeat' split
    all_goals rfl

/-- C18, witness: `GET /item?id=7` and `GET /tags?id=7` when the mirror holds the ids 41,
42, 42 only. -/
theorem unknown_id_gives_no_content_witness :
    _item_info_request_cb (queue_hub false) (some [("id", "7")]) =
        (queue_hub false,
          { status := SOUP_STATUS_NO_CONTENT, content_type := none, body := none }) ∧
      _item_tags_request_cb (queue_hub false) (some [("id", "7")]) =
        (queue_hub false,
          { status := SOUP_STATUS_NO_CONTENT, content_type := none, body := none }) :=
  (unknown_id_gives_no_content (queue_hub false) [("id", "7")] "7" 7 (by decide) (by decide)
    (by decide)).1 (by decide)

/-! ### Activation -/

theorem clapper_control_hub_set_active_active (env : ServeEnv) (self : Hub) (active : Bool) :
    (clapper_control_hub_set_active env self active).1.active = active := by
  unfold clapper_control_hub_set_active
  by_cases h : self.active = active
  · rw [if_pos h]
    exact h
  · rw [if_neg h]
    cases active
    · simp only [Bool.false_eq_true, if_false, _stop_serving]
      split <;> rfl
    · simp only [if_true, _start_serving]
      repeat' split
      all_goals rfl

/-- C19: a second activate that follows an activate, and a second deactivate that follows
a deactivate, make no call and leave the hub as the first one left it, for every hub state
and whatever the surroundings answer; and an activate of an inactive hub whose listener
binds and reports a port above 0 makes one `soup_server_listen_all` call and one
`clapper_control_hub_mdns_start` call, so two activates make exactly one of each. -/
theorem activation_is_idempotent (first second : ServeEnv) (self : Hub) :
    clapper_control_hub_set_active second
        (clapper_control_hub_set_active first self true).1 true =
      ((clapper_control_hub_set_active first self true).1, []) ∧
    clapper_control_hub_set_active second
        (clapper_control_hub_set_active first self false).1 false =
      ((clapper_control_hub_set_active first self false).1, []) ∧
    (self.active = false → self.running = false → first.listen_ok = true →
      _find_current_port first.uri_ports > 0 →
      ((clapper_control_hub_set_active first self true).2 ++
          (clapper_control_hub_set_active second
            (clapper_control_hub_set_active first self true).1 true).2).count
          .soup_server_listen_all = 1 ∧
      ((clapper_control_hub_set_active first self true).2 ++
          (clapper_control_hub_set_active second
            (clapper_control_hub_set_active first self true).1 true).2).count
          (.clapper_control_hub_mdns_start (_find_current_port first.uri_ports)) = 1 ∧
      (clapper_control_hub_set_active first self true).1.running = true ∧
      (clapper_control_hub_set_active first self true).1.mdns = true) := by
  have hnoop : ∀ (e1 e2 : ServeEnv) (h : Hub) (active : Bool),
      clapper_control_hub_set_active e2 (clapper_control_hub_set_active e1 h active).1 active =
        ((clapper_control_hub_set_active e1 h active).1, []) := by
    intro e1 e2 h active
    have hactive := clapper_control_hub_set_active_active e1 h active
    generalize clapper_control_hub_set_active e1 h active = result at hactive
    unfold clapper_control_hub_set_active
    rw [if_pos hactive]
  refine ⟨hnoop first second self true, hnoop first second self false, ?_⟩
  intro hinactive hstopped hbind hport
  have hfirst : clapper_control_hub_set_active first self true =
      (if self.mdns = true then
        ({ self with active := true, running := true },
          [.soup_server_listen_all,
            .clapper_control_hub_mdns_start (_find_current_port first.uri_ports)])
      else
        ({ self with active := true, running := true, mdns := true },
          [.soup_server_listen_all, .clapper_control_hub_mdns_new,
            .clapper_control_hub_mdns_start (_find_current_port first.uri_ports)])) := by
    unfold clapper_control_hub_set_active _start_serving
    simp only [hinactive, hstopped, hbind, hport, Bool.false_eq_true, if_false, if_true]
  refine ⟨?_, ?_, ?_, ?_⟩
  · rw [hnoop first second self true, hfirst]
    split <;> simp [List.count_cons]
  · rw [hnoop first second self true, hfirst]
    split <;> simp [List.count_cons]
  · rw [hfirst]
    split <;> rfl
  · rw [hfirst]
    split
    · assumption
    · rfl

/-- C19, witness: two activates of the fresh hub with a listener that binds to port 8080,
then two deactivates. -/
theorem activation_is_idempotent_witness :
    (clapper_control_hub_set_active binding_env clapper_control_hub_init true).2 =
      [.soup_server_listen_all, .clapper_control_hub_mdns_new,
        .clapper_control_hub_mdns_start 8080] ∧
    clapper_control_hub_set_active binding_env
        (clapper_control_hub_set_active binding_env clapper_control_hub_init true).1 true =
      ((clapper_control_hub_set_active binding_env clapper_control_hub_init true).1, []) ∧
    ((clapper_control_hub_set_active binding_env clapper_control_hub_init true).2 ++
        (clapper_control_hub_set_active binding_env
          (clapper_control_hub_set_active binding_env clapper_control_hub_init true).1
          true).2).count .soup_server_listen_all = 1 ∧
    (clapper_control_hub_set_active binding_env
        (clapper_control_hub_set_active binding_env clapper_control_hub_init true).1 false).2 =
      [.clapper_control_hub_mdns_stop true, .soup_server_disconnect] := by
  have h := activation_is_idempotent binding_env binding_env clapper_control_hub_init
  exact ⟨by decide, h.1, (h.2.2 rfl rfl rfl (by decide)).1, by decide⟩

/-- C20 (as stated, refuted): after an activate of the fresh hub whose listener fails to
bind, the hub is not running and has no announcer, and the error went to the player, but
`active` is set. -/
theorem failed_bind_leaves_active_set :
    (clapper_control_hub_set_active failing_env clapper_control_hub_init true).1.active = true ∧
    (clapper_control_hub_set_active failing_env clapper_control_hub_init true).1.running = false ∧
    (clapper_control_hub_set_active failing_env clapper_control_hub_init true).1.mdns = false ∧
    (clapper_control_hub_set_active failing_env clapper_control_hub_init true).2 =
      [.soup_server_listen_all, .clapper_player_post_message] := by
  decide

/-- C20 (amended): when the listener fails to bind during the activate of an inactive hub
that is not running, the hub afterwards is not running, no announcer was created or
started by the call (the only calls are the bind attempt and, when the error is set and
the hub has a player, the error message to the player), every field other than `active`
is as before, and `active` holds the requested value TRUE. -/
theorem failed_bind_is_reported (env : ServeEnv) (self : Hub)
    (hinactive : self.active = false) (hstopped : self.running = false)
    (hfail : env.listen_ok = false) :
    clapper_control_hub_set_active env self true =
      ({ self with active := true },
        if env.error = true ∧ env.player = true then
          [.soup_server_listen_all, .clapper_player_post_message]
        else [.soup_server_listen_all]) ∧
    (clapper_control_hub_set_active env self true).1.running = false ∧
    (clapper_control_hub_set_active env self true).1.mdns = self.mdns ∧
    ServeCall.clapper_control_hub_mdns_new ∉ (clapper_control_hub_set_active env self true).2 ∧
    (∀ port, ServeCall.clapper_control_hub_mdns_start port ∉
      (clapper_control_hub_set_active env self true).2) := by
  have hfirst : clapper_control_hub_set_active env self true =
      ({ self with active := true },
        if env.error = true ∧ env.player = true then
          [.soup_server_listen_all, .clapper_player_post_message]
        else [.soup_server_listen_all]) := by
    unfold clapper_control_hub_set_active _start_serving
    simp only [hinactive, hstopped, hfail, Bool.false_eq_true, if_false, if_true]
    have hself : ({ self with active := true, running := false } : Hub) =
        { self with active := true } := by
      cases self
      simp only [Hub.mk.injEq, and_true, true_and] at *
      simp [hstopped]
    cases he : env.error <;> cases hp : env.player <;> simp [hself]
  refine ⟨hfirst, ?_, ?_, ?_, ?_⟩
  · rw [hfirst]
    exact hstopped
  · rw [hfirst]
  · rw [hfirst]
    split <;> simp
  · intro port
    rw [hfirst]
    split <;> simp

/-- C20, witness: the failed bind on the fresh hub. -/
theorem failed_bind_is_reported_witness :
    clapper_control_hub_set_active failing_env clapper_control_hub_init true =
      ({ clapper_control_hub_init with active := true },
        [.soup_server_listen_all, .clapper_player_post_message]) :=
  (failed_bind_is_reported failing_env clapper_control_hub_init rfl rfl rfl).1

/-! ### Length of the integer events -/

theorem printf_u_length_le (n : Nat) (h : n ≤ G_MAXUINT) : (printf_u n).length ≤ 10 := by
  unfold printf_u Nat.toDigits
  exact Nat.toDigitsCore_length 10 (by decide) (n + 1) n 10
    (lt_of_le_of_lt h (by decide)) (by decide)

theorem printf_bool_length_le (flag : Bool) : (printf_bool flag).length ≤ 5 := by
  cases flag <;> decide

theorem __JSON_CHANGED_EVENT_length (n : String) (t : CString) :
    (__JSON_CHANGED_EVENT n t).length = 2 * n.data.length + t.length + 24 := by
  have h1 : "event".data.length = 5 := rfl
  have h2 : "_changed".data.length = 8 := rfl
  simp only [__JSON_CHANGED_EVENT, List.length_append, List.length_cons, List.length_nil, h1, h2]
  omega

theorem __JSON_CUSTOM_EVENT_length (n k1 : String) (t1 : CString) (k2 : String) (t2 : CString) :
    (__JSON_CUSTOM_EVENT n k1 t1 k2 t2).length =
      n.data.length + k1.data.length + t1.length + k2.data.length + t2.length + 20 := by
  have h1 : "event".data.length = 5 := rfl
  simp only [__JSON_CUSTOM_EVENT, List.length_append, List.length_cons, List.length_nil, h1]
  omega

/-- C27: no event with integer values is cut by the event buffer. For every 32-bit value
of `state`, `played_index`, `progression`, `id`, `index`, `flags`, `before` and `after`,
for both values of `mute` and for `queue_cleared`, the text that the format prints in full
is at most 68 bytes long, so strictly shorter than the 128 bytes of the buffer, and the
text left in the buffer is that full text: the JSON object of the event, ending in its
closing brace. -/
theorem integer_events_are_not_cut (message : WsMessage) (h : integer_valued message) :
    message.formatted.length ≤ 68 ∧
    message.formatted.length < WS_EVENT_SIZE ∧
    message.text = message.formatted ∧
    message.text = event_json message ∧
    message.text.getLast? = some '}' := by
  have hlen : message.formatted.length ≤ 68 := by
    cases message with
    | state_changed state =>
        have := printf_u_length_le state h
        rw [WsMessage.formatted, __JSON_CHANGED_EVENT_length]
        have : ("state" : String).data.length = 5 := rfl
        omega
    | position_changed p => exact h.elim
    | speed_changed p => exact h.elim
    | volume_changed p => exact h.elim
    | mute_changed mute =>
        have := printf_bool_length_le mute
        rw [WsMessage.formatted, __JSON_CHANGED_EVENT_length]
        have : ("mute" : String).data.length = 4 := rfl
        omega
    | played_index_changed index =>
        have := printf_u_length_le index h
        rw [WsMessage.formatted, __JSON_CHANGED_EVENT_length]
        have : ("played_index" : String).data.length = 12 := rfl
        omega
    | progression_changed mode =>
        have := printf_u_length_le mode h
        rw [WsMessage.formatted, __JSON_CHANGED_EVENT_length]
        have : ("progression" : String).data.length = 11 := rfl
        omega
    | item_updated item_id flags =>
        have := printf_u_length_le item_id h.1
        have := printf_u_length_le flags h.2
        rw [WsMessage.formatted, __JSON_CUSTOM_EVENT_length]
        have : ("item_updated" : String).data.length = 12 := rfl
        have : ("id" : String).data.length = 2 := rfl
        have : ("flags" : String).data.length = 5 := rfl
        omega
    | item_added item_id index =>
        have := printf_u_length_le item_id h.1
        have := printf_u_length_le index h.2
        rw [WsMessage.formatted, __JSON_CUSTOM_EVENT_length]
        have : ("item_added" : String).data.length = 10 := rfl
        have : ("id" : String).data.length = 2 := rfl
        have : ("index" : String).data.length = 5 := rfl
        omega
    | item_removed item_id index =>
        have := printf_u_length_le item_id h.1
        have := printf_u_length_le index h.2
        rw [WsMessage.formatted, __JSON_CUSTOM_EVENT_length]
        have : ("item_removed" : String).data.length = 12 := rfl
        have : ("id" : String).data.length = 2 := rfl
        have : ("index" : String).data.length = 5 := rfl
        omega
    | item_repositioned before after =>
        have := printf_u_length_le before h.1
        have := printf_u_length_le after h.2
        rw [WsMessage.formatted, __JSON_CUSTOM_EVENT_length]
        have : ("item_repositioned" : String).data.length = 17 := rfl
        have : ("before" : String).data.length = 6 := rfl
        have : ("after" : String).data.length = 5 := rfl
        omega
    | queue_cleared => decide
  have hlt : message.formatted.length < WS_EVENT_SIZE := lt_of_le_of_lt hlen (by decide)
  have htext : message.text = message.formatted := g_snprintf_of_short _ _ hlt
  have hlast : message.formatted.getLast? = some '}' := by
    cases message <;>
      first
        | exact List.getLast?_concat _
        | decide
  refine ⟨hlen, hlt, htext, ?_, ?_⟩
  · rw [htext, formatted_eq_event_json]
  · rw [htext, hlast]

set_option maxRecDepth 20000 in
/-- C27, witness: the longest of these events, a move between the two largest indices,
is printed in full in 68 bytes. -/
theorem integer_events_are_not_cut_witness :
    integer_valued (.item_repositioned G_MAXUINT G_MAXUINT) ∧
    (WsMessage.item_repositioned G_MAXUINT G_MAXUINT).formatted.length = 68 ∧
    String.mk (WsMessage.item_repositioned G_MAXUINT G_MAXUINT).text =
      "\x7b\"event\":\"item_repositioned\",\"before\":4294967295,\"after\":4294967295\x7d" :=
  ⟨⟨le_refl _, le_refl _⟩, by decide,
    (integer_events_are_not_cut (.item_repositioned G_MAXUINT G_MAXUINT)
      ⟨le_refl _, le_refl _⟩).2.2.1 ▸ (by decide)⟩

/-! ### Mirrored position -/

theorem _send_entries_txt_chain (self : ClapperControlHubMdns) (sizeof_txt : Nat) :
    (chain_from rr_data_txt.next (_send_entries_txt_data self sizeof_txt) (some 0) N_TXT).map
        rr_data_txt.txt =
      [g_strlcpy (self.txt_records.getD 0 []) sizeof_txt,
        g_strlcpy (self.txt_records.getD 1 []) sizeof_txt,
        g_strlcpy (self.txt_records.getD 2 []) sizeof_txt,
        g_strlcpy (self.txt_records.getD 3 []) sizeof_txt] := by
  rfl

theorem g_strlcpy_of_short (src : CString) (dest_size : Nat) (h : src.length < dest_size) :
    g_strlcpy src dest_size = src := by
  unfold g_strlcpy
  exact List.take_of_length_le (by omega)

/-- C22: the announcer answers a callback exactly when the service asked for is absent or
is `_clapper._tcp.local`. The answer then counts 4 records in its header, and the chain of
records is, in this order: the PTR record named after the service type and pointing to the
instance name; the TXT record of the instance name with the copies of the 4 metadata
strings in their order, each copy being the string itself when it fits the text buffer of
a TXT entry; the SRV record of the instance name with the current port (as the 16-bit
field holds it), priority and weight 0 and the domain name as target; and the address
record of the domain name, of type A with the IPv4 address when the family of the query
address is `AF_INET`, else of type AAAA with the IPv6 address. Every record has TTL 0 when
the announcement is a goodbye and 120 otherwise. -/
theorem announcer_answers_with_four_records (sizeof_txt : Nat) (self : ClapperControlHubMdns)
    (addr : sockaddr) (service : Option CString) (type : mdns_announce_type) :
    ((_mdns_cb sizeof_txt self addr service type).isSome ↔
      (service = none ∨ service = some CLAPPER_CONTROL_HUB_MDNS_SERVICE.data)) ∧
    (∀ hdr answers, _mdns_cb sizeof_txt self addr service type = some (hdr, answers) →
      hdr.num_ans_rr = 4 ∧
      mdns_entries_send answers =
        [{ type := .RR_PTR, name := CLAPPER_CONTROL_HUB_MDNS_SERVICE.data,
           data := .PTR self.service_link, rr_class := RR_IN, msbit := 1,
           ttl := if type = .MDNS_ANNOUNCE_GOODBYE then 0 else 120, next := some 1 },
         { type := .RR_TXT, name := self.service_link,
           data := .TXT
             [g_strlcpy (self.txt_records.getD 0 []) sizeof_txt,
               g_strlcpy (self.txt_records.getD 1 []) sizeof_txt,
               g_strlcpy (self.txt_records.getD 2 []) sizeof_txt,
               g_strlcpy (self.txt_records.getD 3 []) sizeof_txt],
           rr_class := RR_IN, msbit := 1,
           ttl := if type = .MDNS_ANNOUNCE_GOODBYE then 0 else 120, next := some 2 },
         { type := .RR_SRV, name := self.service_link,
           data := .SRV (self.port % 65536).toNat 0 0 self.domain_name,
           rr_class := RR_IN, msbit := 1,
           ttl := if type = .MDNS_ANNOUNCE_GOODBYE then 0 else 120, next := some 3 },
         { type := if addr.sa_family = AF_INET then .RR_A else .RR_AAAA,
           name := self.domain_name,
           data := if addr.sa_family = AF_INET then .A addr.sin_addr
             else .AAAA addr.sin6_addr,
           rr_class := RR_IN, msbit := 1,
           ttl := if type = .MDNS_ANNOUNCE_GOODBYE then 0 else 120, next := none }] ∧
      (∀ entry ∈ mdns_entries_send answers,
        entry.ttl = if type = .MDNS_ANNOUNCE_GOODBYE then 0 else 120)) ∧
    (self.txt_records.length = N_TXT → (∀ text ∈ self.txt_records, text.length < sizeof_txt) →
      [g_strlcpy (self.txt_records.getD 0 []) sizeof_txt,
        g_strlcpy (self.txt_records.getD 1 []) sizeof_txt,
        g_strlcpy (self.txt_records.getD 2 []) sizeof_txt,
        g_strlcpy (self.txt_records.getD 3 []) sizeof_txt] = self.txt_records) ∧
    (0 ≤ self.port → self.port < 65536 → ((self.port % 65536).toNat : Int) = self.port) := by
  have hsend : ∀ hdr answers, _send_entries sizeof_txt self addr type = (hdr, answers) →
      hdr.num_ans_rr = 4 ∧
      mdns_entries_send answers =
        [{ type := .RR_PTR, name := CLAPPER_CONTROL_HUB_MDNS_SERVICE.data,
           data := .PTR self.service_link, rr_class := RR_IN, msbit := 1,
           ttl := if type = .MDNS_ANNOUNCE_GOODBYE then 0 else 120, next := some 1 },
         { type := .RR_TXT, name := self.service_link,
           data := .TXT
             [g_strlcpy (self.txt_records.getD 0 []) sizeof_txt,
               g_strlcpy (self.txt_records.getD 1 []) sizeof_txt,
               g_strlcpy (self.txt_records.getD 2 []) sizeof_txt,
               g_strlcpy (self.txt_records.getD 3 []) sizeof_txt],
           rr_class := RR_IN, msbit := 1,
           ttl := if type = .MDNS_ANNOUNCE_GOODBYE then 0 else 120, next := some 2 },
         { type := .RR_SRV, name := self.service_link,
           data := .SRV (self.port % 65536).toNat 0 0 self.domain_name,
           rr_class := RR_IN, msbit := 1,
           ttl := if type = .MDNS_ANNOUNCE_GOODBYE then 0 else 120, next := some 3 },
         { type := if addr.sa_family = AF_INET then .RR_A else .RR_AAAA,
           name := self.domain_name,
           data := if addr.sa_family = AF_INET then .A addr.sin_addr
             else .AAAA addr.sin6_addr,
           rr_class := RR_IN, msbit := 1,
           ttl := if type = .MDNS_ANNOUNCE_GOODBYE then 0 else 120, next := none }] ∧
      (∀ entry ∈ mdns_entries_send answers,
        entry.ttl = if type = .MDNS_ANNOUNCE_GOODBYE then 0 else 120) := by
    intro hdr answers h
    have hh : hdr = (_send_entries sizeof_txt self addr type).1 := by rw [h]
    have ha : answers = (_send_entries sizeof_txt self addr type).2 := by rw [h]
    subst hh
    subst ha
    have hchain := _send_entries_txt_chain self sizeof_txt
    by_cases hfam : addr.sa_family = AF_INET
    · simp only [_send_entries, if_pos hfam, hchain, mdns_entries_send, chain_from,
        List.length_cons, List.length_nil]
      refine ⟨rfl, rfl, ?_⟩
      intro entry hentry
      change entry ∈ [_, _, _, _] at hentry
      simp only [List.mem_cons, List.mem_singleton, List.not_mem_nil, or_false] at hentry
      rcases hentry with h | h | h | h <;> (rw [h]; rfl)
    · simp only [_send_entries, if_neg hfam, hchain, mdns_entries_send, chain_from,
        List.length_cons, List.length_nil]
      refine ⟨rfl, rfl, ?_⟩
      intro entry hentry
      change entry ∈ [_, _, _, _] at hentry
      simp only [List.mem_cons, List.mem_singleton, List.not_mem_nil, or_false] at hentry
      rcases hentry with h | h | h | h <;> (rw [h]; rfl)
  refine ⟨?_, ?_, ?_, ?_⟩
  · cases service with
    | none => simp [_mdns_cb]
    | some s =>
        by_cases hs : s = CLAPPER_CONTROL_HUB_MDNS_SERVICE.data
        · simp [_mdns_cb, hs]
        · simp [_mdns_cb, hs]
  · intro hdr answers h
    cases service with
    | none =>
        simp only [_mdns_cb, Option.some.injEq] at h
        exact hsend hdr answers h
    | some s =>
        by_cases hs : s = CLAPPER_CONTROL_HUB_MDNS_SERVICE.data
        · simp only [_mdns_cb, hs, ne_eq, not_true_eq_false, if_false, Option.some.injEq] at h
          exact hsend hdr answers h
        · simp [_mdns_cb, hs] at h
  · intro hlen hfit
    match htxt : self.txt_records, hlen with
    | [a, b, c, d], _ =>
        rw [htxt] at hfit
        simp only [List.getD_cons_zero, List.getD_cons_succ]
        rw [g_strlcpy_of_short a _ (hfit a (by simp)), g_strlcpy_of_short b _ (hfit b (by simp)),
          g_strlcpy_of_short c _ (hfit c (by simp)), g_strlcpy_of_short d _ (hfit d (by simp))]
  · intro h0 h1
    rw [Int.emod_eq_of_lt h0 h1]
    exact Int.toNat_of_nonneg h0

set_option maxRecDepth 20000 in
/-- C22, witness: a goodbye for the service of the announcer is answered by an IPv4 query
address with the records PTR, TXT, SRV and A, all of TTL 0, the TXT record carrying the
four strings of the sample announcer and the SRV record its port 8080; a query for
another service is not answered. -/
theorem announcer_answers_with_four_records_witness :
    (_mdns_cb 256 sample_mdns sample_addr4 (some "_clapper._tcp.local".data)
      .MDNS_ANNOUNCE_GOODBYE).isSome = true ∧
    _mdns_cb 256 sample_mdns sample_addr4 (some "_http._tcp.local".data)
      .MDNS_ANNOUNCE_RESPONSE = none ∧
    (mdns_entries_send (_send_entries 256 sample_mdns sample_addr4
      .MDNS_ANNOUNCE_GOODBYE).2).map (fun entry => (entry.type, entry.ttl)) =
        [(.RR_PTR, 0), (.RR_TXT, 0), (.RR_SRV, 0), (.RR_A, 0)] ∧
    [g_strlcpy (sample_mdns.txt_records.getD 0 []) 256,
      g_strlcpy (sample_mdns.txt_records.getD 1 []) 256,
      g_strlcpy (sample_mdns.txt_records.getD 2 []) 256,
      g_strlcpy (sample_mdns.txt_records.getD 3 []) 256] =
        ["id=box-player-controlhub0".data, "chver=0.10.0".data, "cver=0.10.0".data,
          "app=player".data] ∧
    ((sample_mdns.port % 65536).toNat : Int) = 8080 := by
  have h := announcer_answers_with_four_records 256 sample_mdns sample_addr4
    (some "_clapper._tcp.local".data) .MDNS_ANNOUNCE_GOODBYE
  refine ⟨h.1.2 (Or.inr rfl), by decide, ?_, ?_, ?_⟩
  · have h1 := (h.2.1 (_send_entries 256 sample_mdns sample_addr4 .MDNS_ANNOUNCE_GOODBYE).1
      (_send_entries 256 sample_mdns sample_addr4 .MDNS_ANNOUNCE_GOODBYE).2 rfl).2.1
    rw [h1]
    decide
  · rw [h.2.2.1 (by decide) (by decide)]
    decide
  · rw [h.2.2.2 (by decide) (by decide)]
    decide

/-! ### Iteration over a JSON array -/

theorem json_reader_read_element_at_array (reader : JsonReader) (elements : List JsonNode)
    (herror : reader.error = false) (hcurrent : reader.current_node = some (.array elements))
    (i : Nat) (element : JsonNode) (h : elements[i]? = some element) :
    json_reader_read_element reader i =
      (true, reader_at_element reader (.array elements) element) := by
  cases reader with
  | mk root current_node previous error =>
      simp only at herror hcurrent
      subst herror
      subst hcurrent
      simp [json_reader_read_element, reader_at_element, h]

theorem json_reader_end_element_at_element (reader : JsonReader) (array element : JsonNode)
    (herror : reader.error = false) (hcurrent : reader.current_node = some array) :
    json_reader_end_element (reader_at_element reader array element) = reader := by
  cases reader with
  | mk root current_node previous error =>
      simp only at herror hcurrent
      subst herror
      subst hcurrent
      simp [json_reader_end_element, reader_at_element]

theorem json_utils_array_foreach_loop_spec (func : JsonUtilsForeachFunc) (reader : JsonReader)
    (elements : List JsonNode) (herror : reader.error = false)
    (hcurrent : reader.current_node = some (.array elements))
    (hfunc : ∀ element ∈ elements, ∀ harvest,
      (func (reader_at_element reader (.array elements) element) harvest).2.1 =
        reader_at_element reader (.array elements) element) :
    ∀ (todo done : List JsonNode) (harvest : ClapperHarvest) (called : List Nat),
      elements = done ++ todo →
      json_utils_array_foreach_loop func todo.length done.length reader harvest called =
        (reader,
          (visit_until (visit_element func reader (.array elements)) todo harvest).1,
          called ++ List.range' done.length
            (visit_until (visit_element func reader (.array elements)) todo harvest).2) := by
  intro todo
  induction todo with
  | nil =>
      intro done harvest called _
      simp [json_utils_array_foreach_loop, visit_until]
  | cons element rest ih =>
      intro done harvest called hsplit
      have hget : elements[done.length]? = some element := by
        rw [hsplit, List.getElem?_append_right (le_refl _)]
        simp
      have hmem : element ∈ elements := by
        rw [hsplit]
        simp
      have hread := json_reader_read_element_at_array reader elements herror hcurrent
        done.length element hget
      have hback := json_reader_end_element_at_element reader (.array elements) element
        herror hcurrent
      have hsplit' : elements = (done ++ [element]) ++ rest := by
        rw [hsplit]
        simp
      have hlen : (done ++ [element]).length = done.length + 1 := by simp
      simp only [json_utils_array_foreach_loop, List.length_cons, hread, if_true,
        hfunc element hmem harvest, hback, visit_until, visit_element]
      by_cases hcont : (func (reader_at_element reader (.array elements) element) harvest).1
          = true
      · have hrest := ih (done ++ [element])
          (func (reader_at_element reader (.array elements) element) harvest).2.2
          (called ++ [done.length]) hsplit'
        rw [hlen] at hrest
        simp only [hcont, Bool.not_true, Bool.false_eq_true, if_false, if_true, hrest,
          visit_element]
        simp [List.range'_succ]
      · simp only [hcont, Bool.not_eq_true] at hcont ⊢
        simp [hcont, List.range']

theorem json_reader_is_array_iff (reader : JsonReader) :
    json_reader_is_array reader = true ↔
      reader.error = false ∧ ∃ elements, reader.current_node = some (.array elements) := by
  cases reader with
  | mk root current_node previous error =>
      cases error with
      | true => simp [json_reader_is_array]
      | false =>
          cases current_node with
          | none => simp [json_reader_is_array]
          | some node => cases node <;> simp [json_reader_is_array]

theorem visit_until_count_le (visit : JsonNode → ClapperHarvest → Bool × ClapperHarvest) :
    ∀ (elements : List JsonNode) (harvest : ClapperHarvest),
      (visit_until visit elements harvest).2 ≤ elements.length := by
  intro elements
  induction elements with
  | nil => intro harvest; simp [visit_until]
  | cons element rest ih =>
      intro harvest
      simp only [visit_until]
      split
      · simpa using ih _
      · simp

theorem json_utils_array_foreach_loop_called (func : JsonUtilsForeachFunc) :
    ∀ (remaining i : Nat) (reader : JsonReader) (harvest : ClapperHarvest)
      (called : List Nat),
      ∃ k, k ≤ remaining ∧
        (json_utils_array_foreach_loop func remaining i reader harvest called).2.2 =
          called ++ List.range' i k := by
  intro remaining
  induction remaining with
  | zero =>
      intro i reader harvest called
      exact ⟨0, le_refl _, by simp [json_utils_array_foreach_loop]⟩
  | succ remaining ih =>
      intro i reader harvest called
      simp only [json_utils_array_foreach_loop]
      by_cases hread : (json_reader_read_element reader i).1 = true
      · by_cases hcont : (func (json_reader_read_element reader i).2 harvest).1 = true
        · obtain ⟨k, hk, hcalled⟩ := ih (i + 1)
            (json_reader_end_element (func (json_reader_read_element reader i).2 harvest).2.1)
            (func (json_reader_read_element reader i).2 harvest).2.2 (called ++ [i])
          refine ⟨k + 1, by omega, ?_⟩
          simp only [hread, hcont, if_true, Bool.not_true, Bool.false_eq_true, if_false,
            hcalled]
          simp [List.range'_succ]
        · simp only [Bool.not_eq_true] at hcont
          refine ⟨1, by omega, ?_⟩
          simp [hread, hcont, List.range']
      · simp only [Bool.not_eq_true] at hread
        refine ⟨0, by omega, ?_⟩
        simp [hread]

theorem json_utils_array_foreach_loop_first (func : JsonUtilsForeachFunc)
    (reader : JsonReader) (element : JsonNode) (rest : List JsonNode)
    (herror : reader.error = false)
    (hcurrent : reader.current_node = some (.array (element :: rest)))
    (harvest : ClapperHarvest) :
    ∃ k, k ≤ rest.length ∧
      (json_utils_array_foreach_loop func (rest.length + 1) 0 reader harvest []).2.2 =
        List.range (k + 1) := by
  have hread := json_reader_read_element_at_array reader (element :: rest) herror hcurrent
    0 element (by simp)
  simp only [json_utils_array_foreach_loop, hread, if_true]
  by_cases hcont : (func (reader_at_element reader (.array (element :: rest)) element)
      harvest).1 = true
  · obtain ⟨k, hk, hcalled⟩ := json_utils_array_foreach_loop_called func rest.length (0 + 1)
      (json_reader_end_element
        (func (reader_at_element reader (.array (element :: rest)) element) harvest).2.1)
      (func (reader_at_element reader (.array (element :: rest)) element) harvest).2.2
      ([] ++ [0])
    refine ⟨k, hk, ?_⟩
    simp only [hcont, Bool.not_true, Bool.false_eq_true, if_false, hcalled]
    simp [List.range_eq_range', List.range'_succ]
  · simp only [Bool.not_eq_true] at hcont
    refine ⟨0, by omega, ?_⟩
    simp [hcont, List.range_eq_range', List.range']

/-- C25 (as stated, refuted): with the reader at an empty array the function returns
FALSE, although the reader is positioned at an array. And with the callback of the
PeerTube extractor at an array whose first object holds a number as its `playlistUrl`,
the callback returns TRUE at index 0 but leaves the reader inside that object, at the
number: the iteration then ends after this one call, returning TRUE with nothing filled,
and the reader is not positioned at the array afterwards. -/
theorem empty_array_gives_false :
    json_reader_is_array (json_reader_new (.array [])) = true ∧
    (json_utils_array_foreach (json_reader_new (.array [])) empty_harvest
      (_read_uris_array_cb "playlistUrl".data)).result = false ∧
    (_read_uris_array_cb "playlistUrl".data
      (reader_at_element (json_reader_new number_playlists) number_playlists number_member)
      empty_harvest).1 = true ∧
    (_read_uris_array_cb "playlistUrl".data
      (reader_at_element (json_reader_new number_playlists) number_playlists number_member)
      empty_harvest).2.1.current_node = some (.int 5) ∧
    (json_utils_array_foreach (json_reader_new number_playlists) empty_harvest
      (_read_uris_array_cb "playlistUrl".data)).called = [0] ∧
    (json_utils_array_foreach (json_reader_new number_playlists) empty_harvest
      (_read_uris_array_cb "playlistUrl".data)).result = true ∧
    (json_utils_array_foreach (json_reader_new number_playlists) empty_harvest
      (_read_uris_array_cb "playlistUrl".data)).harvest = empty_harvest ∧
    json_reader_is_array (json_utils_array_foreach (json_reader_new number_playlists)
      empty_harvest (_read_uris_array_cb "playlistUrl".data)).reader = false ∧
    (json_utils_array_foreach (json_reader_new number_playlists) empty_harvest
      (_read_uris_array_cb "playlistUrl".data)).reader.current_node = some number_member := by
  refine ⟨by decide, by decide, by decide, ?_, by decide, by decide, by decide, by decide, ?_⟩
  · rfl
  · rfl

/-- C25 (amended): `json_utils_array_foreach` returns TRUE exactly when the reader is
positioned at an array that has at least one element; it returns FALSE when the reader is
not at an array, without calling the callback, and also when the array is empty. At an
array, whatever the callback does, the calls are made at the consecutive indices 0, 1, up
to `k - 1` for some `k` not above the number of elements, and `k` is 0 only for the empty
array, so the function returns TRUE exactly when the callback was called. With a callback
that leaves the reader at the element where it was called, the callback is called at the
elements in index order starting at 0, each call receiving the harvest as the call before
left it; the iteration stops after the first element for which the callback returns FALSE,
and the reader is positioned at the array again afterwards. -/
theorem array_foreach_visits_in_order (func : JsonUtilsForeachFunc) (reader : JsonReader)
    (harvest : ClapperHarvest) :
    (json_reader_is_array reader = false →
      (json_utils_array_foreach reader harvest func).result = false ∧
      (json_utils_array_foreach reader harvest func).called = [] ∧
      (json_utils_array_foreach reader harvest func).harvest = harvest ∧
      (json_utils_array_foreach reader harvest func).reader = reader) ∧
    (json_reader_is_array reader = true →
      ∃ elements, reader.current_node = some (.array elements) ∧
        ((json_utils_array_foreach reader harvest func).result = true ↔ elements ≠ []) ∧
        (∃ k, k ≤ elements.length ∧ (k = 0 ↔ elements = []) ∧
          (json_utils_array_foreach reader harvest func).called = List.range k) ∧
        ((json_utils_array_foreach reader harvest func).result = true ↔
          (json_utils_array_foreach reader harvest func).called ≠ []) ∧
        ((∀ element ∈ elements, ∀ harvest,
            (func (reader_at_element reader (.array elements) element) harvest).2.1 =
              reader_at_element reader (.array elements) element) →
          (json_utils_array_foreach reader harvest func).reader = reader ∧
          (json_utils_array_foreach reader harvest func).called =
            List.range (visit_until (visit_element func reader (.array elements))
              elements harvest).2 ∧
          (json_utils_array_foreach reader harvest func).harvest =
            (visit_until (visit_element func reader (.array elements)) elements harvest).1 ∧
          (visit_until (visit_element func reader (.array elements)) elements harvest).2 ≤
            elements.length)) := by
  constructor
  · intro h
    simp [json_utils_array_foreach, h]
  · intro h
    obtain ⟨herror, elements, hcurrent⟩ := (json_reader_is_array_iff reader).1 h
    have hcount : json_reader_count_elements reader = ((elements.length : Int), reader) := by
      simp [json_reader_count_elements, herror, hcurrent]
    have hresult : (json_utils_array_foreach reader harvest func).result = true ↔
        elements ≠ [] := by
      simp only [json_utils_array_foreach, h, hcount, Bool.not_true, Bool.false_eq_true,
        if_false, decide_eq_true_eq]
      constructor
      · intro hpos hnil
        rw [hnil] at hpos
        simp at hpos
      · intro hne
        have := List.length_pos.2 hne
        exact_mod_cast this
    have hgeneral : ∃ k, k ≤ elements.length ∧ (k = 0 ↔ elements = []) ∧
        (json_utils_array_foreach reader harvest func).called = List.range k := by
      cases elements with
      | nil =>
          refine ⟨0, le_refl _, by simp, ?_⟩
          simp [json_utils_array_foreach, h, hcount, json_utils_array_foreach_loop]
      | cons element rest =>
          obtain ⟨k, hk, hcalled⟩ := json_utils_array_foreach_loop_first func reader element
            rest herror hcurrent harvest
          refine ⟨k + 1, by simp only [List.length_cons]; omega, by simp, ?_⟩
          simp only [json_utils_array_foreach, h, hcount, Bool.not_true, Bool.false_eq_true,
            if_false, Int.toNat_ofNat, List.length_cons]
          exact hcalled
    refine ⟨elements, hcurrent, hresult, hgeneral, ?_, ?_⟩
    · obtain ⟨k, _, hzero, hcalled⟩ := hgeneral
      rw [hresult, hcalled]
      constructor
      · intro hne hrange
        exact hne (hzero.1 (List.range_eq_nil.1 hrange))
      · intro hne hnil
        exact hne (by rw [hzero.2 hnil]; rfl)
    · intro hfunc
      have hloop := json_utils_array_foreach_loop_spec func reader elements herror hcurrent
        hfunc elements [] harvest [] (by simp)
      simp only [List.length_nil, List.nil_append] at hloop
      simp only [json_utils_array_foreach, h, hcount, Bool.not_true, Bool.false_eq_true,
        if_false, Int.toNat_ofNat, hloop]
      refine ⟨trivial, ?_, trivial, visit_until_count_le _ _ _⟩
      rw [List.range_eq_range']

theorem _read_uris_array_cb_reader (key_str : CString) (reader : JsonReader)
    (harvest : ClapperHarvest) :
    (_read_uris_array_cb key_str reader harvest).2.1 =
      (json_utils_get_string reader [.name key_str]).2 := by
  simp only [_read_uris_array_cb]
  cases (json_utils_get_string reader [.name key_str]).1 <;> rfl

/-- C25, witness: at an object the function returns FALSE without a call; at an array of
three objects of which the second is the first to carry a `playlistUrl`, the callback that
stops once the harvest is filled is called at the indices 0 and 1, the harvest holds the
URI of the second object and the function returns TRUE. -/
theorem array_foreach_visits_in_order_witness :
    (json_utils_array_foreach (json_reader_new (string_member "id" "x")) empty_harvest
      (_read_uris_array_cb "playlistUrl".data)).result = false ∧
    (json_utils_array_foreach (json_reader_new sample_playlists) empty_harvest
      (_read_uris_array_cb "playlistUrl".data)).result = true ∧
    (json_utils_array_foreach (json_reader_new sample_playlists) empty_harvest
      (_read_uris_array_cb "playlistUrl".data)).called = [0, 1] ∧
    (json_utils_array_foreach (json_reader_new sample_playlists) empty_harvest
      (_read_uris_array_cb "playlistUrl".data)).harvest.buffer =
        some "http://a/1.m3u8".data := by
  have hobject := (array_foreach_visits_in_order (_read_uris_array_cb "playlistUrl".data)
    (json_reader_new (string_member "id" "x")) empty_harvest).1 (by decide)
  obtain ⟨elements, hcurrent, hresult, _, _, hrest⟩ :=
    (array_foreach_visits_in_order (_read_uris_array_cb "playlistUrl".data)
      (json_reader_new sample_playlists) empty_harvest).2 (by decide)
  have helements : elements = [string_member "id" "x",
      string_member "playlistUrl" "http://a/1.m3u8",
      string_member "playlistUrl" "http://a/2.m3u8"] := by
    simp only [json_reader_new, sample_playlists, Option.some.injEq, JsonNode.array.injEq]
      at hcurrent
    exact hcurrent.symm
  subst helements
  have hfunc := hrest (by
    intro element hmem harvest
    rw [_read_uris_array_cb_reader]
    simp only [List.mem_cons, List.mem_singleton, List.not_mem_nil, or_false] at hmem
    rcases hmem with h | h | h <;> (subst h; rfl))
  refine ⟨hobject.1, hresult.2 (by simp), ?_, ?_⟩
  · rw [hfunc.2.1]
    decide
  · rw [hfunc.2.2.1]
    decide
/-! ### PeerTube response -/

set_option maxRecDepth 20000 in
/-- C29: for a response whose only streaming playlist has no `playlistUrl` and whose only
file has a `fileUrl`, `_read_extract_api_response` returns TRUE although the harvest was
not filled, and the `files` array is not consulted: `json_utils_array_foreach` returned
TRUE for the non-empty `streamingPlaylists` array after its callback had found no URI. The
same response with an empty `streamingPlaylists` array does fill the harvest from
`files`. -/
theorem unfilled_playlists_report_success :
    (_read_extract_api_response (json_reader_new sample_response) empty_harvest).1 = true ∧
    (_read_extract_api_response (json_reader_new sample_response) empty_harvest).2.2.buffer
      = none ∧
    (_read_extract_api_response (json_reader_new sample_response_files_only)
      empty_harvest).1 = true ∧
    (_read_extract_api_response (json_reader_new sample_response_files_only)
      empty_harvest).2.2.buffer = some "http://a/v.mp4".data := by
  refine ⟨by decide, by decide, by decide, by decide⟩

/-! ### Resume of playback -/

theorem _memo_is_recallable_iff (self : ClapperRecall) (memo : ClapperRecallMemo) :
    _memo_is_recallable self memo = true ↔ spec_recallable self memo := by
  simp [_memo_is_recallable, spec_recallable, and_assoc]

theorem _consider_playback_resume_of_guards (env : RecallEnv) (self : ClapperRecall)
    (memo : ClapperRecallMemo) (h : resume_guards self memo) :
    _consider_playback_resume env self memo =
      ({ self with resume_done := true },
        if self.auto_resume = true ∧ memo.position > self.played_position ∧
            spec_recallable self memo then
          if env.player then [RecallCall.clapper_player_seek memo.position] else []
        else []) := by
  obtain ⟨h1, h2, h3, h4⟩ := h
  have hhash : memo.hash.isNone = false := by
    cases hm : memo.hash with
    | none => exact absurd hm h2
    | some _ => rfl
  have hdur : decide (memo.duration ≤ 0) = false := by
    simpa using h3
  have hstate : decide (self.state < CLAPPER_PLAYER_STATE_PAUSED) = false := by
    simpa using h4
  unfold _consider_playback_resume
  rw [h1, hhash, hdur, hstate]
  simp only [Bool.or_self, Bool.false_eq_true, if_false]
  congr 1
  by_cases hall : self.auto_resume = true ∧ memo.position > self.played_position ∧
      spec_recallable self memo
  · rw [if_pos hall]
    have : (self.auto_resume && decide (memo.position > self.played_position)
        && _memo_is_recallable self memo) = true := by
      simp [hall.1, hall.2.1, (_memo_is_recallable_iff self memo).2 hall.2.2]
    rw [if_pos this]
  · rw [if_neg hall]
    have : ¬ (self.auto_resume && decide (memo.position > self.played_position)
        && _memo_is_recallable self memo) = true := by
      intro hb
      simp only [Bool.and_eq_true, decide_eq_true_eq] at hb
      exact hall ⟨hb.1.1, hb.1.2, (_memo_is_recallable_iff self memo).1 hb.2⟩
    rw [if_neg this]

theorem _consider_playback_resume_of_not_guards (env : RecallEnv) (self : ClapperRecall)
    (memo : ClapperRecallMemo) (h : ¬ resume_guards self memo) :
    _consider_playback_resume env self memo = (self, []) := by
  unfold _consider_playback_resume
  rw [if_pos]
  by_contra hcond
  apply h
  simp only [Bool.or_eq_true, decide_eq_true_eq, not_or, Bool.not_eq_true, not_le, not_lt]
    at hcond
  obtain ⟨⟨⟨h1, h2⟩, h3⟩, h4⟩ := hcond
  refine ⟨h1, ?_, h3, h4⟩
  intro hnone
  rw [hnone] at h2
  simp at h2

theorem _consider_playback_resume_done (env : RecallEnv) (self : ClapperRecall)
    (memo : ClapperRecallMemo) (h : self.resume_done = true) :
    _consider_playback_resume env self memo = (self, []) :=
  _consider_playback_resume_of_not_guards env self memo (fun hg => by
    rw [hg.1] at h
    exact Bool.false_ne_true h)

theorem no_seek_nil : no_seek [] = true := rfl

theorem no_seek_cons (call : RecallCall) (calls : List RecallCall) :
    no_seek (call :: calls) = (!call.is_seek && no_seek calls) := rfl

theorem no_seek_append (first second : List RecallCall) :
    no_seek (first ++ second) = (no_seek first && no_seek second) := by
  simp [no_seek, List.all_append]

theorem is_seek_insert (item : Nat) (marker : ClapperMarker) :
    (RecallCall.clapper_timeline_insert_marker item marker).is_seek = false := rfl

theorem is_seek_remove (item : Nat) (marker : ClapperMarker) :
    (RecallCall.clapper_timeline_remove_marker item marker).is_seek = false := rfl

theorem is_seek_memorize (hash : CString) (useconds : Int) :
    (RecallCall.memorize hash useconds).is_seek = false := rfl

theorem is_seek_push (memo : Nat) : (RecallCall.g_thread_pool_push memo).is_seek = false := rfl

theorem is_seek_move (memo : Nat) :
    (RecallCall.g_thread_pool_move_to_front memo).is_seek = false := rfl

theorem _refresh_marker_presence_no_seek (self : ClapperRecall) (memo : ClapperRecallMemo)
    (forced : Bool) : no_seek (_refresh_marker_presence self memo forced).2 = true := by
  unfold _refresh_marker_presence
  cases hmarker : memo.marker <;>
    cases hshould : (self.mark_position && _memo_is_recallable self memo) <;>
    cases forced <;>
    simp [hmarker, hshould, no_seek, RecallCall.is_seek]

theorem memorize_current_memo_position_no_seek (env : RecallEnv) (self : ClapperRecall)
    (memo : ClapperRecallMemo) :
    no_seek (memorize_current_memo_position env self memo) = true := by
  unfold memorize_current_memo_position
  split
  · split <;> simp [no_seek, RecallCall.is_seek]
  · rfl

theorem no_seek_flatMap {α : Type} (items : List α) (calls : α → List RecallCall)
    (h : ∀ item, no_seek (calls item) = true) : no_seek (items.flatMap calls) = true := by
  induction items with
  | nil => rfl
  | cons item rest ih => rw [List.flatMap_cons, no_seek_append, h item, ih]; rfl

theorem _refresh_all_markers_presence_quiet (self : ClapperRecall)
    (h : self.resume_done = true) : quiet_step (_refresh_all_markers_presence self) :=
  ⟨h, no_seek_flatMap _ _ fun memo => _refresh_marker_presence_no_seek self memo false⟩

theorem markers_removal_no_seek (memos : List ClapperRecallMemo) :
    no_seek (memos.flatMap fun memo =>
      match memo.marker with
      | some marker => [RecallCall.clapper_timeline_remove_marker memo.item marker]
      | none => []) = true := by
  apply no_seek_flatMap
  intro memo
  split <;> rfl

theorem recall_step_quiet (env : RecallEnv) (self : ClapperRecall) (event : RecallEvent)
    (hevent : event.is_played_item_changed = false) (h : self.resume_done = true) :
    quiet_step (recall_step env self event) := by
  cases event with
  | played_item_changed item => exact absurd hevent (by simp [RecallEvent.is_played_item_changed])
  | state_changed state =>
      simp only [recall_step, clapper_recall_state_changed]
      split
      · rename_i memo _
        have hdone := _consider_playback_resume_done env { self with state := state } memo h
        rw [hdone]
        exact ⟨h, rfl⟩
      · exact ⟨h, rfl⟩
  | position_changed position =>
      simp only [recall_step, clapper_recall_position_changed]
      split
      · exact ⟨h, rfl⟩
      · exact ⟨h, rfl⟩
  | item_updated item duration flags =>
      simp only [recall_step, clapper_recall_item_updated]
      split
      · exact ⟨h, rfl⟩
      · split
        · rename_i memo _
          by_cases hr : flags &&& CLAPPER_REACTABLE_ITEM_UPDATED_REDIRECT_URI = 0 <;>
            by_cases hd : flags &&& CLAPPER_REACTABLE_ITEM_UPDATED_DURATION = 0 <;>
            by_cases hc : self.current_memo = some memo.ptr <;>
            simp only [hr, hd, hc, ne_eq, not_true_eq_false, not_false_eq_true, if_true,
              if_false, _consider_playback_resume_done env self _ h] <;>
            exact ⟨h, by simp only [no_seek_append, _refresh_marker_presence_no_seek,
              no_seek_cons, no_seek_nil, is_seek_push, is_seek_move, Bool.not_false,
              Bool.and_true, Bool.and_self]⟩
        · exact ⟨h, rfl⟩
  | queue_item_added memo item index =>
      simp only [recall_step, clapper_recall_queue_item_added]
      exact ⟨h, rfl⟩
  | queue_item_removed item index =>
      simp only [recall_step, clapper_recall_queue_item_removed]
      split
      · rename_i memo rest _
        by_cases hcur : self.current_memo = some memo.ptr
        · simp only [hcur, if_true]
          split
          · exact ⟨h, by simp only [no_seek_append, memorize_current_memo_position_no_seek,
              no_seek_cons, no_seek_nil, is_seek_remove, Bool.not_false, Bool.and_true,
              Bool.and_self]⟩
          · exact ⟨h, memorize_current_memo_position_no_seek _ _ _⟩
        · simp only [hcur, if_false]
          split
          · exact ⟨h, rfl⟩
          · exact ⟨h, rfl⟩
      · exact ⟨h, rfl⟩
  | queue_item_repositioned before after =>
      simp only [recall_step, clapper_recall_queue_item_repositioned]
      split
      · exact ⟨h, rfl⟩
      · exact ⟨h, rfl⟩
  | queue_cleared =>
      simp only [recall_step, clapper_recall_queue_cleared]
      split
      · refine ⟨h, ?_⟩
        rw [no_seek_append, memorize_current_memo_position_no_seek, markers_removal_no_seek]
        rfl
      · refine ⟨h, ?_⟩
        rw [no_seek_append, markers_removal_no_seek]
        rfl
  | hash_generated memo pending_hash row =>
      simp only [recall_step, _on_hash_generated_cb]
      split
      · exact ⟨h, rfl⟩
      · simp only [_consider_playback_resume_done env self _ h, ite_self]
        exact ⟨h, by simp only [List.nil_append, _refresh_marker_presence_no_seek]⟩
  | set_persistent_storage value => exact ⟨h, rfl⟩
  | set_mark_position value =>
      simp only [recall_step, clapper_recall_set_mark_position]
      split
      · exact _refresh_all_markers_presence_quiet _ h
      · exact ⟨h, rfl⟩
  | set_auto_resume value => exact ⟨h, rfl⟩
  | set_time time_ptr value =>
      cases time_ptr <;>
        simp only [recall_step, clapper_recall_set_time_ptr] <;>
        split <;>
        first
          | exact _refresh_all_markers_presence_quiet _ h
          | exact ⟨h, rfl⟩

theorem recall_run_quiet (env : RecallEnv) (events : List RecallEvent) :
    ∀ self : ClapperRecall, (∀ event ∈ events, event.is_played_item_changed = false) →
      self.resume_done = true → quiet_step (recall_run env self events) := by
  induction events with
  | nil =>
      intro self _ h
      exact ⟨h, rfl⟩
  | cons event rest ih =>
      intro self hevents h
      have hstep := recall_step_quiet env self event (hevents event (List.mem_cons_self _ _)) h
      have hrest := ih (recall_step env self event).1
        (fun e he => hevents e (List.mem_cons_of_mem _ he)) hstep.1
      refine ⟨hrest.1, ?_⟩
      simp only [recall_run]
      rw [no_seek_append, hstep.2, hrest.2]
      rfl

/-- C24: a resume consideration of Recall that has a player seeks exactly when no resume
was done yet for the played item, the hash of the memo is set, its duration is above 0,
the player state is at least PAUSED, auto-resume is enabled, the remembered position
exceeds the played position, and the memo is recallable (position at least min-elapsed,
duration at least min-duration, position at most duration minus min-remaining); the seek,
the only call a consideration can make, goes to the remembered position. A consideration
that passes the first four guards sets the resume flag and changes nothing else, one that
does not pass them changes nothing; a state change with a current memo is such a
consideration. Once the flag is set, no sequence of events without a change of the played
item issues a seek or clears the flag, and a change of the played item clears it. -/
theorem resume_seeks_when_all_guards_hold (env : RecallEnv) (self : ClapperRecall)
    (memo : ClapperRecallMemo) (events : List RecallEvent) :
    (env.player = true →
      ((_consider_playback_resume env self memo).2 = [.clapper_player_seek memo.position] ↔
        resume_guards self memo ∧ self.auto_resume = true ∧
          memo.position > self.played_position ∧ spec_recallable self memo)) ∧
    ((_consider_playback_resume env self memo).2 = [] ∨
      (_consider_playback_resume env self memo).2 = [.clapper_player_seek memo.position]) ∧
    (resume_guards self memo →
      (_consider_playback_resume env self memo).1 = { self with resume_done := true }) ∧
    (¬ resume_guards self memo → _consider_playback_resume env self memo = (self, [])) ∧
    (∀ state, self.current_memo.bind (memo_at self) = some memo →
      clapper_recall_state_changed env self state =
        _consider_playback_resume env { self with state := state } memo) ∧
    (resume_guards self memo → (∀ event ∈ events, event.is_played_item_changed = false) →
      (recall_run env (_consider_playback_resume env self memo).1 events).1.resume_done = true ∧
      ∀ call ∈ (recall_run env (_consider_playback_resume env self memo).1 events).2,
        call.is_seek = false) ∧
    (∀ item, (clapper_recall_played_item_changed env self item).1.resume_done = false) := by
  refine ⟨?_, ?_, ?_, ?_, ?_, ?_, ?_⟩
  · intro hplayer
    by_cases hg : resume_guards self memo
    · rw [_consider_playback_resume_of_guards env self memo hg]
      by_cases hall : self.auto_resume = true ∧ memo.position > self.played_position ∧
          spec_recallable self memo
      · simp [hall, hplayer, hg]
      · simp only [if_neg hall]
        constructor
        · intro h
          simp at h
        · intro h
          exact absurd h.2 hall
    · rw [_consider_playback_resume_of_not_guards env self memo hg]
      constructor
      · intro h
        simp at h
      · intro h
        exact absurd h.1 hg
  · by_cases hg : resume_guards self memo
    · rw [_consider_playback_resume_of_guards env self memo hg]
      split
      · split
        · exact Or.inr rfl
        · exact Or.inl rfl
      · exact Or.inl rfl
    · rw [_consider_playback_resume_of_not_guards env self memo hg]
      exact Or.inl rfl
  · intro hg
    rw [_consider_playback_resume_of_guards env self memo hg]
  · exact _consider_playback_resume_of_not_guards env self memo
  · intro state hcurrent
    have hcurrent' : ({ self with state := state } : ClapperRecall).current_memo.bind
        (memo_at { self with state := state }) = some memo := hcurrent
    simp only [clapper_recall_state_changed, hcurrent']
  · intro hg hevents
    have hdone : (_consider_playback_resume env self memo).1.resume_done = true := by
      rw [_consider_playback_resume_of_guards env self memo hg]
    have hquiet := recall_run_quiet env events _ hevents hdone
    refine ⟨hquiet.1, ?_⟩
    intro call hcall
    have := List.all_eq_true.1 hquiet.2 call hcall
    simpa using this
  · intro item
    simp only [clapper_recall_played_item_changed]
    split <;> (try split) <;> rfl

unseal Rat.sub in
/-- C24, witness: the sample Recall, paused at the start of an item of 1000 seconds with
500 seconds remembered, seeks to 500 when it considers a resume; afterwards a state
change, a position, a duration update and the hash do not make it seek again. -/
theorem resume_seeks_when_all_guards_hold_witness :
    (_consider_playback_resume recall_env sample_recall sample_memo).2 =
      [.clapper_player_seek 500] ∧
    (recall_run recall_env (_consider_playback_resume recall_env sample_recall sample_memo).1
      [.state_changed 3, .position_changed 10, .item_updated 1 1000 2,
        .hash_generated 100 "h".data none]).1.resume_done = true ∧
    (∀ call ∈ (recall_run recall_env
      (_consider_playback_resume recall_env sample_recall sample_memo).1
      [.state_changed 3, .position_changed 10, .item_updated 1 1000 2,
        .hash_generated 100 "h".data none]).2, call.is_seek = false) := by
  have h := resume_seeks_when_all_guards_hold recall_env sample_recall sample_memo
    [.state_changed 3, .position_changed 10, .item_updated 1 1000 2,
      .hash_generated 100 "h".data none]
  have hguards : resume_guards sample_recall sample_memo := by decide
  have hall : resume_guards sample_recall sample_memo ∧ sample_recall.auto_resume = true ∧
      sample_memo.position > sample_recall.played_position ∧
        spec_recallable sample_recall sample_memo := by decide
  have hquiet := h.2.2.2.2.2.1 hguards (by decide)
  exact ⟨(h.1 rfl).2 hall, hquiet.1, hquiet.2⟩
/-! ### Marker of the remembered position -/

unseal Rat.sub Rat.mul Rat.inv in
/-- C30: after the events of `stale_marker_events` the memo of the item remembers 500
seconds, mark-position is enabled and the memo is recallable, yet its marker starts and
ends at 0. The marker was inserted at 0 when the item was left, where the memo remembered
0 (the next to last event); the hash callback then took the position 500 from the
database, and its refresh, which is not forced, kept the marker because one was present
and one was due. -/
theorem marker_keeps_position_before_recall :
    ((recall_run recall_env clapper_recall_init stale_marker_events.dropLast).1.memos.map
      fun memo => (memo.position, memo.marker)) =
        [(0, some { marker_type := RECALL_MARKER_TYPE, title := none, start := 0,
                    end_ := 0 })] ∧
    ((recall_run recall_env clapper_recall_init stale_marker_events).1.memos.map
      fun memo => (memo.position, memo.marker)) =
        [(500, some { marker_type := RECALL_MARKER_TYPE, title := none, start := 0,
                      end_ := 0 })] ∧
    (recall_run recall_env clapper_recall_init stale_marker_events).1.mark_position = true ∧
    ((recall_run recall_env clapper_recall_init stale_marker_events).1.memos.map
      fun memo => _memo_is_recallable
        (recall_run recall_env clapper_recall_init stale_marker_events).1 memo) = [true] := by
  refine ⟨by decide, by decide, by decide, by decide⟩

/-! ### M3U playlists -/

theorem m3u_advance_length_lt (first : Char) (more : CString) :
    (m3u_advance (first :: more)).length < (first :: more).length := by
  simp only [m3u_advance]
  split
  · simp only [List.length_drop, List.length_cons]
    omega
  · simp

theorem take_length_takeWhile (ptr : CString) :
    ptr.take (ptr.takeWhile fun c => c ≠ '\n').length = ptr.takeWhile fun c => c ≠ '\n' := by
  induction ptr with
  | nil => rfl
  | cons c rest ih =>
      by_cases hc : c = '\n'
      · simp [List.takeWhile_cons, hc]
      · simp only [List.takeWhile_cons, hc, ne_eq, not_false_eq_true, decide_True, if_true,
          List.length_cons, List.take_succ_cons]
        rw [ih]

theorem split_lines_cons (first : Char) (more : CString) :
    split_lines (first :: more) =
      ((first :: more).takeWhile fun c => c ≠ '\n') :: split_lines (m3u_advance (first :: more)) := by
  induction more generalizing first with
  | nil =>
      by_cases hc : first = '\n'
      · simp [split_lines, m3u_advance, List.takeWhile_cons, hc]
      · simp [split_lines, m3u_advance, List.takeWhile_cons, hc]
  | cons second rest ih =>
      by_cases hc : first = '\n'
      · simp [split_lines, m3u_advance, List.takeWhile_cons, hc]
      · have hrest := ih second
        have hadvance : m3u_advance (first :: second :: rest) = m3u_advance (second :: rest) := by
          simp only [m3u_advance, List.takeWhile_cons, hc, ne_eq, not_false_eq_true,
            decide_True, if_true, List.length_cons, List.drop_succ_cons]
          by_cases h : (List.takeWhile (fun c => decide ¬c = '\n') (second :: rest)).length
              < rest.length + 1
          · have h' : (List.takeWhile (fun c => decide ¬c = '\n') (second :: rest)).length + 1
                < rest.length + 1 + 1 := by omega
            simp only [List.takeWhile_cons] at h h'
            simp only [List.takeWhile_cons, h, h', if_true]
          · have h' : ¬ (List.takeWhile (fun c => decide ¬c = '\n') (second :: rest)).length + 1
                < rest.length + 1 + 1 := by omega
            simp only [List.takeWhile_cons] at h h'
            simp only [List.takeWhile_cons, h, h', if_false]
        rw [hadvance]
        simp only [split_lines, hc, if_false] at hrest ⊢
        rw [hrest]
        simp [List.takeWhile_cons, hc]

theorem take_takeWhile_iff (p : CString) (hp : ∀ c ∈ p, c ≠ '\n') :
    ∀ l : CString, l.take p.length = p ↔
      (l.takeWhile fun c => c ≠ '\n').take p.length = p := by
  induction p with
  | nil => intro l; simp
  | cons a p ih =>
      intro l
      cases l with
      | nil => simp
      | cons b l =>
          have ha : a ≠ '\n' := hp a (List.mem_cons_self _ _)
          have hp' : ∀ c ∈ p, c ≠ '\n' := fun c hc => hp c (List.mem_cons_of_mem _ hc)
          by_cases hb : b = '\n'
          · subst hb
            simp only [List.length_cons, List.take_succ_cons, List.cons.injEq,
              List.takeWhile_cons, ne_eq, not_true_eq_false, decide_False]
            constructor
            · intro h
              exact absurd h.1.symm ha
            · intro h
              simp at h
          · simp only [List.length_cons, List.take_succ_cons, List.cons.injEq,
              List.takeWhile_cons, ne_eq, hb, not_false_eq_true, decide_True, if_true]
            rw [ih hp' l]

theorem g_strndup_line (ptr : CString) :
    g_strndup ptr (ptr.takeWhile fun c => c ≠ '\n').length =
      g_strndup (ptr.takeWhile fun c => c ≠ '\n') (ptr.takeWhile fun c => c ≠ '\n').length := by
  unfold g_strndup
  rw [take_length_takeWhile, List.take_length]

theorem _parse_extinf_data_line (env : M3uEnv) (ptr : CString) :
    _parse_extinf_data env ptr (ptr.takeWhile fun c => c ≠ '\n').length =
      _parse_extinf_data env (ptr.takeWhile fun c => c ≠ '\n')
        (ptr.takeWhile fun c => c ≠ '\n').length := by
  unfold _parse_extinf_data
  rw [g_strndup_line]

theorem _parse_uri_data_line (env : M3uEnv) (ptr : CString) :
    _parse_uri_data env ptr (ptr.takeWhile fun c => c ≠ '\n').length =
      _parse_uri_data env (ptr.takeWhile fun c => c ≠ '\n')
        (ptr.takeWhile fun c => c ≠ '\n').length := by
  unfold _parse_uri_data
  rw [g_strndup_line]

theorem _parse_uri_data_of_resolves (env : M3uEnv) (line : CString)
    (h : env.gst_uri_is_valid (g_strndup line line.length) = true ∨
      (env.g_uri_resolve_relative (g_strndup line line.length)).isSome = true) :
    _parse_uri_data env line line.length = (some (item_of_line env line none), false) := by
  unfold _parse_uri_data item_of_line
  by_cases hvalid : env.gst_uri_is_valid (g_strndup line line.length) = true
  · simp [hvalid]
  · rcases h with h | h
    · exact absurd h hvalid
    · cases hres : env.g_uri_resolve_relative (g_strndup line line.length) with
      | none => rw [hres] at h; simp at h
      | some res => simp [hvalid, hres]

theorem clapper_parser_m3u_parse_switch_eq (env : M3uEnv) (first : Char) (more : CString)
    (tags : Option GstTagList) (playlist : List ClapperMediaItem) (success : Bool) :
    clapper_parser_m3u_parse_switch env (first :: more) tags playlist success =
      if is_extinf_line ((first :: more).takeWhile fun c => c ≠ '\n') then
        (_parse_extinf_data env ((first :: more).takeWhile fun c => c ≠ '\n')
          ((first :: more).takeWhile fun c => c ≠ '\n').length, playlist, success, false)
      else if is_item_line ((first :: more).takeWhile fun c => c ≠ '\n') then
        match _parse_uri_data env ((first :: more).takeWhile fun c => c ≠ '\n')
            ((first :: more).takeWhile fun c => c ≠ '\n').length with
        | (some item, error) =>
            match tags with
            | some found => (none, playlist ++ [{ item with tags := some found }], true, error)
            | none => (tags, playlist ++ [item], true, error)
        | (none, error) => (tags, playlist, success, error)
      else (tags, playlist, success, false) := by
  have hext : is_extinf_line ((first :: more).takeWhile fun c => c ≠ '\n') =
      decide ((first :: more).take 8 = "#EXTINF:".data) := by
    unfold is_extinf_line
    have := take_takeWhile_iff "#EXTINF:".data (by decide) (first :: more)
    have hlen : "#EXTINF:".data.length = 8 := rfl
    rw [hlen] at this
    exact decide_eq_decide.2 this.symm
  rw [hext]
  simp only [clapper_parser_m3u_parse_switch]
  rw [_parse_extinf_data_line, _parse_uri_data_line]
  by_cases hnl : first = '\n'
  · subst hnl
    simp [is_item_line, List.takeWhile_cons]
  · by_cases hhash : first = '#'
    · subst hhash
      simp [is_item_line, List.takeWhile_cons]
    · have hnot : ¬ ((first :: more).take 8 = "#EXTINF:".data) := by
        intro h
        have : ((first :: more).take 8).head? = ("#EXTINF:".data).head? := by rw [h]
        simp at this
        exact hhash this
      simp only [hnot, decide_False, Bool.false_eq_true, if_false, List.head?_cons]
      have hhead : ((first :: more).takeWhile fun c => c ≠ '\n').head? = some first := by
        simp [List.takeWhile_cons, hnl]
      simp only [is_item_line, hhead]
      by_cases hskip : first = Char.ofNat 0 ∨ first = '\n' ∨ first = ' '
      · have hitem : (decide (first ≠ '#') && decide (first ≠ Char.ofNat 0) &&
            decide (first ≠ '\n') && decide (first ≠ ' ')) = false := by
          rcases hskip with h | h | h <;> simp [h]
        rw [hitem, if_pos hskip]
        rfl
      · have hitem : (decide (first ≠ '#') && decide (first ≠ Char.ofNat 0) &&
            decide (first ≠ '\n') && decide (first ≠ ' ')) = true := by
          simp only [not_or] at hskip
          simp [hhash, hskip.1, hskip.2.1, hskip.2.2]
        rw [hitem, if_neg hskip]
        rfl

theorem clapper_parser_m3u_parse_loop_nil (env : M3uEnv) (round : Nat)
    (tags : Option GstTagList) (playlist : List ClapperMediaItem) (success : Bool) :
    clapper_parser_m3u_parse_loop env [] round tags playlist success =
      { success := success, playlist := playlist, error := false } := by
  rw [clapper_parser_m3u_parse_loop]

theorem clapper_parser_m3u_parse_loop_cons (env : M3uEnv) (first : Char) (more : CString)
    (round : Nat) (tags : Option GstTagList) (playlist : List ClapperMediaItem)
    (success : Bool) :
    clapper_parser_m3u_parse_loop env (first :: more) round tags playlist success =
      if (clapper_parser_m3u_parse_switch env (first :: more) tags playlist success).2.2.2
          || env.g_cancellable_is_cancelled round then
        { success := false,
          playlist := (clapper_parser_m3u_parse_switch env (first :: more) tags playlist
            success).2.1,
          error := (clapper_parser_m3u_parse_switch env (first :: more) tags playlist
            success).2.2.2 }
      else
        clapper_parser_m3u_parse_loop env (m3u_advance (first :: more)) (round + 1)
          (clapper_parser_m3u_parse_switch env (first :: more) tags playlist success).1
          (clapper_parser_m3u_parse_switch env (first :: more) tags playlist success).2.1
          (clapper_parser_m3u_parse_switch env (first :: more) tags playlist success).2.2.1 := by
  rw [clapper_parser_m3u_parse_loop]

theorem is_item_line_of_extinf (line : CString) (h : is_extinf_line line = true) :
    is_item_line line = false := by
  unfold is_extinf_line at h
  simp only [decide_eq_true_eq] at h
  have hhead : (line.take 8).head? = ("#EXTINF:".data).head? := by rw [h]
  cases line with
  | nil => rfl
  | cons c rest =>
      simp only [List.take_succ_cons, List.head?_cons, Option.some.injEq] at hhead
      have hc : c = '#' := hhead
      subst hc
      rfl

theorem clapper_parser_m3u_parse_loop_spec (env : M3uEnv)
    (hcancel : ∀ round, env.g_cancellable_is_cancelled round = false) :
    ∀ (n : Nat) (ptr : CString), ptr.length ≤ n → ∀ (round : Nat) (earlier : List CString)
      (playlist : List ClapperMediaItem) (success : Bool),
      lines_resolve env (split_lines ptr) →
      clapper_parser_m3u_parse_loop env ptr round (pending_tags env earlier) playlist success =
        { success := success || !(spec_items env earlier (split_lines ptr)).isEmpty,
          playlist := playlist ++ spec_items env earlier (split_lines ptr),
          error := false } := by
  intro n
  induction n with
  | zero =>
      intro ptr hlen round earlier playlist success _
      have hptr : ptr = [] := List.length_eq_zero.1 (Nat.le_zero.1 hlen)
      subst hptr
      rw [clapper_parser_m3u_parse_loop_nil]
      simp [split_lines, spec_items]
  | succ n ih =>
      intro ptr hlen round earlier playlist success hresolve
      cases ptr with
      | nil =>
          rw [clapper_parser_m3u_parse_loop_nil]
          simp [split_lines, spec_items]
      | cons first more =>
          have hshort : (m3u_advance (first :: more)).length ≤ n := by
            have := m3u_advance_length_lt first more
            omega
          rw [split_lines_cons] at hresolve ⊢
          have hrest : lines_resolve env (split_lines (m3u_advance (first :: more))) :=
            fun line hline => hresolve line (List.mem_cons_of_mem _ hline)
          rw [clapper_parser_m3u_parse_loop_cons, clapper_parser_m3u_parse_switch_eq]
          generalize hline : ((first :: more).takeWhile fun c => c ≠ '\n') = line at hresolve ⊢
          by_cases hext : is_extinf_line line = true
          · have hitem := is_item_line_of_extinf line hext
            have hpending : pending_tags env (line :: earlier) =
                _parse_extinf_data env line line.length := by
              simp [pending_tags, hext]
            simp only [hext, if_true, hcancel, Bool.or_self, Bool.false_eq_true, if_false]
            rw [← hpending, ih _ hshort _ _ _ _ hrest]
            simp [spec_items, hitem]
          · by_cases hitem : is_item_line line = true
            · have hpending : pending_tags env (line :: earlier) = none := by
                simp [pending_tags, hext, hitem]
              have huri := _parse_uri_data_of_resolves env line
                (hresolve line (List.mem_cons_self _ _) hitem)
              simp only [hext, hitem, if_true, if_false, huri, Bool.false_eq_true]
              cases htags : pending_tags env earlier with
              | none =>
                  simp only [hcancel, Bool.or_self, Bool.false_eq_true, if_false]
                  have := ih _ hshort (round + 1) (line :: earlier)
                    (playlist ++ [item_of_line env line none]) true hrest
                  rw [hpending] at this
                  rw [this]
                  simp [spec_items, hitem, htags]
              | some found =>
                  simp only [hcancel, Bool.or_self, Bool.false_eq_true, if_false]
                  have := ih _ hshort (round + 1) (line :: earlier)
                    (playlist ++ [{ item_of_line env line none with tags := some found }])
                    true hrest
                  rw [hpending] at this
                  rw [this]
                  simp [spec_items, hitem, htags, item_of_line]
            · have hpending : pending_tags env (line :: earlier) = pending_tags env earlier := by
                simp [pending_tags, hext, hitem]
              simp only [hext, hitem, if_false, hcancel, Bool.or_self, Bool.false_eq_true]
              rw [← hpending, ih _ hshort _ _ _ _ hrest]
              simp [spec_items, hitem]

theorem spec_items_length (env : M3uEnv) :
    ∀ (lines earlier : List CString),
      (spec_items env earlier lines).length = (lines.filter is_item_line).length ∧
      (spec_items env earlier lines).map ClapperMediaItem.uri =
        (lines.filter is_item_line).map fun line => (item_of_line env line none).uri := by
  intro lines
  induction lines with
  | nil => intro earlier; simp [spec_items]
  | cons line rest ih =>
      intro earlier
      by_cases hitem : is_item_line line = true
      · simp [spec_items, hitem, ih (line :: earlier), item_of_line]
      · simp [spec_items, hitem, ih (line :: earlier)]

/-- C28: `clapper_parser_m3u_parse` is total, each round of its loop leaving strictly
fewer bytes than it found. When nothing is cancelled and no item line fails to resolve
(no error), the items appended are, in file order, one per line whose first byte is none
of `#`, NUL, newline and space, the URI of each item being its line or the line resolved;
the call sets no error and returns TRUE exactly when it appended an item. Each item
carries the tags that wait when its line is reached: those of the nearest `#EXTINF` line
before it, unless another item line lies between; so an item line leaves no tags waiting,
a later `#EXTINF` line replaces what waited, and any other line keeps it. -/
theorem m3u_parse_appends_item_lines (env : M3uEnv) (bytes : CString)
    (hcancel : ∀ round, env.g_cancellable_is_cancelled round = false)
    (hresolve : lines_resolve env (split_lines bytes)) :
    (clapper_parser_m3u_parse env bytes).playlist = spec_items env [] (split_lines bytes) ∧
    (clapper_parser_m3u_parse env bytes).error = false ∧
    ((clapper_parser_m3u_parse env bytes).success = true ↔
      (clapper_parser_m3u_parse env bytes).playlist ≠ []) ∧
    (clapper_parser_m3u_parse env bytes).playlist.length =
      ((split_lines bytes).filter is_item_line).length ∧
    (clapper_parser_m3u_parse env bytes).playlist.map ClapperMediaItem.uri =
      ((split_lines bytes).filter is_item_line).map
        (fun line => (item_of_line env line none).uri) ∧
    (∀ earlier line, is_item_line line = true → pending_tags env (line :: earlier) = none) ∧
    (∀ earlier line, is_extinf_line line = true →
      pending_tags env (line :: earlier) = _parse_extinf_data env line line.length) ∧
    (∀ earlier line, is_extinf_line line = false → is_item_line line = false →
      pending_tags env (line :: earlier) = pending_tags env earlier) ∧
    (∀ first more, (m3u_advance (first :: more)).length < (first :: more).length) := by
  have hspec := clapper_parser_m3u_parse_loop_spec env hcancel bytes.length bytes (le_refl _)
    0 [] [] false hresolve
  have hparse : clapper_parser_m3u_parse env bytes =
      { success := !(spec_items env [] (split_lines bytes)).isEmpty,
        playlist := spec_items env [] (split_lines bytes), error := false } := by
    unfold clapper_parser_m3u_parse
    have hnone : pending_tags env [] = none := rfl
    rw [hnone] at hspec
    rw [hspec]
    simp
  rw [hparse]
  refine ⟨rfl, rfl, ?_, (spec_items_length env _ _).1, (spec_items_length env _ _).2,
    ?_, ?_, ?_, m3u_advance_length_lt⟩
  · cases spec_items env [] (split_lines bytes) <;> simp
  · intro earlier line hitem
    have hext : is_extinf_line line = false := by
      cases h : is_extinf_line line with
      | false => rfl
      | true => rw [is_item_line_of_extinf line h] at hitem; exact absurd hitem (by simp)
    simp [pending_tags, hext, hitem]
  · intro earlier line hext
    simp [pending_tags, hext]
  · intro earlier line hext hitem
    simp [pending_tags, hext, hitem]

set_option maxRecDepth 100000 in
unseal Rat.mul in
/-- C28, witness: the sample playlist of nine lines gives three items in file order: the
first with the tags of the `#EXTINF` line before it, the second, which follows an empty
line and a line that starts with a space, without tags, the third with the tags of the
later of the two `#EXTINF` lines before it; the call returns TRUE. -/
theorem m3u_parse_appends_item_lines_witness :
    (clapper_parser_m3u_parse sample_m3u_env sample_m3u).playlist =
      [{ uri := "http://a/1.mp3".data,
         tags := some { duration := some 10000000000, title := some "One".data } },
       { uri := "http://base/b.mp3".data, tags := none },
       { uri := "http://base/c.mp3".data,
         tags := some { duration := some 7000000000, title := some "Y".data } }] ∧
    (clapper_parser_m3u_parse sample_m3u_env sample_m3u).success = true := by
  have h := m3u_parse_appends_item_lines sample_m3u_env sample_m3u (fun _ => rfl)
    (fun _ _ _ => Or.inr rfl)
  have hitems : spec_items sample_m3u_env [] (split_lines sample_m3u) =
      [{ uri := "http://a/1.mp3".data,
         tags := some { duration := some 10000000000, title := some "One".data } },
       { uri := "http://base/b.mp3".data, tags := none },
       { uri := "http://base/c.mp3".data,
         tags := some { duration := some 7000000000, title := some "Y".data } }] := by
    decide
  refine ⟨h.1.trans hitems, h.2.2.1.2 ?_⟩
  rw [h.1, hitems]
  simp

/-! ### Reading a snapshot back -/

end ControlHub
